import Mathlib

/-!
# ISurfaceTexture: proxy, dispatcher and transfer-record codec

A shallow embedding of `libs/gui/ISurfaceTexture.cpp`: the opcode enum, the
`BpSurfaceTexture` proxy, `BnSurfaceTexture::onTransact` and the
`QueueBufferInput` flatten/unflatten codec, followed by the properties proved
about them.

The collaborators that the file only uses (the parcel, the fence, the graphic
buffer, the transport, the base binder) are either parameters or small models
whose doc comment says so.
-/

namespace android

/-! ## Status codes and machine integers -/

/-- Modelled from the spec: `status_t` is a signed integer; zero means success. The
header `utils/Errors.h` that declares it is not part of the source file. -/
abbrev status_t := Int

/-- Modelled from the spec: the success status, zero. -/
def NO_ERROR : status_t := 0

/-- Modelled from the spec: the status the interface check returns for a foreign
token ("not this protocol"); `utils/Errors.h` gives it the value `-EPERM`. -/
def PERMISSION_DENIED : status_t := -1

/-- Modelled from the spec: the status the parcel returns when a flattened object
cannot be read; `utils/Errors.h` gives it the value `-EINVAL`. -/
def BAD_VALUE : status_t := -22

/-- Conversion of an integer to an unsigned machine integer of `bits` bits. -/
def toUnsigned (bits : Nat) (v : Int) : Nat := (v % (2 : Int) ^ bits).toNat

/-- Conversion of an unsigned machine integer of `bits` bits to the signed integer
with the same two's complement representation. -/
def toSigned (bits : Nat) (n : Nat) : Int :=
  if n % 2 ^ bits < 2 ^ (bits - 1) then ((n % 2 ^ bits : Nat) : Int)
  else ((n % 2 ^ bits : Nat) : Int) - (2 : Int) ^ bits

/-- Subtraction in `size_t` arithmetic of `bits` bits: `a - b` wraps around below zero. -/
def sizeSub (bits : Nat) (a b : Nat) : Nat := (((a : Int) - (b : Int)) % (2 : Int) ^ bits).toNat

/-- Addition in `size_t` arithmetic of `bits` bits. -/
def sizeAdd (bits : Nat) (a b : Nat) : Nat := (a + b) % 2 ^ bits

/-- The `n` bytes of the object representation of the unsigned value `v`, least
significant byte first (the byte order of the platforms the library targets). -/
def leBytes : Nat → Nat → List Nat
  | 0, _ => []
  | n + 1, v => (v % 256) :: leBytes n (v / 256)

/-- The unsigned value whose object representation is the given bytes, least
significant byte first. -/
def ofLeBytes : List Nat → Nat
  | [] => 0
  | b :: bs => b + 256 * ofLeBytes bs

/-- The `n` bytes found at offset `off` of the memory that starts at a pointer; the
model reads zero past the end of what it knows of that memory. It is what
`memcpy(&field, p, n)` copies. -/
def memRead (mem : List Nat) (off n : Nat) : List Nat :=
  (List.range n).map fun i => mem.getD (off + i) 0

/-! ## Flattenable objects -/

/-- The outcome of `Flattenable::flatten`: the status, the bytes written from the
start of the buffer, and the descriptors written from the start of `fds[]`. -/
structure Flattened where
  err : status_t
  bytes : List Nat
  fds : List Int
  deriving DecidableEq, Repr

/-- The `Flattenable` contract of an object of type `α`, as the parcel and the codec
use it. `flatten self size count` is given the size of the buffer and of `fds[]`;
`unflatten self buffer size fds count` mutates the receiver and returns it with the
status. -/
structure Flattenable (α : Type) where
  getFlattenedSize : α → Nat
  getFdCount : α → Nat
  flatten : α → Nat → Nat → Flattened
  unflatten : α → List Nat → Nat → List Int → Nat → status_t × α

/-- The collaborators of the file that it consumes as opaque interfaces: the width of
`size_t`, the fence (`Fence::isValid`, `new Fence()`, its flattenable contract) and
the graphic buffer (`new GraphicBuffer()`, its flattenable contract). -/
structure Env (F G : Type) where
  sizeBits : Nat
  fence : Flattenable F
  fenceIsValid : F → Bool
  fenceNew : F
  graphicBuffer : Flattenable G
  graphicBufferNew : G

/-! ## The transfer records -/

/-- Modelled from the spec: the crop rectangle, four signed 32-bit bounds
(`ui/Rect.h` is not part of the source file). -/
structure Rect where
  left : Int
  top : Int
  right : Int
  bottom : Int
  deriving DecidableEq, Repr

/-- The record `ISurfaceTexture::QueueBufferInput`: `int64_t timestamp`, `Rect crop`,
`int scalingMode`, `uint32_t transform`, `sp<Fence> fence` (a null pointer is `none`). -/
structure QueueBufferInput (F : Type) where
  timestamp : Int
  crop : Rect
  scalingMode : Int
  transform : Nat
  fence : Option F
  deriving DecidableEq, Repr

/-- The record `ISurfaceTexture::QueueBufferOutput`, a plain structure of four
`uint32_t`. -/
structure QueueBufferOutput where
  width : Nat
  height : Nat
  transformHint : Nat
  numPendingBuffers : Nat
  deriving DecidableEq, Repr

/-- The fields of a record hold values of their C types. -/
def QueueBufferInput.WellTyped {F : Type} (r : QueueBufferInput F) : Prop :=
  (-(2 : Int) ^ 63 ≤ r.timestamp ∧ r.timestamp < (2 : Int) ^ 63) ∧
  (-(2 : Int) ^ 31 ≤ r.crop.left ∧ r.crop.left < (2 : Int) ^ 31) ∧
  (-(2 : Int) ^ 31 ≤ r.crop.top ∧ r.crop.top < (2 : Int) ^ 31) ∧
  (-(2 : Int) ^ 31 ≤ r.crop.right ∧ r.crop.right < (2 : Int) ^ 31) ∧
  (-(2 : Int) ^ 31 ≤ r.crop.bottom ∧ r.crop.bottom < (2 : Int) ^ 31) ∧
  (-(2 : Int) ^ 31 ≤ r.scalingMode ∧ r.scalingMode < (2 : Int) ^ 31) ∧
  r.transform < 2 ^ 32

/-- The object representation of a signed integer of `n` bytes. -/
def intBytes (n : Nat) (v : Int) : List Nat := leBytes n (toUnsigned (8 * n) v)

/-- The signed integer of `n` bytes read from memory at `off`. -/
def readInt (mem : List Nat) (off n : Nat) : Int := toSigned (8 * n) (ofLeBytes (memRead mem off n))

/-- The unsigned integer of `n` bytes read from memory at `off`. -/
def readNat (mem : List Nat) (off n : Nat) : Nat := ofLeBytes (memRead mem off n) % 2 ^ (8 * n)

/-- The object representation of a `Rect`: left, top, right, bottom. -/
def Rect.bytes (c : Rect) : List Nat :=
  intBytes 4 c.left ++ intBytes 4 c.top ++ intBytes 4 c.right ++ intBytes 4 c.bottom

/-- The `Rect` read from memory at `off`. -/
def Rect.read (mem : List Nat) (off : Nat) : Rect :=
  ⟨readInt mem off 4, readInt mem (off + 4) 4, readInt mem (off + 8) 4, readInt mem (off + 12) 4⟩

/-- The size `sizeof(timestamp)` of an `int64_t`. -/
def sizeof_timestamp : Nat := 8

/-- The size `sizeof(crop)` of a `Rect`. -/
def sizeof_crop : Nat := 16

/-- The size `sizeof(scalingMode)` of an `int`. -/
def sizeof_scalingMode : Nat := 4

/-- The size `sizeof(transform)` of a `uint32_t`. -/
def sizeof_transform : Nat := 4

/-- The size `sizeof(bool)`. -/
def sizeof_bool : Nat := 1

/-- The static helper `isValid(const sp<Fence>&)`: `fence.get() && fence->isValid()`. -/
def isValid {F G : Type} (env : Env F G) (fence : Option F) : Bool :=
  match fence with
  | some f => env.fenceIsValid f
  | none => false

/-- The operand `isValid(fence) ? fence->getFlattenedSize() : 0`. -/
def fenceFlattenedSize {F G : Type} (env : Env F G) (fence : Option F) : Nat :=
  match isValid env fence, fence with
  | true, some f => env.fence.getFlattenedSize f
  | _, _ => 0

/-- The method `QueueBufferInput::getFlattenedSize`; the sum is taken in `size_t`. -/
def QueueBufferInput.getFlattenedSize {F G : Type} (env : Env F G)
    (self : QueueBufferInput F) : Nat :=
  sizeAdd env.sizeBits
    (sizeof_timestamp + sizeof_crop + sizeof_scalingMode + sizeof_transform + sizeof_bool)
    (fenceFlattenedSize env self.fence)

/-- The method `QueueBufferInput::getFdCount`. -/
def QueueBufferInput.getFdCount {F G : Type} (env : Env F G)
    (self : QueueBufferInput F) : Nat :=
  match isValid env self.fence, self.fence with
  | true, some f => env.fence.getFdCount f
  | _, _ => 0

/-- The bytes the five `memcpy` calls of `flatten` write, in order; `p` then points
just past them. -/
def QueueBufferInput.header {F : Type} (self : QueueBufferInput F) (haveFence : Bool) :
    List Nat :=
  intBytes sizeof_timestamp self.timestamp ++ (Rect.bytes self.crop ++
    (intBytes sizeof_scalingMode self.scalingMode ++
      (leBytes sizeof_transform self.transform ++ [if haveFence then 1 else 0])))

/-- The method `QueueBufferInput::flatten`. The fence, when there is a valid one, is
handed the rest of the buffer, `size - (p - buffer)` in `size_t` arithmetic. -/
def QueueBufferInput.flatten {F G : Type} (env : Env F G) (self : QueueBufferInput F)
    (size count : Nat) : Flattened :=
  let haveFence := isValid env self.fence
  let written := QueueBufferInput.header self haveFence
  match haveFence, self.fence with
  | true, some f =>
      let r := env.fence.flatten f (sizeSub env.sizeBits size written.length) count
      ⟨r.err, written ++ r.bytes, r.fds⟩
  | _, _ => ⟨NO_ERROR, written, []⟩

/-- The method `QueueBufferInput::unflatten`. The five `memcpy` calls read 33 bytes
at the pointer whatever `size` says; a fence is created and unflattened only when
the flag byte is set, and the receiver keeps its fence otherwise. -/
def QueueBufferInput.unflatten {F G : Type} (env : Env F G) (self : QueueBufferInput F)
    (buffer : List Nat) (size : Nat) (fds : List Int) (count : Nat) :
    status_t × QueueBufferInput F :=
  let timestamp := readInt buffer 0 sizeof_timestamp
  let p := sizeof_timestamp
  let crop := Rect.read buffer p
  let p := p + sizeof_crop
  let scalingMode := readInt buffer p sizeof_scalingMode
  let p := p + sizeof_scalingMode
  let transform := readNat buffer p sizeof_transform
  let p := p + sizeof_transform
  let haveFence : Bool := decide (readNat buffer p sizeof_bool ≠ 0)
  let p := p + sizeof_bool
  if haveFence then
    let r := env.fence.unflatten env.fenceNew (buffer.drop p) (sizeSub env.sizeBits size p)
      fds count
    (r.1, ⟨timestamp, crop, scalingMode, transform, some r.2⟩)
  else
    (NO_ERROR, ⟨timestamp, crop, scalingMode, transform, self.fence⟩)

/-- The flattenable contract of `QueueBufferInput`, as the parcel sees it. -/
def QueueBufferInput.flattenable {F G : Type} (env : Env F G) :
    Flattenable (QueueBufferInput F) where
  getFlattenedSize := QueueBufferInput.getFlattenedSize env
  getFdCount := QueueBufferInput.getFdCount env
  flatten := QueueBufferInput.flatten env
  unflatten := QueueBufferInput.unflatten env

/-! ## A concrete fence and graphic buffer

Used to run the definitions on concrete inputs. -/

/-- Modelled from the spec: the fence primitive, an opaque handle with its own
serialize/deserialize and validity-check contract, is not part of the source file.
In this instance a fence is a descriptor number, `-1` when it has none; it flattens
to no bytes and one descriptor. -/
def fdFence : Flattenable Int where
  getFlattenedSize := fun _ => 0
  getFdCount := fun f => if f = -1 then 0 else 1
  flatten := fun f size count =>
    if size ≠ 0 ∨ count ≠ 1 then ⟨BAD_VALUE, [], []⟩ else ⟨NO_ERROR, [], [f]⟩
  unflatten := fun self _ size fds count =>
    if size ≠ 0 ∨ (count ≠ 0 ∧ count ≠ 1) then (BAD_VALUE, self)
    else if count = 1 then (NO_ERROR, fds.headD (-1)) else (NO_ERROR, self)

/-- Modelled from the spec: the buffer-memory object, an opaque handle with its own
serialize/deserialize contract, is not part of the source file. In this instance a
graphic buffer is a list of bytes and flattens to them. -/
def bytesBuffer : Flattenable (List Nat) where
  getFlattenedSize := fun b => b.length
  getFdCount := fun _ => 0
  flatten := fun b _ _ => ⟨NO_ERROR, b, []⟩
  unflatten := fun _ buffer size _ _ => (NO_ERROR, buffer.take size)

/-- The collaborators on a platform with a 32-bit `size_t`, with the concrete fence
and graphic buffer. -/
def env32 : Env Int (List Nat) where
  sizeBits := 32
  fence := fdFence
  fenceIsValid := fun f => decide (f ≠ -1)
  fenceNew := -1
  graphicBuffer := bytesBuffer
  graphicBufferNew := []

/-! ## The parcel -/

/-- Modelled from the spec: one positional field of a message. The parcel of
`binder/Parcel.h` is not part of the source file; the model keeps what each of its
write calls appends as one field: the interface token, a 32-bit integer, a flattened
object (its length, its descriptor count, its bytes, its descriptors), the block
reserved in place for a `QueueBufferOutput`, a binder handle, a string. -/
inductive Field where
  | token (descriptor : String)
  | int32 (v : Int)
  | flat (len fdCount : Nat) (buf : List Nat) (fds : List Int)
  | inplace (o : QueueBufferOutput)
  | binder (b : Option Nat)
  | string8 (s : String)
  deriving DecidableEq, Repr

/-- Modelled from the spec: a message, its positional fields and a read cursor that
counts the fields consumed so far. -/
structure Parcel where
  fields : List Field
  pos : Nat
  deriving DecidableEq, Repr

/-- A parcel as `Parcel data, reply;` declares it. -/
def Parcel.empty : Parcel := ⟨[], 0⟩

/-- The field under the read cursor. -/
def Parcel.peek (p : Parcel) : Option Field := p.fields.get? p.pos

/-- The parcel after one read. -/
def Parcel.advance (p : Parcel) : Parcel := ⟨p.fields, p.pos + 1⟩

/-- Modelled from the spec: `Parcel::writeInterfaceToken`, the protocol-identity token. -/
def Parcel.writeInterfaceToken (p : Parcel) (descriptor : String) : Parcel :=
  ⟨p.fields ++ [Field.token descriptor], p.pos⟩

/-- Modelled from the spec: `Parcel::enforceInterface`, which reads the token and tells
whether it is the given one. -/
def Parcel.enforceInterface (p : Parcel) (descriptor : String) : Bool × Parcel :=
  (match p.peek with
    | some (Field.token d) => decide (d = descriptor)
    | _ => false,
   p.advance)

/-- Modelled from the spec: `Parcel::writeInt32`; its argument is an `int32_t` already. -/
def Parcel.writeInt32 (p : Parcel) (v : Int) : Parcel :=
  ⟨p.fields ++ [Field.int32 v], p.pos⟩

/-- Modelled from the spec: `Parcel::readInt32`; zero when no integer is there. -/
def Parcel.readInt32 (p : Parcel) : Int × Parcel :=
  (match p.peek with
    | some (Field.int32 v) => v
    | _ => 0,
   p.advance)

/-- Modelled from the spec: the field that `Parcel::write(const Flattenable&)` appends.
The parcel asks the object for its flattened size and descriptor count, has it flatten
itself into a buffer of that size, and appends the descriptors when that succeeded. -/
def Field.flatten {α : Type} (c : Flattenable α) (val : α) : Field :=
  let len := c.getFlattenedSize val
  let fd_count := c.getFdCount val
  let r := c.flatten val len fd_count
  Field.flat len fd_count r.bytes (if r.err = NO_ERROR then r.fds.take fd_count else [])

/-- Modelled from the spec: `Parcel::write(const Flattenable&)`, which returns the status
of the object's `flatten`. -/
def Parcel.write {α : Type} (c : Flattenable α) (p : Parcel) (val : α) : status_t × Parcel :=
  ((c.flatten val (c.getFlattenedSize val) (c.getFdCount val)).err,
    ⟨p.fields ++ [Field.flatten c val], p.pos⟩)

/-- Modelled from the spec: `Parcel::read(Flattenable&)`. It fails with `BAD_VALUE` when
no flattened object or too few descriptors are there, and has the object unflatten
itself otherwise. -/
def Parcel.read {α : Type} (c : Flattenable α) (p : Parcel) (val : α) :
    (status_t × α) × Parcel :=
  (match p.peek with
    | some (Field.flat len fd_count buf fds) =>
        if fds.length < fd_count then (BAD_VALUE, val) else c.unflatten val buf len fds fd_count
    | _ => (BAD_VALUE, val),
   p.advance)

/-- Modelled from the spec: `Parcel::writeInplace(sizeof(QueueBufferOutput))`, together
with the store through the pointer it returns: the block holds the object `o`. -/
def Parcel.writeInplace (p : Parcel) (o : QueueBufferOutput) : Parcel :=
  ⟨p.fields ++ [Field.inplace o], p.pos⟩

/-- Modelled from the spec: `Parcel::readInplace(sizeof(QueueBufferOutput))`; a null
pointer, `none`, when no such block is there. -/
def Parcel.readInplace (p : Parcel) : Option QueueBufferOutput × Parcel :=
  (match p.peek with
    | some (Field.inplace o) => some o
    | _ => none,
   p.advance)

/-- Modelled from the spec: `Parcel::writeStrongBinder`. -/
def Parcel.writeStrongBinder (p : Parcel) (b : Option Nat) : Parcel :=
  ⟨p.fields ++ [Field.binder b], p.pos⟩

/-- Modelled from the spec: `Parcel::readStrongBinder`; null when no binder is there. -/
def Parcel.readStrongBinder (p : Parcel) : Option Nat × Parcel :=
  (match p.peek with
    | some (Field.binder b) => b
    | _ => none,
   p.advance)

/-- Modelled from the spec: `Parcel::writeString8`. -/
def Parcel.writeString8 (p : Parcel) (s : String) : Parcel :=
  ⟨p.fields ++ [Field.string8 s], p.pos⟩

/-- The conversion of a `bool` to the `int32_t` that `writeInt32` takes. -/
def boolToInt32 (b : Bool) : Int := if b then 1 else 0

/-- The conversion of the `int32_t` that `readInt32` returns to a `bool`. -/
def int32ToBool (v : Int) : Bool := decide (v ≠ 0)

/-! ## The opcode enum -/

/-- The enumerators of the anonymous opcode enum. -/
inductive Op where
  | REQUEST_BUFFER
  | SET_BUFFER_COUNT
  | DEQUEUE_BUFFER
  | QUEUE_BUFFER
  | CANCEL_BUFFER
  | QUERY
  | SET_SYNCHRONOUS_MODE
  | CONNECT
  | DISCONNECT
  | UPDATE_AND_GET_CURRENT
  | ADD_BUFFER_SLOT
  | GET_ID
  | RELEASE_BUFFER
  deriving DecidableEq, Repr

/-- The enumerators the enum declares, in order; the last four only under
`OMAP_ENHANCEMENT_CPCAM`. -/
def enumerators (cpcam : Bool) : List Op :=
  [Op.REQUEST_BUFFER, Op.SET_BUFFER_COUNT, Op.DEQUEUE_BUFFER, Op.QUEUE_BUFFER, Op.CANCEL_BUFFER,
    Op.QUERY, Op.SET_SYNCHRONOUS_MODE, Op.CONNECT, Op.DISCONNECT] ++
  (if cpcam then [Op.UPDATE_AND_GET_CURRENT, Op.ADD_BUFFER_SLOT, Op.GET_ID, Op.RELEASE_BUFFER]
   else [])

/-- The value of an enumerator: the first is `first`, which stands for
`IBinder::FIRST_CALL_TRANSACTION`, and each next one is one more than the one before. -/
def Op.code (first : Nat) (cpcam : Bool) (op : Op) : Nat :=
  first + (enumerators cpcam).indexOf op

/-- The case label that `switch(code)` selects, if any. -/
def decode (first : Nat) (cpcam : Bool) (code : Nat) : Option Op :=
  (enumerators cpcam).find? fun op => decide (Op.code first cpcam op = code)

/-- The descriptor that `IMPLEMENT_META_INTERFACE` gives the interface. -/
def getInterfaceDescriptor : String := "android.gui.SurfaceTexture"

/-! ## The implementation behind the dispatcher -/

/-- The methods of `ISurfaceTexture` that the buffer queue implements, over its state
`σ`. Each returns its result followed by what it left in its output parameters:
`requestBuffer` the buffer, `dequeueBuffer` the slot and the fence, `queueBuffer` and
`connect` the output record, `query` the value, `updateAndGetCurrent` the buffer and
the slot. -/
structure Impl (σ F G : Type) where
  requestBuffer : Int → σ → (status_t × Option G) × σ
  setBufferCount : Int → σ → status_t × σ
  dequeueBuffer : Nat → Nat → Nat → Nat → σ → (status_t × Int × Option F) × σ
  queueBuffer : Int → QueueBufferInput F → Option Nat → σ → (status_t × QueueBufferOutput) × σ
  cancelBuffer : Int → Option F → σ → σ
  query : Int → σ → (Int × Int) × σ
  setSynchronousMode : Bool → σ → status_t × σ
  connect : Int → σ → (status_t × QueueBufferOutput) × σ
  disconnect : Int → σ → status_t × σ
  updateAndGetCurrent : σ → (status_t × Option G × Int) × σ
  addBufferSlot : G → σ → Int × σ
  getId : σ → String × σ
  releaseBuffer : Int → σ → status_t × σ

/-- One invocation of a method of the implementation, with its input arguments. -/
inductive Call (F G : Type) where
  | requestBuffer (bufferIdx : Int)
  | setBufferCount (bufferCount : Int)
  | dequeueBuffer (w h format usage : Nat)
  | queueBuffer (buf : Int) (input : QueueBufferInput F) (metadata : Option Nat)
  | cancelBuffer (buf : Int) (fence : Option F)
  | query (what : Int)
  | setSynchronousMode (enabled : Bool)
  | connect (api : Int)
  | disconnect (api : Int)
  | updateAndGetCurrent
  | addBufferSlot (buffer : G)
  | getId
  | releaseBuffer (slot : Int)
  deriving DecidableEq, Repr

/-- The `BnSurfaceTexture` object: the state of the implementation and the invocations
of its methods so far. -/
structure Bn (σ F G : Type) where
  state : σ
  calls : List (Call F G)

/-- The outcome of `onTransact`: its return value, the request with its read cursor,
the reply, and the object. -/
structure Transacted (σ F G : Type) where
  status : status_t
  data : Parcel
  reply : Parcel
  self : Bn σ F G

/-- Records an invocation and the state it left. -/
def Bn.invoked {σ F G : Type} (self : Bn σ F G) (c : Call F G) (st : σ) : Bn σ F G :=
  ⟨st, self.calls ++ [c]⟩

/-- Modelled from the spec: the macro `CHECK_INTERFACE(ISurfaceTexture, data, reply)` of
`binder/IInterface.h`, which is not part of the source file: the case returns
`PERMISSION_DENIED` at once when the token of the message is not the descriptor of the
interface, and goes on otherwise. -/
def CHECK_INTERFACE {σ F G : Type} (self : Bn σ F G) (data reply : Parcel)
    (body : Parcel → Transacted σ F G) : Transacted σ F G :=
  let c := data.enforceInterface getInterfaceDescriptor
  if c.1 then body c.2 else ⟨PERMISSION_DENIED, c.2, reply, self⟩

/-! ## The dispatcher `BnSurfaceTexture::onTransact` -/

/-- The constructor `QueueBufferInput::QueueBufferInput(const Parcel&)`, which is
`parcel.read(*this)` on a new object: its fence is null, and `init` stands for what its
other fields hold before they are assigned. The status of the read is dropped. -/
def QueueBufferInput.ofParcel {F G : Type} (env : Env F G) (init : QueueBufferInput F) (parcel : Parcel) :
    QueueBufferInput F × Parcel :=
  let r := parcel.read (QueueBufferInput.flattenable env)
    ⟨init.timestamp, init.crop, init.scalingMode, init.transform, none⟩
  (r.1.2, r.2)

namespace BnSurfaceTexture

variable {σ F G : Type}

/-- The case `REQUEST_BUFFER`. -/
def caseRequestBuffer (env : Env F G) (impl : Impl σ F G) (self : Bn σ F G)
    (data reply : Parcel) : Transacted σ F G :=
  CHECK_INTERFACE self data reply fun data =>
    let a := data.readInt32
    let bufferIdx := a.1
    let r := impl.requestBuffer bufferIdx self.state
    let result := r.1.1
    let buffer := r.1.2
    let reply := reply.writeInt32 (boolToInt32 buffer.isSome)
    let reply := match buffer with
      | some b => (reply.write env.graphicBuffer b).2
      | none => reply
    let reply := reply.writeInt32 result
    ⟨NO_ERROR, a.2, reply, self.invoked (Call.requestBuffer bufferIdx) r.2⟩

/-- The case `SET_BUFFER_COUNT`. -/
def caseSetBufferCount (impl : Impl σ F G) (self : Bn σ F G)
    (data reply : Parcel) : Transacted σ F G :=
  CHECK_INTERFACE self data reply fun data =>
    let a := data.readInt32
    let bufferCount := a.1
    let r := impl.setBufferCount bufferCount self.state
    let reply := reply.writeInt32 r.1
    ⟨NO_ERROR, a.2, reply, self.invoked (Call.setBufferCount bufferCount) r.2⟩

/-- The case `DEQUEUE_BUFFER`; the four arguments are read into `uint32_t`. -/
def caseDequeueBuffer (env : Env F G) (impl : Impl σ F G) (self : Bn σ F G)
    (data reply : Parcel) : Transacted σ F G :=
  CHECK_INTERFACE self data reply fun data =>
    let a := data.readInt32
    let w := toUnsigned 32 a.1
    let b := a.2.readInt32
    let h := toUnsigned 32 b.1
    let c := b.2.readInt32
    let format := toUnsigned 32 c.1
    let d := c.2.readInt32
    let usage := toUnsigned 32 d.1
    let r := impl.dequeueBuffer w h format usage self.state
    let result := r.1.1
    let buf := r.1.2.1
    let fence := r.1.2.2
    let hasFence := isValid env fence
    let reply := reply.writeInt32 buf
    let reply := reply.writeInt32 (boolToInt32 hasFence)
    let reply := match hasFence, fence with
      | true, some f => (reply.write env.fence f).2
      | _, _ => reply
    let reply := reply.writeInt32 result
    ⟨NO_ERROR, d.2, reply, self.invoked (Call.dequeueBuffer w h format usage) r.2⟩

/-- The case `QUEUE_BUFFER`. The block for the output record is reserved in the reply
before the call and holds what the implementation stored in it; under
`OMAP_ENHANCEMENT_CPCAM` a binder is read after the input and passed on. -/
def caseQueueBuffer (cpcam : Bool) (env : Env F G) (impl : Impl σ F G)
    (init : QueueBufferInput F) (self : Bn σ F G) (data reply : Parcel) : Transacted σ F G :=
  CHECK_INTERFACE self data reply fun data =>
    let a := data.readInt32
    let buf := a.1
    let i := QueueBufferInput.ofParcel env init a.2
    let input := i.1
    let m := if cpcam then i.2.readStrongBinder else (none, i.2)
    let metadata := m.1
    let r := impl.queueBuffer buf input metadata self.state
    let reply := reply.writeInplace r.1.2
    let reply := reply.writeInt32 r.1.1
    ⟨NO_ERROR, m.2, reply, self.invoked (Call.queueBuffer buf input metadata) r.2⟩

/-- The case `CANCEL_BUFFER`; nothing is written to the reply. -/
def caseCancelBuffer (env : Env F G) (impl : Impl σ F G) (self : Bn σ F G)
    (data reply : Parcel) : Transacted σ F G :=
  CHECK_INTERFACE self data reply fun data =>
    let a := data.readInt32
    let buf := a.1
    let b := a.2.readInt32
    let hasFence := int32ToBool b.1
    let f := if hasFence then
        (let x := b.2.read env.fence env.fenceNew
         (some x.1.2, x.2))
      else (none, b.2)
    let fence := f.1
    let st := impl.cancelBuffer buf fence self.state
    ⟨NO_ERROR, f.2, reply, self.invoked (Call.cancelBuffer buf fence) st⟩

/-- The case `QUERY`: the value first, the result after it. -/
def caseQuery (impl : Impl σ F G) (self : Bn σ F G) (data reply : Parcel) :
    Transacted σ F G :=
  CHECK_INTERFACE self data reply fun data =>
    let a := data.readInt32
    let what := a.1
    let r := impl.query what self.state
    let res := r.1.1
    let value := r.1.2
    let reply := reply.writeInt32 value
    let reply := reply.writeInt32 res
    ⟨NO_ERROR, a.2, reply, self.invoked (Call.query what) r.2⟩

/-- The case `SET_SYNCHRONOUS_MODE`. -/
def caseSetSynchronousMode (impl : Impl σ F G) (self : Bn σ F G) (data reply : Parcel) :
    Transacted σ F G :=
  CHECK_INTERFACE self data reply fun data =>
    let a := data.readInt32
    let enabled := int32ToBool a.1
    let r := impl.setSynchronousMode enabled self.state
    let reply := reply.writeInt32 r.1
    ⟨NO_ERROR, a.2, reply, self.invoked (Call.setSynchronousMode enabled) r.2⟩

/-- The case `CONNECT`. -/
def caseConnect (impl : Impl σ F G) (self : Bn σ F G) (data reply : Parcel) :
    Transacted σ F G :=
  CHECK_INTERFACE self data reply fun data =>
    let a := data.readInt32
    let api := a.1
    let r := impl.connect api self.state
    let reply := reply.writeInplace r.1.2
    let reply := reply.writeInt32 r.1.1
    ⟨NO_ERROR, a.2, reply, self.invoked (Call.connect api) r.2⟩

/-- The case `DISCONNECT`. -/
def caseDisconnect (impl : Impl σ F G) (self : Bn σ F G) (data reply : Parcel) :
    Transacted σ F G :=
  CHECK_INTERFACE self data reply fun data =>
    let a := data.readInt32
    let api := a.1
    let r := impl.disconnect api self.state
    let reply := reply.writeInt32 r.1
    ⟨NO_ERROR, a.2, reply, self.invoked (Call.disconnect api) r.2⟩

/-- The case `UPDATE_AND_GET_CURRENT`. -/
def caseUpdateAndGetCurrent (env : Env F G) (impl : Impl σ F G) (self : Bn σ F G)
    (data reply : Parcel) : Transacted σ F G :=
  CHECK_INTERFACE self data reply fun data =>
    let r := impl.updateAndGetCurrent self.state
    let result := r.1.1
    let buffer := r.1.2.1
    let slot := r.1.2.2
    let reply := reply.writeInt32 (boolToInt32 buffer.isSome)
    let reply := match buffer with
      | some b => ((reply.write env.graphicBuffer b).2).writeInt32 slot
      | none => reply
    let reply := reply.writeInt32 result
    ⟨NO_ERROR, data, reply, self.invoked Call.updateAndGetCurrent r.2⟩

/-- The case `ADD_BUFFER_SLOT`. -/
def caseAddBufferSlot (env : Env F G) (impl : Impl σ F G) (self : Bn σ F G)
    (data reply : Parcel) : Transacted σ F G :=
  CHECK_INTERFACE self data reply fun data =>
    let x := data.read env.graphicBuffer env.graphicBufferNew
    let buffer := x.1.2
    let r := impl.addBufferSlot buffer self.state
    let reply := reply.writeInt32 r.1
    ⟨NO_ERROR, x.2, reply, self.invoked (Call.addBufferSlot buffer) r.2⟩

/-- The case `GET_ID`. -/
def caseGetId (impl : Impl σ F G) (self : Bn σ F G) (data reply : Parcel) :
    Transacted σ F G :=
  CHECK_INTERFACE self data reply fun data =>
    let r := impl.getId self.state
    let reply := reply.writeString8 r.1
    ⟨NO_ERROR, data, reply, self.invoked Call.getId r.2⟩

/-- The case `RELEASE_BUFFER`. -/
def caseReleaseBuffer (impl : Impl σ F G) (self : Bn σ F G) (data reply : Parcel) :
    Transacted σ F G :=
  CHECK_INTERFACE self data reply fun data =>
    let a := data.readInt32
    let slot := a.1
    let r := impl.releaseBuffer slot self.state
    let reply := reply.writeInt32 r.1
    ⟨NO_ERROR, a.2, reply, self.invoked (Call.releaseBuffer slot) r.2⟩

/-- The body of the case that each label of `switch(code)` heads. -/
def caseOf (cpcam : Bool) (env : Env F G) (impl : Impl σ F G) (init : QueueBufferInput F)
    (self : Bn σ F G) (data reply : Parcel) : Op → Transacted σ F G
  | Op.REQUEST_BUFFER => caseRequestBuffer env impl self data reply
  | Op.SET_BUFFER_COUNT => caseSetBufferCount impl self data reply
  | Op.DEQUEUE_BUFFER => caseDequeueBuffer env impl self data reply
  | Op.QUEUE_BUFFER => caseQueueBuffer cpcam env impl init self data reply
  | Op.CANCEL_BUFFER => caseCancelBuffer env impl self data reply
  | Op.QUERY => caseQuery impl self data reply
  | Op.SET_SYNCHRONOUS_MODE => caseSetSynchronousMode impl self data reply
  | Op.CONNECT => caseConnect impl self data reply
  | Op.DISCONNECT => caseDisconnect impl self data reply
  | Op.UPDATE_AND_GET_CURRENT => caseUpdateAndGetCurrent env impl self data reply
  | Op.ADD_BUFFER_SLOT => caseAddBufferSlot env impl self data reply
  | Op.GET_ID => caseGetId impl self data reply
  | Op.RELEASE_BUFFER => caseReleaseBuffer impl self data reply

/-- The method `BnSurfaceTexture::onTransact`: the case that `switch(code)` selects, and
`BBinder::onTransact` when it selects none. `first` is `IBinder::FIRST_CALL_TRANSACTION`,
`cpcam` tells whether `OMAP_ENHANCEMENT_CPCAM` is defined, `bbinder` is
`BBinder::onTransact`, which returns its status, the request and the reply, and `init`
is what the fields of a `QueueBufferInput` hold before they are assigned. -/
def onTransact (first : Nat) (cpcam : Bool) (env : Env F G)
    (bbinder : Nat → Parcel → Parcel → Nat → status_t × Parcel × Parcel)
    (impl : Impl σ F G) (init : QueueBufferInput F) (self : Bn σ F G)
    (code : Nat) (data reply : Parcel) (flags : Nat) : Transacted σ F G :=
  match decode first cpcam code with
  | some op => caseOf cpcam env impl init self data reply op
  | none =>
      let r := bbinder code data reply flags
      ⟨r.1, r.2.1, r.2.2, self⟩

end BnSurfaceTexture

/-! ## The proxy `BpSurfaceTexture` -/

/-- The remote end as the proxy sees it: `remote()->transact(code, data, &reply)` over
the state `τ` of whatever is behind the channel, giving the status and the reply. -/
abbrev Remote (τ : Type) := Nat → Parcel → τ → (status_t × Parcel) × τ

/-- The `BpSurfaceTexture` object: the state behind its channel and the transport
calls it has issued so far, each with its opcode and request. -/
structure Bp (τ : Type) where
  remote : τ
  sent : List (Nat × Parcel)

/-- The outcome of a proxy method: its return value with the final content of its
output parameters, the reply with its read cursor, and the object. -/
structure Returned (τ α : Type) where
  value : α
  reply : Parcel
  self : Bp τ

/-- One call `remote()->transact(code, data, &reply)`, with `reply` empty before it. -/
def Bp.transact {τ : Type} (remote : Remote τ) (self : Bp τ) (code : Nat) (data : Parcel) :
    (status_t × Parcel) × Bp τ :=
  let r := remote code data self.remote
  (r.1, ⟨r.2, self.sent ++ [(code, data)]⟩)

namespace BpSurfaceTexture

variable {τ F G : Type}

/-- The method `BpSurfaceTexture::requestBuffer`; `buf` is what `*buf` holds before. -/
def requestBuffer (first : Nat) (cpcam : Bool) (env : Env F G) (remote : Remote τ)
    (self : Bp τ) (bufferIdx : Int) (buf : Option G) : Returned τ (status_t × Option G) :=
  let data := Parcel.empty.writeInterfaceToken getInterfaceDescriptor
  let data := data.writeInt32 bufferIdx
  let t := Bp.transact remote self (Op.code first cpcam Op.REQUEST_BUFFER) data
  let result := t.1.1
  let reply := t.1.2
  if result ≠ NO_ERROR then ⟨(result, buf), reply, t.2⟩
  else
    let n := reply.readInt32
    let nonNull := int32ToBool n.1
    let b := if nonNull then
        (let x := n.2.read env.graphicBuffer env.graphicBufferNew
         (some x.1.2, x.2))
      else (buf, n.2)
    let r := b.2.readInt32
    ⟨(r.1, b.1), r.2, t.2⟩

/-- The method `BpSurfaceTexture::setBufferCount`. -/
def setBufferCount (first : Nat) (cpcam : Bool) (remote : Remote τ)
    (self : Bp τ) (bufferCount : Int) : Returned τ status_t :=
  let data := Parcel.empty.writeInterfaceToken getInterfaceDescriptor
  let data := data.writeInt32 bufferCount
  let t := Bp.transact remote self (Op.code first cpcam Op.SET_BUFFER_COUNT) data
  let result := t.1.1
  let reply := t.1.2
  if result ≠ NO_ERROR then ⟨result, reply, t.2⟩
  else
    let r := reply.readInt32
    ⟨r.1, r.2, t.2⟩

/-- The method `BpSurfaceTexture::dequeueBuffer`; `buf` and `fence` are what `*buf` and
`fence` hold before, and the four `uint32_t` arguments are written as `int32_t`. -/
def dequeueBuffer (first : Nat) (cpcam : Bool) (env : Env F G) (remote : Remote τ)
    (self : Bp τ) (buf : Int) (fence : Option F) (w h format usage : Nat) :
    Returned τ (status_t × Int × Option F) :=
  let data := Parcel.empty.writeInterfaceToken getInterfaceDescriptor
  let data := data.writeInt32 (toSigned 32 w)
  let data := data.writeInt32 (toSigned 32 h)
  let data := data.writeInt32 (toSigned 32 format)
  let data := data.writeInt32 (toSigned 32 usage)
  let t := Bp.transact remote self (Op.code first cpcam Op.DEQUEUE_BUFFER) data
  let result := t.1.1
  let reply := t.1.2
  if result ≠ NO_ERROR then ⟨(result, buf, fence), reply, t.2⟩
  else
    let b := reply.readInt32
    let n := b.2.readInt32
    let hasFence := int32ToBool n.1
    let f := if hasFence then
        (let x := n.2.read env.fence env.fenceNew
         (some x.1.2, x.2))
      else (none, n.2)
    let r := f.2.readInt32
    ⟨(r.1, b.1, f.1), r.2, t.2⟩

/-- The method `BpSurfaceTexture::queueBuffer`; `output` is what `*output` holds before,
and `metadata` is written only under `OMAP_ENHANCEMENT_CPCAM`, as the binder that
`metadata->asBinder()` gives, null for a null `metadata`. The value is `none` when
`readInplace` returns the null pointer that `memcpy` then reads from. -/
def queueBuffer (first : Nat) (cpcam : Bool) (env : Env F G) (remote : Remote τ)
    (self : Bp τ) (buf : Int) (input : QueueBufferInput F) (output : QueueBufferOutput)
    (metadata : Option Nat) : Returned τ (Option (status_t × QueueBufferOutput)) :=
  let data := Parcel.empty.writeInterfaceToken getInterfaceDescriptor
  let data := data.writeInt32 buf
  let data := (data.write (QueueBufferInput.flattenable env) input).2
  let data := if cpcam then data.writeStrongBinder metadata else data
  let t := Bp.transact remote self (Op.code first cpcam Op.QUEUE_BUFFER) data
  let result := t.1.1
  let reply := t.1.2
  if result ≠ NO_ERROR then ⟨some (result, output), reply, t.2⟩
  else
    let o := reply.readInplace
    match o.1 with
    | none => ⟨none, o.2, t.2⟩
    | some out =>
        let r := o.2.readInt32
        ⟨some (r.1, out), r.2, t.2⟩

/-- The method `BpSurfaceTexture::cancelBuffer`, which returns nothing and reads
nothing from the reply. -/
def cancelBuffer (first : Nat) (cpcam : Bool) (env : Env F G) (remote : Remote τ)
    (self : Bp τ) (buf : Int) (fence : Option F) : Returned τ Unit :=
  let hasFence := isValid env fence
  let data := Parcel.empty.writeInterfaceToken getInterfaceDescriptor
  let data := data.writeInt32 buf
  let data := data.writeInt32 (boolToInt32 hasFence)
  let data := match hasFence, fence with
    | true, some f => (data.write env.fence f).2
    | _, _ => data
  let t := Bp.transact remote self (Op.code first cpcam Op.CANCEL_BUFFER) data
  ⟨(), t.1.2, t.2⟩

/-- The method `BpSurfaceTexture::query`; `value` is what `value[0]` holds before. -/
def query (first : Nat) (cpcam : Bool) (remote : Remote τ)
    (self : Bp τ) (what : Int) (value : Int) : Returned τ (Int × Int) :=
  let data := Parcel.empty.writeInterfaceToken getInterfaceDescriptor
  let data := data.writeInt32 what
  let t := Bp.transact remote self (Op.code first cpcam Op.QUERY) data
  let result := t.1.1
  let reply := t.1.2
  if result ≠ NO_ERROR then ⟨(result, value), reply, t.2⟩
  else
    let v := reply.readInt32
    let r := v.2.readInt32
    ⟨(r.1, v.1), r.2, t.2⟩

/-- The method `BpSurfaceTexture::setSynchronousMode`. -/
def setSynchronousMode (first : Nat) (cpcam : Bool) (remote : Remote τ)
    (self : Bp τ) (enabled : Bool) : Returned τ status_t :=
  let data := Parcel.empty.writeInterfaceToken getInterfaceDescriptor
  let data := data.writeInt32 (boolToInt32 enabled)
  let t := Bp.transact remote self (Op.code first cpcam Op.SET_SYNCHRONOUS_MODE) data
  let result := t.1.1
  let reply := t.1.2
  if result ≠ NO_ERROR then ⟨result, reply, t.2⟩
  else
    let r := reply.readInt32
    ⟨r.1, r.2, t.2⟩

/-- The method `BpSurfaceTexture::connect`; `output` is what `*output` holds before. The
value is `none` when `readInplace` returns the null pointer that `memcpy` then reads
from. -/
def connect (first : Nat) (cpcam : Bool) (remote : Remote τ)
    (self : Bp τ) (api : Int) (output : QueueBufferOutput) :
    Returned τ (Option (status_t × QueueBufferOutput)) :=
  let data := Parcel.empty.writeInterfaceToken getInterfaceDescriptor
  let data := data.writeInt32 api
  let t := Bp.transact remote self (Op.code first cpcam Op.CONNECT) data
  let result := t.1.1
  let reply := t.1.2
  if result ≠ NO_ERROR then ⟨some (result, output), reply, t.2⟩
  else
    let o := reply.readInplace
    match o.1 with
    | none => ⟨none, o.2, t.2⟩
    | some out =>
        let r := o.2.readInt32
        ⟨some (r.1, out), r.2, t.2⟩

/-- The method `BpSurfaceTexture::disconnect`. -/
def disconnect (first : Nat) (cpcam : Bool) (remote : Remote τ)
    (self : Bp τ) (api : Int) : Returned τ status_t :=
  let data := Parcel.empty.writeInterfaceToken getInterfaceDescriptor
  let data := data.writeInt32 api
  let t := Bp.transact remote self (Op.code first cpcam Op.DISCONNECT) data
  let result := t.1.1
  let reply := t.1.2
  if result ≠ NO_ERROR then ⟨result, reply, t.2⟩
  else
    let r := reply.readInt32
    ⟨r.1, r.2, t.2⟩

end BpSurfaceTexture

/-! ## Proxy and dispatcher on one channel -/

/-- Modelled from the spec: the transport, reliable and synchronous, with the
dispatcher behind it: the request is delivered to `onTransact` with its read cursor at
the start and an empty reply, and the status and the reply come back, the reply with
its read cursor at the start. -/
def channel {σ F G : Type} (first : Nat) (cpcam : Bool) (env : Env F G)
    (bbinder : Nat → Parcel → Parcel → Nat → status_t × Parcel × Parcel)
    (impl : Impl σ F G) (init : QueueBufferInput F) : Remote (Bn σ F G) :=
  fun code data bn =>
    let r := BnSurfaceTexture.onTransact first cpcam env bbinder impl init bn code
      ⟨data.fields, 0⟩ Parcel.empty 0
    ((r.status, ⟨r.reply.fields, 0⟩), r.self)

/-! ## Contracts of the collaborators, as the properties below assume them -/

/-- The fence codec inverts itself at `f` for a buffer of `size` bytes and `count`
descriptors: `flatten` succeeds, and `unflatten` on a new fence, given what `flatten`
wrote, succeeds and yields `f`. -/
def FenceRoundTrip {F G : Type} (env : Env F G) (f : F) (size count : Nat) : Prop :=
  (env.fence.flatten f size count).err = NO_ERROR ∧
  env.fence.unflatten env.fenceNew (env.fence.flatten f size count).bytes size
    (env.fence.flatten f size count).fds count = (NO_ERROR, f)

/-- The fence codec inverts itself at `f` when the parcel carries the fence: `flatten`,
given the flattened size and descriptor count that the fence reports, succeeds and
fills `fds[]`, and `unflatten` on a new fence, given what `flatten` wrote, succeeds and
yields `f`. -/
def FenceParcelRoundTrip {F G : Type} (env : Env F G) (f : F) : Prop :=
  (env.fence.flatten f (env.fence.getFlattenedSize f) (env.fence.getFdCount f)).err = NO_ERROR ∧
  env.fence.getFdCount f ≤
    (env.fence.flatten f (env.fence.getFlattenedSize f) (env.fence.getFdCount f)).fds.length ∧
  env.fence.unflatten env.fenceNew
    (env.fence.flatten f (env.fence.getFlattenedSize f) (env.fence.getFdCount f)).bytes
    (env.fence.getFlattenedSize f)
    ((env.fence.flatten f (env.fence.getFlattenedSize f) (env.fence.getFdCount f)).fds.take
      (env.fence.getFdCount f))
    (env.fence.getFdCount f) = (NO_ERROR, f)

/-- The message starts, under its read cursor, with the token of this interface. -/
def HasToken (data : Parcel) : Prop :=
  data.peek = some (Field.token getInterfaceDescriptor)

/-- Modelled from the spec: a buffer queue used to run the dispatcher, the external
collaborator behind it. Its state counts the invocations; slot 0 is bound to a buffer,
dequeueing hands out slot 2 with fence 9, and every status is the negated count. -/
def sampleImpl : Impl Nat Int (List Nat) where
  requestBuffer := fun idx n => ((-(n : Int), if idx = 0 then some [1, 2, 3] else none), n + 1)
  setBufferCount := fun _ n => (-(n : Int), n + 1)
  dequeueBuffer := fun _ _ _ _ n => ((-(n : Int), 2, some 9), n + 1)
  queueBuffer := fun _ input _ n => ((-(n : Int), ⟨256, 256, input.transform, n⟩), n + 1)
  cancelBuffer := fun _ _ n => n + 1
  query := fun what n => ((-(n : Int), what + 40), n + 1)
  setSynchronousMode := fun _ n => (-(n : Int), n + 1)
  connect := fun api n => ((-(n : Int), ⟨api.toNat, 1, 0, n⟩), n + 1)
  disconnect := fun _ n => (-(n : Int), n + 1)
  updateAndGetCurrent := fun n => ((-(n : Int), some [4], 1), n + 1)
  addBufferSlot := fun b n => ((b.length : Int), n + 1)
  getId := fun n => ("queue", n)
  releaseBuffer := fun _ n => (-(n : Int), n + 1)

/-- Modelled from the spec: `BBinder::onTransact`, the default handling, which reports
"method not implemented" (`UNKNOWN_TRANSACTION`, `-EBADMSG`) and touches nothing. -/
def sampleBBinder : Nat → Parcel → Parcel → Nat → status_t × Parcel × Parcel :=
  fun _ data reply _ => (-74, data, reply)

/-- Modelled from the spec: a transport whose channel is broken. Every call fails with
`DEAD_OBJECT` (`-EPIPE`) and leaves two integers in the reply, which a caller that read
the reply would see. -/
def brokenRemote : Remote Unit :=
  fun _ _ t => ((-32, ⟨[Field.int32 99, Field.int32 98], 0⟩), t)

/-- A record used to run the codec: a fence with descriptor 7. -/
def sampleInput : QueueBufferInput Int :=
  ⟨1000, ⟨0, 0, 256, 256⟩, 0, 0, some 7⟩

/-- A record used to run the codec: no fence, a negative timestamp and bound. -/
def sampleInputNoFence : QueueBufferInput Int :=
  ⟨-5, ⟨-1, 2, 640, 480⟩, 1, 4, none⟩

/-- Modelled from the spec: the buffer queue of `sampleImpl`, except that dequeueing
hands out slot 3 with the fence `-1`, which is present but not valid. -/
def sampleImplInvalidFence : Impl Nat Int (List Nat) :=
  { sampleImpl with dequeueBuffer := fun _ _ _ _ n => ((-(n : Int), 3, some (-1)), n + 1) }

/-- A record used to run the codec: a fence that is present but not valid, since it
wraps no descriptor. -/
def sampleInputInvalidFence : QueueBufferInput Int :=
  ⟨1000, ⟨0, 0, 256, 256⟩, 0, 0, some (-1)⟩

/-! ## Facts about the byte-level helpers -/

theorem leBytes_length (n v : Nat) : (leBytes n v).length = n := by
  induction n generalizing v with
  | zero => rfl
  | succ k ih => simp [leBytes, ih]

theorem ofLeBytes_leBytes (n v : Nat) : ofLeBytes (leBytes n v) = v % 256 ^ n := by
  induction n generalizing v with
  | zero => simp [leBytes, ofLeBytes, Nat.mod_one]
  | succ k ih => rw [leBytes, ofLeBytes, ih, pow_succ', Nat.mod_mul]

theorem memRead_length (mem : List Nat) (off n : Nat) : (memRead mem off n).length = n := by
  simp [memRead]

theorem memRead_append_right (xs ys : List Nat) (off n : Nat) (h : xs.length ≤ off) :
    memRead (xs ++ ys) off n = memRead ys (off - xs.length) n := by
  unfold memRead
  apply List.map_congr_left
  intro i _
  rw [List.getD_append_right _ _ _ _ (by omega)]
  congr 1
  omega

theorem memRead_start (xs ys : List Nat) (n : Nat) (h : xs.length = n) :
    memRead (xs ++ ys) 0 n = xs := by
  subst h
  apply List.ext_getElem
  · simp [memRead]
  · intro i h1 h2
    simp only [memRead, List.getElem_map, List.getElem_range, Nat.zero_add]
    rw [List.getD_append _ _ _ _ h2, List.getD_eq_getElem _ _ h2]

theorem toSigned_toUnsigned_32 (v : Int) (h1 : -(2 : Int) ^ 31 ≤ v) (h2 : v < (2 : Int) ^ 31) :
    toSigned 32 (toUnsigned 32 v) = v := by
  unfold toSigned toUnsigned
  norm_num at h1 h2 ⊢
  split <;> omega

theorem toSigned_toUnsigned_64 (v : Int) (h1 : -(2 : Int) ^ 63 ≤ v) (h2 : v < (2 : Int) ^ 63) :
    toSigned 64 (toUnsigned 64 v) = v := by
  unfold toSigned toUnsigned
  norm_num at h1 h2 ⊢
  split <;> omega

theorem intBytes_length (n : Nat) (v : Int) : (intBytes n v).length = n := by
  simp [intBytes, leBytes_length]

theorem readInt_intBytes_4 (v : Int) (rest : List Nat)
    (h : -(2 : Int) ^ 31 ≤ v ∧ v < (2 : Int) ^ 31) : readInt (intBytes 4 v ++ rest) 0 4 = v := by
  unfold readInt
  rw [memRead_start _ _ _ (intBytes_length _ _), intBytes, ofLeBytes_leBytes]
  have e : toUnsigned (8 * 4) v % 256 ^ 4 = toUnsigned 32 v := by
    unfold toUnsigned
    norm_num
    omega
  rw [e]
  exact toSigned_toUnsigned_32 v h.1 h.2

theorem readInt_intBytes_8 (v : Int) (rest : List Nat)
    (h : -(2 : Int) ^ 63 ≤ v ∧ v < (2 : Int) ^ 63) : readInt (intBytes 8 v ++ rest) 0 8 = v := by
  unfold readInt
  rw [memRead_start _ _ _ (intBytes_length _ _), intBytes, ofLeBytes_leBytes]
  have e : toUnsigned (8 * 8) v % 256 ^ 8 = toUnsigned 64 v := by
    unfold toUnsigned
    norm_num
    omega
  rw [e]
  exact toSigned_toUnsigned_64 v h.1 h.2

theorem readNat_leBytes_4 (v : Nat) (rest : List Nat) (h : v < 2 ^ 32) :
    readNat (leBytes 4 v ++ rest) 0 4 = v := by
  unfold readNat
  rw [memRead_start _ _ _ (leBytes_length _ _), ofLeBytes_leBytes]
  norm_num at h ⊢
  omega

theorem readInt_skip (xs ys : List Nat) (k off n : Nat) (h : xs.length = k) :
    readInt (xs ++ ys) (k + off) n = readInt ys off n := by
  unfold readInt
  rw [memRead_append_right _ _ _ _ (by omega)]
  congr 3
  omega

theorem readNat_skip (xs ys : List Nat) (k off n : Nat) (h : xs.length = k) :
    readNat (xs ++ ys) (k + off) n = readNat ys off n := by
  unfold readNat
  rw [memRead_append_right _ _ _ _ (by omega)]
  congr 3
  omega

theorem Rect_bytes_length (c : Rect) : (Rect.bytes c).length = 16 := by
  simp [Rect.bytes, intBytes_length]

theorem Rect_read_bytes (c : Rect) (rest : List Nat)
    (hl : -(2 : Int) ^ 31 ≤ c.left ∧ c.left < (2 : Int) ^ 31)
    (ht : -(2 : Int) ^ 31 ≤ c.top ∧ c.top < (2 : Int) ^ 31)
    (hr : -(2 : Int) ^ 31 ≤ c.right ∧ c.right < (2 : Int) ^ 31)
    (hb : -(2 : Int) ^ 31 ≤ c.bottom ∧ c.bottom < (2 : Int) ^ 31) :
    Rect.read (Rect.bytes c ++ rest) 0 = c := by
  unfold Rect.read Rect.bytes
  simp only [List.append_assoc, Nat.zero_add]
  rw [readInt_intBytes_4 _ _ hl]
  rw [show (4 : Nat) = 4 + 0 from rfl, readInt_skip _ _ 4 0 4 (intBytes_length _ _),
    readInt_intBytes_4 _ _ ht]
  rw [show (8 : Nat) = 4 + (4 + 0) from rfl, readInt_skip _ _ 4 _ 4 (intBytes_length _ _),
    readInt_skip _ _ 4 _ 4 (intBytes_length _ _), readInt_intBytes_4 _ _ hr]
  rw [show (12 : Nat) = 4 + (4 + (4 + 0)) from rfl, readInt_skip _ _ 4 _ 4 (intBytes_length _ _),
    readInt_skip _ _ 4 _ 4 (intBytes_length _ _), readInt_skip _ _ 4 _ 4 (intBytes_length _ _),
    readInt_intBytes_4 _ _ hb]

theorem Rect_read_skip (xs ys : List Nat) (k off : Nat) (h : xs.length = k) :
    Rect.read (xs ++ ys) (k + off) = Rect.read ys off := by
  unfold Rect.read
  simp only [Nat.add_assoc, readInt_skip xs ys k _ 4 h]

theorem header_length {F : Type} (r : QueueBufferInput F) (hf : Bool) :
    (QueueBufferInput.header r hf).length = 33 := by
  simp [QueueBufferInput.header, intBytes_length, leBytes_length, Rect_bytes_length,
    sizeof_timestamp, sizeof_scalingMode, sizeof_transform]

theorem readNat_flag (hf : Bool) (rest : List Nat) :
    readNat ([if hf then 1 else 0] ++ rest) 0 1 = if hf then 1 else 0 := by
  cases hf <;> simp [readNat, memRead, ofLeBytes]

/-- What `unflatten` decodes from the bytes of a header followed by `rest`. -/
theorem unflatten_header {F G : Type} (env : Env F G) (r target : QueueBufferInput F)
    (hf : Bool) (rest : List Nat) (size : Nat) (fds : List Int) (count : Nat)
    (hr : r.WellTyped) :
    QueueBufferInput.unflatten env target (QueueBufferInput.header r hf ++ rest) size fds count =
      if hf then
        ((env.fence.unflatten env.fenceNew rest (sizeSub env.sizeBits size 33) fds count).1,
          ⟨r.timestamp, r.crop, r.scalingMode, r.transform,
            some (env.fence.unflatten env.fenceNew rest (sizeSub env.sizeBits size 33) fds count).2⟩)
      else (NO_ERROR, ⟨r.timestamp, r.crop, r.scalingMode, r.transform, target.fence⟩) := by
  obtain ⟨hts, hl, ht, hrr, hb, hsm, htr⟩ := hr
  have hdrop : (QueueBufferInput.header r hf ++ rest).drop 33 = rest :=
    List.drop_left' (header_length r hf)
  have e1 : readInt (QueueBufferInput.header r hf ++ rest) 0 8 = r.timestamp := by
    simp only [QueueBufferInput.header, List.append_assoc, sizeof_timestamp]
    exact readInt_intBytes_8 _ _ hts
  have e2 : Rect.read (QueueBufferInput.header r hf ++ rest) 8 = r.crop := by
    simp only [QueueBufferInput.header, List.append_assoc, sizeof_timestamp]
    rw [show (8 : Nat) = 8 + 0 from rfl, Rect_read_skip _ _ 8 0 (intBytes_length _ _)]
    exact Rect_read_bytes _ _ hl ht hrr hb
  have e3 : readInt (QueueBufferInput.header r hf ++ rest) 24 4 = r.scalingMode := by
    simp only [QueueBufferInput.header, List.append_assoc, sizeof_timestamp, sizeof_scalingMode]
    rw [show (24 : Nat) = 8 + (16 + 0) from rfl, readInt_skip _ _ 8 _ 4 (intBytes_length _ _),
      readInt_skip _ _ 16 _ 4 (Rect_bytes_length _)]
    exact readInt_intBytes_4 _ _ hsm
  have e4 : readNat (QueueBufferInput.header r hf ++ rest) 28 4 = r.transform := by
    simp only [QueueBufferInput.header, List.append_assoc, sizeof_timestamp, sizeof_scalingMode,
      sizeof_transform]
    rw [show (28 : Nat) = 8 + (16 + (4 + 0)) from rfl,
      readNat_skip _ _ 8 _ 4 (intBytes_length _ _), readNat_skip _ _ 16 _ 4 (Rect_bytes_length _),
      readNat_skip _ _ 4 _ 4 (intBytes_length _ _)]
    exact readNat_leBytes_4 _ _ htr
  have e5 : readNat (QueueBufferInput.header r hf ++ rest) 32 1 = if hf then 1 else 0 := by
    simp only [QueueBufferInput.header, List.append_assoc, sizeof_timestamp, sizeof_scalingMode,
      sizeof_transform]
    rw [show (32 : Nat) = 8 + (16 + (4 + (4 + 0))) from rfl,
      readNat_skip _ _ 8 _ 1 (intBytes_length _ _), readNat_skip _ _ 16 _ 1 (Rect_bytes_length _),
      readNat_skip _ _ 4 _ 1 (intBytes_length _ _), readNat_skip _ _ 4 _ 1 (leBytes_length _ _)]
    exact readNat_flag hf rest
  simp only [QueueBufferInput.unflatten, sizeof_timestamp, sizeof_crop, sizeof_scalingMode,
    sizeof_transform, sizeof_bool, Nat.reduceAdd, e1, e2, e3, e4, e5, hdrop]
  cases hf <;> simp

/-! ## The transfer-record codec -/

/-- C1, refuted as stated: the record `sampleInputNoFence` is well typed and has no
fence, yet `unflatten` of what `flatten` wrote for it, into a receiver that holds fence
7, returns a record with fence 7, which is not the record that was flattened. -/
theorem C1_receiver_fence_survives :
    sampleInputNoFence.WellTyped ∧ sampleInputNoFence.fence = none ∧
    (QueueBufferInput.unflatten env32 sampleInput
        (QueueBufferInput.flatten env32 sampleInputNoFence 33 0).bytes 33
        (QueueBufferInput.flatten env32 sampleInputNoFence 33 0).fds 0).2.fence = some 7 ∧
    QueueBufferInput.unflatten env32 sampleInput
        (QueueBufferInput.flatten env32 sampleInputNoFence 33 0).bytes 33
        (QueueBufferInput.flatten env32 sampleInputNoFence 33 0).fds 0 ≠
      (NO_ERROR, sampleInputNoFence) :=
  ⟨by simp [QueueBufferInput.WellTyped, sampleInputNoFence], rfl, by decide, by decide⟩

/-- C1, amended: for every record whose fields hold values of their C types, `unflatten`
applied to the bytes and descriptors that `flatten` produced succeeds and yields the
record itself, field for field: into any receiver when the record has a valid fence
whose own codec inverts itself, and, when the record has no fence, into a receiver
that holds no fence, as a newly constructed record does. -/
theorem C1_unflatten_flatten {F G : Type} (env : Env F G) (r target : QueueBufferInput F)
    (size count : Nat) (hr : r.WellTyped)
    (hfence : ∀ f, r.fence = some f →
      env.fenceIsValid f = true ∧ FenceRoundTrip env f (sizeSub env.sizeBits size 33) count)
    (htarget : r.fence = none → target.fence = none) :
    (QueueBufferInput.flatten env r size count).err = NO_ERROR ∧
    QueueBufferInput.unflatten env target (QueueBufferInput.flatten env r size count).bytes size
      (QueueBufferInput.flatten env r size count).fds count = (NO_ERROR, r) := by
  obtain ⟨ts, crop, sm, tr, fence⟩ := r
  cases fence with
  | none =>
    have ht : target.fence = none := htarget rfl
    simp only [QueueBufferInput.flatten, isValid]
    refine ⟨trivial, ?_⟩
    have h := unflatten_header env ⟨ts, crop, sm, tr, none⟩ target false [] size [] count hr
    simp only [List.append_nil] at h
    rw [h, ht]
    simp
  | some f =>
    obtain ⟨hv, hf1, hf2⟩ := hfence f rfl
    simp only [QueueBufferInput.flatten, isValid, hv, header_length]
    refine ⟨hf1, ?_⟩
    rw [unflatten_header env _ target true _ size _ count hr]
    simp only [if_true, hf2]

/-- C1, amended, at a record with a fence and at a record without one, both into a
receiver that holds no fence. -/
theorem C1_unflatten_flatten_witness :
    ((QueueBufferInput.flatten env32 sampleInput 33 1).err = NO_ERROR ∧
      QueueBufferInput.unflatten env32 sampleInputNoFence
        (QueueBufferInput.flatten env32 sampleInput 33 1).bytes 33
        (QueueBufferInput.flatten env32 sampleInput 33 1).fds 1 = (NO_ERROR, sampleInput)) ∧
    ((QueueBufferInput.flatten env32 sampleInputNoFence 33 0).err = NO_ERROR ∧
      QueueBufferInput.unflatten env32 sampleInputNoFence
        (QueueBufferInput.flatten env32 sampleInputNoFence 33 0).bytes 33
        (QueueBufferInput.flatten env32 sampleInputNoFence 33 0).fds 0 =
          (NO_ERROR, sampleInputNoFence)) :=
  ⟨C1_unflatten_flatten env32 sampleInput sampleInputNoFence 33 1
      (by simp [QueueBufferInput.WellTyped, sampleInput])
      (by
        intro f hf
        have e : f = 7 := by simpa [sampleInput] using hf.symm
        subst e
        simp [env32, FenceRoundTrip, fdFence, sizeSub, NO_ERROR])
      (by simp [sampleInput]),
    C1_unflatten_flatten env32 sampleInputNoFence sampleInputNoFence 33 0
      (by simp [QueueBufferInput.WellTyped, sampleInputNoFence])
      (by simp [sampleInputNoFence])
      (by simp [sampleInputNoFence])⟩

/-- C2: when the size is representable in `size_t` and a valid fence writes as many
bytes as its own flattened size, `getFlattenedSize` equals the number of bytes that
`flatten` writes, and it is the 33 bytes of the fixed part (timestamp, crop, scaling
mode, transform, presence byte) plus the fence's flattened size exactly when the fence
is non-null and valid, plus 0 otherwise. -/
theorem C2_getFlattenedSize_eq_written {F G : Type} (env : Env F G) (r : QueueBufferInput F)
    (size count : Nat)
    (hfit : 33 + fenceFlattenedSize env r.fence < 2 ^ env.sizeBits)
    (hfence : ∀ f, r.fence = some f → env.fenceIsValid f = true →
      (env.fence.flatten f (sizeSub env.sizeBits size 33) count).bytes.length =
        env.fence.getFlattenedSize f) :
    QueueBufferInput.getFlattenedSize env r =
      (QueueBufferInput.flatten env r size count).bytes.length ∧
    QueueBufferInput.getFlattenedSize env r =
      8 + 16 + 4 + 4 + 1 +
        (match r.fence with
          | some f => if env.fenceIsValid f = true then env.fence.getFlattenedSize f else 0
          | none => 0) := by
  obtain ⟨ts, crop, sm, tr, fence⟩ := r
  have hsz : QueueBufferInput.getFlattenedSize env ⟨ts, crop, sm, tr, fence⟩ =
      33 + fenceFlattenedSize env fence := by
    simp only [QueueBufferInput.getFlattenedSize, sizeAdd, sizeof_timestamp, sizeof_crop,
      sizeof_scalingMode, sizeof_transform, sizeof_bool]
    exact Nat.mod_eq_of_lt hfit
  rw [hsz]
  cases fence with
  | none => simp [QueueBufferInput.flatten, isValid, fenceFlattenedSize, header_length]
  | some f =>
    cases hv : env.fenceIsValid f with
    | false => simp [QueueBufferInput.flatten, isValid, fenceFlattenedSize, header_length, hv]
    | true =>
      have hl := hfence f rfl hv
      simp [QueueBufferInput.flatten, isValid, fenceFlattenedSize, header_length, hv, hl]

/-- C2 at a record with a fence, on a platform with a 32-bit `size_t`. -/
theorem C2_getFlattenedSize_eq_written_witness :
    QueueBufferInput.getFlattenedSize env32 sampleInput =
      (QueueBufferInput.flatten env32 sampleInput 33 1).bytes.length ∧
    QueueBufferInput.getFlattenedSize env32 sampleInput =
      8 + 16 + 4 + 4 + 1 +
        (match sampleInput.fence with
          | some f => if env32.fenceIsValid f = true then env32.fence.getFlattenedSize f else 0
          | none => 0) :=
  C2_getFlattenedSize_eq_written env32 sampleInput 33 1
    (by simp [fenceFlattenedSize, isValid, env32, sampleInput, fdFence])
    (by
      intro f _ _
      simp [env32, fdFence, sizeSub])

/-! ## The opcode enum and the selection of a case -/

theorem indexOf_enumerators (cpcam : Bool) (op : Op) (h : op ∈ enumerators cpcam) :
    (enumerators cpcam).indexOf op = op.toCtorIdx := by
  cases cpcam <;> cases op <;> first | rfl | exact absurd h (by decide)

theorem code_eq (first : Nat) (cpcam : Bool) (op : Op) (h : op ∈ enumerators cpcam) :
    Op.code first cpcam op = first + op.toCtorIdx := by
  rw [Op.code, indexOf_enumerators cpcam op h]

theorem find_code (first : Nat) (cpcam : Bool) (op : Op) (h : op ∈ enumerators cpcam) :
    (enumerators cpcam).find? (fun x => decide (first + x.toCtorIdx = first + op.toCtorIdx)) =
      some op := by
  cases cpcam <;> cases op <;> first | exact absurd h (by decide) | simp [enumerators, Op.toCtorIdx]

theorem find_congr_mem {α : Type} (l : List α) (p q : α → Bool) (h : ∀ x, x ∈ l → p x = q x) :
    l.find? p = l.find? q := by
  induction l with
  | nil => rfl
  | cons a t ih =>
    have ha : p a = q a := h a (List.mem_cons_self a t)
    have ht : t.find? p = t.find? q := ih fun x hx => h x (List.mem_cons_of_mem a hx)
    simp only [List.find?_cons, ha, ht]

theorem decode_code (first : Nat) (cpcam : Bool) (op : Op) (h : op ∈ enumerators cpcam) :
    decode first cpcam (Op.code first cpcam op) = some op := by
  rw [code_eq first cpcam op h, decode, ← find_code first cpcam op h]
  apply find_congr_mem
  intro x hx
  rw [code_eq first cpcam x hx]

theorem decode_eq_none (first : Nat) (cpcam : Bool) (code : Nat)
    (h : ∀ op, op ∈ enumerators cpcam → Op.code first cpcam op ≠ code) :
    decode first cpcam code = none := by
  unfold decode
  rw [List.find?_eq_none]
  intro op hop
  simpa using h op hop

/-- C9: the opcodes are numbered from `FIRST_CALL_TRANSACTION` upwards without a gap, in
the order of the enum: the nine base opcodes are `first`, `first + 1`, ..,
`first + 8` whether or not the extended set is enabled, the extended opcodes, when
enabled, are `first + 9`, .., `first + 12`, and the values are strictly increasing,
hence pairwise distinct. -/
theorem C9_opcode_numbering (first : Nat) :
    (∀ cpcam : Bool,
      Op.code first cpcam Op.REQUEST_BUFFER = first ∧
      Op.code first cpcam Op.SET_BUFFER_COUNT = first + 1 ∧
      Op.code first cpcam Op.DEQUEUE_BUFFER = first + 2 ∧
      Op.code first cpcam Op.QUEUE_BUFFER = first + 3 ∧
      Op.code first cpcam Op.CANCEL_BUFFER = first + 4 ∧
      Op.code first cpcam Op.QUERY = first + 5 ∧
      Op.code first cpcam Op.SET_SYNCHRONOUS_MODE = first + 6 ∧
      Op.code first cpcam Op.CONNECT = first + 7 ∧
      Op.code first cpcam Op.DISCONNECT = first + 8) ∧
    (Op.code first true Op.UPDATE_AND_GET_CURRENT = first + 9 ∧
      Op.code first true Op.ADD_BUFFER_SLOT = first + 10 ∧
      Op.code first true Op.GET_ID = first + 11 ∧
      Op.code first true Op.RELEASE_BUFFER = first + 12) ∧
    (enumerators false).map (Op.code first false) =
      [first, first + 1, first + 2, first + 3, first + 4, first + 5, first + 6, first + 7,
        first + 8] ∧
    (enumerators true).map (Op.code first true) =
      [first, first + 1, first + 2, first + 3, first + 4, first + 5, first + 6, first + 7,
        first + 8, first + 9, first + 10, first + 11, first + 12] ∧
    (∀ cpcam : Bool, List.Pairwise (fun a b => a < b)
      ((enumerators cpcam).map (Op.code first cpcam))) ∧
    (∀ op, op ∈ enumerators false → Op.code first true op = Op.code first false op) := by
  have hc : ∀ (cpcam : Bool) (op : Op), op ∈ enumerators cpcam →
      Op.code first cpcam op = first + op.toCtorIdx := code_eq first
  refine ⟨?_, ?_, ?_, ?_, ?_, ?_⟩
  · intro cpcam
    refine ⟨?_, ?_, ?_, ?_, ?_, ?_, ?_, ?_, ?_⟩ <;>
      (rw [hc cpcam _ (by cases cpcam <;> decide)]; try rfl)
  · refine ⟨?_, ?_, ?_, ?_⟩ <;> rw [hc true _ (by decide)]
  · simp only [enumerators, Bool.false_eq_true, if_false, List.append_nil, List.map]
    repeat rw [hc false _ (by decide)]
    rfl
  · simp only [enumerators, if_true, List.cons_append, List.nil_append, List.map]
    repeat rw [hc true _ (by decide)]
    rfl
  · intro cpcam
    cases cpcam
    · simp only [enumerators, Bool.false_eq_true, if_false, List.append_nil, List.map]
      repeat rw [hc false _ (by decide)]
      simp [Op.toCtorIdx]
    · simp only [enumerators, if_true, List.cons_append, List.nil_append, List.map]
      repeat rw [hc true _ (by decide)]
      simp [Op.toCtorIdx]
  · intro op hop
    have hop2 : op ∈ enumerators true := by
      cases op <;> decide
    rw [hc true op hop2, hc false op hop]

/-! ## The dispatcher -/

theorem enforceInterface_snd (data : Parcel) (d : String) :
    (data.enforceInterface d).2 = data.advance := rfl

theorem enforceInterface_of_hasToken (data : Parcel) (h : HasToken data) :
    (data.enforceInterface getInterfaceDescriptor).1 = true := by
  unfold HasToken at h
  simp [Parcel.enforceInterface, h]

theorem enforceInterface_of_not_hasToken (data : Parcel) (h : ¬ HasToken data) :
    (data.enforceInterface getInterfaceDescriptor).1 = false := by
  unfold HasToken at h
  unfold Parcel.enforceInterface
  split
  · next d hd =>
    simp only [decide_eq_false_iff_not]
    intro hdd
    exact h (by rw [hd, hdd])
  · rfl

theorem CHECK_INTERFACE_of_hasToken {σ F G : Type} (self : Bn σ F G) (data reply : Parcel)
    (body : Parcel → Transacted σ F G) (h : HasToken data) :
    CHECK_INTERFACE self data reply body = body data.advance := by
  simp [CHECK_INTERFACE, enforceInterface_of_hasToken data h, enforceInterface_snd]

theorem CHECK_INTERFACE_of_not_hasToken {σ F G : Type} (self : Bn σ F G) (data reply : Parcel)
    (body : Parcel → Transacted σ F G) (h : ¬ HasToken data) :
    CHECK_INTERFACE self data reply body = ⟨PERMISSION_DENIED, data.advance, reply, self⟩ := by
  simp [CHECK_INTERFACE, enforceInterface_of_not_hasToken data h, enforceInterface_snd]

theorem onTransact_code {σ F G : Type} (first : Nat) (cpcam : Bool) (env : Env F G)
    (bbinder : Nat → Parcel → Parcel → Nat → status_t × Parcel × Parcel)
    (impl : Impl σ F G) (init : QueueBufferInput F) (self : Bn σ F G) (op : Op)
    (data reply : Parcel) (flags : Nat) (hop : op ∈ enumerators cpcam) :
    BnSurfaceTexture.onTransact first cpcam env bbinder impl init self
      (Op.code first cpcam op) data reply flags =
        BnSurfaceTexture.caseOf cpcam env impl init self data reply op := by
  unfold BnSurfaceTexture.onTransact
  rw [decode_code first cpcam op hop]

/-- C3: for every opcode of the table and every message whose token is not the one of
this interface, `onTransact` returns `PERMISSION_DENIED`, which is not `NO_ERROR`; the
read cursor of the message has moved over the token only, so no argument was read;
the object is as before, so no method of the implementation was invoked; and the
reply is as before, so no result was written. -/
theorem C3_foreign_token_rejected {σ F G : Type} (first : Nat) (cpcam : Bool) (env : Env F G)
    (bbinder : Nat → Parcel → Parcel → Nat → status_t × Parcel × Parcel)
    (impl : Impl σ F G) (init : QueueBufferInput F) (self : Bn σ F G) (op : Op)
    (data reply : Parcel) (flags : Nat)
    (hop : op ∈ enumerators cpcam) (htoken : ¬ HasToken data) :
    (BnSurfaceTexture.onTransact first cpcam env bbinder impl init self
        (Op.code first cpcam op) data reply flags).status = PERMISSION_DENIED ∧
    (BnSurfaceTexture.onTransact first cpcam env bbinder impl init self
        (Op.code first cpcam op) data reply flags).status ≠ NO_ERROR ∧
    (BnSurfaceTexture.onTransact first cpcam env bbinder impl init self
        (Op.code first cpcam op) data reply flags).data = data.advance ∧
    (BnSurfaceTexture.onTransact first cpcam env bbinder impl init self
        (Op.code first cpcam op) data reply flags).self = self ∧
    (BnSurfaceTexture.onTransact first cpcam env bbinder impl init self
        (Op.code first cpcam op) data reply flags).reply = reply := by
  have hr : BnSurfaceTexture.onTransact first cpcam env bbinder impl init self
      (Op.code first cpcam op) data reply flags =
        ⟨PERMISSION_DENIED, data.advance, reply, self⟩ := by
    rw [onTransact_code first cpcam env bbinder impl init self op data reply flags hop]
    cases op <;>
      simp only [BnSurfaceTexture.caseOf, BnSurfaceTexture.caseRequestBuffer, BnSurfaceTexture.caseSetBufferCount,
        BnSurfaceTexture.caseDequeueBuffer, BnSurfaceTexture.caseQueueBuffer,
        BnSurfaceTexture.caseCancelBuffer, BnSurfaceTexture.caseQuery,
        BnSurfaceTexture.caseSetSynchronousMode, BnSurfaceTexture.caseConnect,
        BnSurfaceTexture.caseDisconnect, BnSurfaceTexture.caseUpdateAndGetCurrent,
        BnSurfaceTexture.caseAddBufferSlot, BnSurfaceTexture.caseGetId,
        BnSurfaceTexture.caseReleaseBuffer,
        CHECK_INTERFACE_of_not_hasToken _ _ _ _ htoken]
  rw [hr]
  exact ⟨rfl, by simp [PERMISSION_DENIED, NO_ERROR], rfl, rfl, rfl⟩

/-- C3 at `QUERY` and a message that carries the token of another interface. -/
theorem C3_foreign_token_rejected_witness :
    (BnSurfaceTexture.onTransact 1 false env32 sampleBBinder sampleImpl sampleInputNoFence
        ⟨0, []⟩ (Op.code 1 false Op.QUERY)
        ⟨[Field.token "android.ui.ISurface", Field.int32 3], 0⟩ Parcel.empty 0).status =
      PERMISSION_DENIED ∧
    (BnSurfaceTexture.onTransact 1 false env32 sampleBBinder sampleImpl sampleInputNoFence
        ⟨0, []⟩ (Op.code 1 false Op.QUERY)
        ⟨[Field.token "android.ui.ISurface", Field.int32 3], 0⟩ Parcel.empty 0).status ≠
      NO_ERROR ∧
    (BnSurfaceTexture.onTransact 1 false env32 sampleBBinder sampleImpl sampleInputNoFence
        ⟨0, []⟩ (Op.code 1 false Op.QUERY)
        ⟨[Field.token "android.ui.ISurface", Field.int32 3], 0⟩ Parcel.empty 0).data =
      Parcel.advance ⟨[Field.token "android.ui.ISurface", Field.int32 3], 0⟩ ∧
    (BnSurfaceTexture.onTransact 1 false env32 sampleBBinder sampleImpl sampleInputNoFence
        ⟨0, []⟩ (Op.code 1 false Op.QUERY)
        ⟨[Field.token "android.ui.ISurface", Field.int32 3], 0⟩ Parcel.empty 0).self = ⟨0, []⟩ ∧
    (BnSurfaceTexture.onTransact 1 false env32 sampleBBinder sampleImpl sampleInputNoFence
        ⟨0, []⟩ (Op.code 1 false Op.QUERY)
        ⟨[Field.token "android.ui.ISurface", Field.int32 3], 0⟩ Parcel.empty 0).reply =
      Parcel.empty :=
  C3_foreign_token_rejected 1 false env32 sampleBBinder sampleImpl sampleInputNoFence ⟨0, []⟩
    Op.QUERY ⟨[Field.token "android.ui.ISurface", Field.int32 3], 0⟩ Parcel.empty 0
    (by decide) (by simp [HasToken, Parcel.peek, getInterfaceDescriptor])

/-- C7: for every code that no enumerator of the table has, `onTransact` returns what
`BBinder::onTransact` returns on the same code, request, reply and flags, leaves the
request and the reply as that call left them, and leaves the object as it was, so no
method of the implementation is invoked. -/
theorem C7_unknown_opcode_falls_through {σ F G : Type} (first : Nat) (cpcam : Bool)
    (env : Env F G) (bbinder : Nat → Parcel → Parcel → Nat → status_t × Parcel × Parcel)
    (impl : Impl σ F G) (init : QueueBufferInput F) (self : Bn σ F G) (code : Nat)
    (data reply : Parcel) (flags : Nat)
    (hcode : ∀ op, op ∈ enumerators cpcam → Op.code first cpcam op ≠ code) :
    (BnSurfaceTexture.onTransact first cpcam env bbinder impl init self code data reply
        flags).status = (bbinder code data reply flags).1 ∧
    (BnSurfaceTexture.onTransact first cpcam env bbinder impl init self code data reply
        flags).data = (bbinder code data reply flags).2.1 ∧
    (BnSurfaceTexture.onTransact first cpcam env bbinder impl init self code data reply
        flags).reply = (bbinder code data reply flags).2.2 ∧
    (BnSurfaceTexture.onTransact first cpcam env bbinder impl init self code data reply
        flags).self = self := by
  unfold BnSurfaceTexture.onTransact
  rw [decode_eq_none first cpcam code hcode]
  exact ⟨rfl, rfl, rfl, rfl⟩

/-- C7 at code 0, which is below `FIRST_CALL_TRANSACTION`, with the extended set on. -/
theorem C7_unknown_opcode_falls_through_witness :
    (BnSurfaceTexture.onTransact 1 true env32 sampleBBinder sampleImpl sampleInputNoFence
        ⟨0, []⟩ 0 ⟨[Field.token getInterfaceDescriptor], 0⟩ Parcel.empty 0).status =
      (sampleBBinder 0 ⟨[Field.token getInterfaceDescriptor], 0⟩ Parcel.empty 0).1 ∧
    (BnSurfaceTexture.onTransact 1 true env32 sampleBBinder sampleImpl sampleInputNoFence
        ⟨0, []⟩ 0 ⟨[Field.token getInterfaceDescriptor], 0⟩ Parcel.empty 0).data =
      (sampleBBinder 0 ⟨[Field.token getInterfaceDescriptor], 0⟩ Parcel.empty 0).2.1 ∧
    (BnSurfaceTexture.onTransact 1 true env32 sampleBBinder sampleImpl sampleInputNoFence
        ⟨0, []⟩ 0 ⟨[Field.token getInterfaceDescriptor], 0⟩ Parcel.empty 0).reply =
      (sampleBBinder 0 ⟨[Field.token getInterfaceDescriptor], 0⟩ Parcel.empty 0).2.2 ∧
    (BnSurfaceTexture.onTransact 1 true env32 sampleBBinder sampleImpl sampleInputNoFence
        ⟨0, []⟩ 0 ⟨[Field.token getInterfaceDescriptor], 0⟩ Parcel.empty 0).self = ⟨0, []⟩ :=
  C7_unknown_opcode_falls_through 1 true env32 sampleBBinder sampleImpl sampleInputNoFence
    ⟨0, []⟩ 0 ⟨[Field.token getInterfaceDescriptor], 0⟩ Parcel.empty 0
    (by decide)

theorem decode_extended_off (first : Nat) (op : Op)
    (hop : op ∈ [Op.UPDATE_AND_GET_CURRENT, Op.ADD_BUFFER_SLOT, Op.GET_ID, Op.RELEASE_BUFFER]) :
    decode first false (Op.code first true op) = none := by
  apply decode_eq_none
  intro x hx
  have hop2 : op ∈ enumerators true := by
    cases op <;> decide
  rw [code_eq first false x hx, code_eq first true op hop2]
  cases op <;> first
    | exact absurd hop (by decide)
    | (cases x <;> first
        | exact absurd hx (by decide)
        | simp [Op.toCtorIdx])

/-- C8: with the capability flag off, each extended opcode (`first + 9` .. `first + 12`)
is handled like an unknown opcode: the result is that of `BBinder::onTransact` and the
object is as before, so no method of the implementation is invoked. With the flag on,
each of them, on a message with the token of the interface, returns `NO_ERROR` and
invokes its own method of the implementation, once. -/
theorem C8_extended_opcodes_gated {σ F G : Type} (first : Nat) (env : Env F G)
    (bbinder : Nat → Parcel → Parcel → Nat → status_t × Parcel × Parcel)
    (impl : Impl σ F G) (init : QueueBufferInput F) (self : Bn σ F G)
    (data reply : Parcel) (flags : Nat) :
    (∀ op, op ∈ [Op.UPDATE_AND_GET_CURRENT, Op.ADD_BUFFER_SLOT, Op.GET_ID, Op.RELEASE_BUFFER] →
      (BnSurfaceTexture.onTransact first false env bbinder impl init self
          (Op.code first true op) data reply flags).status =
        (bbinder (Op.code first true op) data reply flags).1 ∧
      (BnSurfaceTexture.onTransact first false env bbinder impl init self
          (Op.code first true op) data reply flags).data =
        (bbinder (Op.code first true op) data reply flags).2.1 ∧
      (BnSurfaceTexture.onTransact first false env bbinder impl init self
          (Op.code first true op) data reply flags).reply =
        (bbinder (Op.code first true op) data reply flags).2.2 ∧
      (BnSurfaceTexture.onTransact first false env bbinder impl init self
          (Op.code first true op) data reply flags).self = self) ∧
    (HasToken data →
      ((BnSurfaceTexture.onTransact first true env bbinder impl init self
          (Op.code first true Op.UPDATE_AND_GET_CURRENT) data reply flags).status = NO_ERROR ∧
        (BnSurfaceTexture.onTransact first true env bbinder impl init self
          (Op.code first true Op.UPDATE_AND_GET_CURRENT) data reply flags).self =
            ⟨(impl.updateAndGetCurrent self.state).2,
              self.calls ++ [Call.updateAndGetCurrent]⟩) ∧
      ((BnSurfaceTexture.onTransact first true env bbinder impl init self
          (Op.code first true Op.ADD_BUFFER_SLOT) data reply flags).status = NO_ERROR ∧
        (BnSurfaceTexture.onTransact first true env bbinder impl init self
          (Op.code first true Op.ADD_BUFFER_SLOT) data reply flags).self =
            ⟨(impl.addBufferSlot
                (data.advance.read env.graphicBuffer env.graphicBufferNew).1.2 self.state).2,
              self.calls ++ [Call.addBufferSlot
                (data.advance.read env.graphicBuffer env.graphicBufferNew).1.2]⟩) ∧
      ((BnSurfaceTexture.onTransact first true env bbinder impl init self
          (Op.code first true Op.GET_ID) data reply flags).status = NO_ERROR ∧
        (BnSurfaceTexture.onTransact first true env bbinder impl init self
          (Op.code first true Op.GET_ID) data reply flags).self =
            ⟨(impl.getId self.state).2, self.calls ++ [Call.getId]⟩) ∧
      ((BnSurfaceTexture.onTransact first true env bbinder impl init self
          (Op.code first true Op.RELEASE_BUFFER) data reply flags).status = NO_ERROR ∧
        (BnSurfaceTexture.onTransact first true env bbinder impl init self
          (Op.code first true Op.RELEASE_BUFFER) data reply flags).self =
            ⟨(impl.releaseBuffer data.advance.readInt32.1 self.state).2,
              self.calls ++ [Call.releaseBuffer data.advance.readInt32.1]⟩)) := by
  constructor
  · intro op hop
    unfold BnSurfaceTexture.onTransact
    rw [decode_extended_off first op hop]
    exact ⟨rfl, rfl, rfl, rfl⟩
  · intro htoken
    refine ⟨?_, ?_, ?_, ?_⟩
    · have e := onTransact_code first true env bbinder impl init self Op.UPDATE_AND_GET_CURRENT data reply
        flags (by decide)
      rw [e]
      simp only [BnSurfaceTexture.caseOf, BnSurfaceTexture.caseUpdateAndGetCurrent,
        CHECK_INTERFACE_of_hasToken _ _ _ _ htoken]
      exact ⟨trivial, rfl⟩
    · have e := onTransact_code first true env bbinder impl init self Op.ADD_BUFFER_SLOT data reply
        flags (by decide)
      rw [e]
      simp only [BnSurfaceTexture.caseOf, BnSurfaceTexture.caseAddBufferSlot,
        CHECK_INTERFACE_of_hasToken _ _ _ _ htoken]
      exact ⟨trivial, rfl⟩
    · have e := onTransact_code first true env bbinder impl init self Op.GET_ID data reply
        flags (by decide)
      rw [e]
      simp only [BnSurfaceTexture.caseOf, BnSurfaceTexture.caseGetId,
        CHECK_INTERFACE_of_hasToken _ _ _ _ htoken]
      exact ⟨trivial, rfl⟩
    · have e := onTransact_code first true env bbinder impl init self Op.RELEASE_BUFFER data reply
        flags (by decide)
      rw [e]
      simp only [BnSurfaceTexture.caseOf, BnSurfaceTexture.caseReleaseBuffer,
        CHECK_INTERFACE_of_hasToken _ _ _ _ htoken]
      exact ⟨trivial, rfl⟩

/-- C8 at `RELEASE_BUFFER` with slot 3: reported by the default handling with the flag
off, delivered to `releaseBuffer` with the flag on. -/
theorem C8_extended_opcodes_gated_witness :
    ((BnSurfaceTexture.onTransact 1 false env32 sampleBBinder sampleImpl sampleInputNoFence
        ⟨0, []⟩ (Op.code 1 true Op.RELEASE_BUFFER)
        ⟨[Field.token getInterfaceDescriptor, Field.int32 3], 0⟩ Parcel.empty 0).status = -74 ∧
      (BnSurfaceTexture.onTransact 1 false env32 sampleBBinder sampleImpl sampleInputNoFence
        ⟨0, []⟩ (Op.code 1 true Op.RELEASE_BUFFER)
        ⟨[Field.token getInterfaceDescriptor, Field.int32 3], 0⟩ Parcel.empty 0).self =
          ⟨0, []⟩) ∧
    ((BnSurfaceTexture.onTransact 1 true env32 sampleBBinder sampleImpl sampleInputNoFence
        ⟨0, []⟩ (Op.code 1 true Op.RELEASE_BUFFER)
        ⟨[Field.token getInterfaceDescriptor, Field.int32 3], 0⟩ Parcel.empty 0).status =
          NO_ERROR ∧
      (BnSurfaceTexture.onTransact 1 true env32 sampleBBinder sampleImpl sampleInputNoFence
        ⟨0, []⟩ (Op.code 1 true Op.RELEASE_BUFFER)
        ⟨[Field.token getInterfaceDescriptor, Field.int32 3], 0⟩ Parcel.empty 0).self =
          ⟨1, [Call.releaseBuffer 3]⟩) :=
  ⟨⟨((C8_extended_opcodes_gated 1 env32 sampleBBinder sampleImpl sampleInputNoFence ⟨0, []⟩
        ⟨[Field.token getInterfaceDescriptor, Field.int32 3], 0⟩ Parcel.empty 0).1
        Op.RELEASE_BUFFER (by decide)).1,
      ((C8_extended_opcodes_gated 1 env32 sampleBBinder sampleImpl sampleInputNoFence ⟨0, []⟩
        ⟨[Field.token getInterfaceDescriptor, Field.int32 3], 0⟩ Parcel.empty 0).1
        Op.RELEASE_BUFFER (by decide)).2.2.2⟩,
    ((C8_extended_opcodes_gated 1 env32 sampleBBinder sampleImpl sampleInputNoFence ⟨0, []⟩
        ⟨[Field.token getInterfaceDescriptor, Field.int32 3], 0⟩ Parcel.empty 0).2
        rfl).2.2.2⟩

/-! ## The proxy -/

/-- C10: every base method of the proxy issues exactly one transport call, with the
opcode of its operation, and the request it sends is the token of the interface
followed by the positional arguments of the operation and nothing else; for
`cancelBuffer` these are the slot, the presence flag, and the fence only when the
flag is 1. -/
theorem C10_request_layout {τ F G : Type} (first : Nat) (cpcam : Bool) (env : Env F G)
    (remote : Remote τ) (self : Bp τ) :
    (∀ (bufferIdx : Int) (buf : Option G),
      (BpSurfaceTexture.requestBuffer first cpcam env remote self bufferIdx buf).self.sent =
        self.sent ++ [(Op.code first cpcam Op.REQUEST_BUFFER,
          ⟨[Field.token getInterfaceDescriptor, Field.int32 bufferIdx], 0⟩)]) ∧
    (∀ bufferCount : Int,
      (BpSurfaceTexture.setBufferCount first cpcam remote self bufferCount).self.sent =
        self.sent ++ [(Op.code first cpcam Op.SET_BUFFER_COUNT,
          ⟨[Field.token getInterfaceDescriptor, Field.int32 bufferCount], 0⟩)]) ∧
    (∀ (buf : Int) (fence : Option F) (w h format usage : Nat),
      (BpSurfaceTexture.dequeueBuffer first cpcam env remote self buf fence w h format
          usage).self.sent =
        self.sent ++ [(Op.code first cpcam Op.DEQUEUE_BUFFER,
          ⟨[Field.token getInterfaceDescriptor, Field.int32 (toSigned 32 w),
            Field.int32 (toSigned 32 h), Field.int32 (toSigned 32 format),
            Field.int32 (toSigned 32 usage)], 0⟩)]) ∧
    (∀ (buf : Int) (input : QueueBufferInput F) (output : QueueBufferOutput)
        (metadata : Option Nat),
      (BpSurfaceTexture.queueBuffer first cpcam env remote self buf input output
          metadata).self.sent =
        self.sent ++ [(Op.code first cpcam Op.QUEUE_BUFFER,
          ⟨[Field.token getInterfaceDescriptor, Field.int32 buf,
            Field.flatten (QueueBufferInput.flattenable env) input] ++
            (if cpcam then [Field.binder metadata] else []), 0⟩)]) ∧
    (∀ (buf : Int) (fence : Option F),
      (BpSurfaceTexture.cancelBuffer first cpcam env remote self buf fence).self.sent =
        self.sent ++ [(Op.code first cpcam Op.CANCEL_BUFFER,
          ⟨[Field.token getInterfaceDescriptor, Field.int32 buf,
            Field.int32 (if isValid env fence then 1 else 0)] ++
            (match isValid env fence, fence with
              | true, some f => [Field.flatten env.fence f]
              | _, _ => []), 0⟩)]) ∧
    (∀ (what value : Int),
      (BpSurfaceTexture.query first cpcam remote self what value).self.sent =
        self.sent ++ [(Op.code first cpcam Op.QUERY,
          ⟨[Field.token getInterfaceDescriptor, Field.int32 what], 0⟩)]) ∧
    (∀ enabled : Bool,
      (BpSurfaceTexture.setSynchronousMode first cpcam remote self enabled).self.sent =
        self.sent ++ [(Op.code first cpcam Op.SET_SYNCHRONOUS_MODE,
          ⟨[Field.token getInterfaceDescriptor, Field.int32 (if enabled then 1 else 0)], 0⟩)]) ∧
    (∀ (api : Int) (output : QueueBufferOutput),
      (BpSurfaceTexture.connect first cpcam remote self api output).self.sent =
        self.sent ++ [(Op.code first cpcam Op.CONNECT,
          ⟨[Field.token getInterfaceDescriptor, Field.int32 api], 0⟩)]) ∧
    (∀ api : Int,
      (BpSurfaceTexture.disconnect first cpcam remote self api).self.sent =
        self.sent ++ [(Op.code first cpcam Op.DISCONNECT,
          ⟨[Field.token getInterfaceDescriptor, Field.int32 api], 0⟩)]) := by
  refine ⟨?_, ?_, ?_, ?_, ?_, ?_, ?_, ?_, ?_⟩
  · intro bufferIdx buf
    unfold BpSurfaceTexture.requestBuffer
    simp only []
    split <;> rfl
  · intro bufferCount
    unfold BpSurfaceTexture.setBufferCount
    simp only []
    split <;> rfl
  · intro buf fence w h format usage
    unfold BpSurfaceTexture.dequeueBuffer
    simp only []
    split <;> rfl
  · intro buf input output metadata
    unfold BpSurfaceTexture.queueBuffer
    cases cpcam <;> simp only [Bool.false_eq_true, if_true, if_false] <;> split <;>
      first | rfl | (split <;> rfl)
  · intro buf fence
    unfold BpSurfaceTexture.cancelBuffer
    cases fence with
    | none => rfl
    | some f =>
      cases hv : env.fenceIsValid f <;> simp [isValid, hv, Bp.transact, Parcel.write,
        Parcel.writeInt32, Parcel.writeInterfaceToken, Parcel.empty, boolToInt32]
  · intro what value
    unfold BpSurfaceTexture.query
    simp only []
    split <;> rfl
  · intro enabled
    unfold BpSurfaceTexture.setSynchronousMode
    simp only []
    split <;> rfl
  · intro api output
    unfold BpSurfaceTexture.connect
    simp only []
    split
    · rfl
    · split <;> rfl
  · intro api
    unfold BpSurfaceTexture.disconnect
    simp only []
    split <;> rfl

/-! ## Proxy and dispatcher on one channel -/

theorem base_mem (cpcam : Bool) (op : Op)
    (h : op ∈ [Op.REQUEST_BUFFER, Op.SET_BUFFER_COUNT, Op.DEQUEUE_BUFFER, Op.QUEUE_BUFFER,
      Op.CANCEL_BUFFER, Op.QUERY, Op.SET_SYNCHRONOUS_MODE, Op.CONNECT, Op.DISCONNECT]) :
    op ∈ enumerators cpcam := by
  unfold enumerators
  exact List.mem_append_left _ h

theorem channel_code {σ F G : Type} (first : Nat) (cpcam : Bool) (env : Env F G)
    (bbinder : Nat → Parcel → Parcel → Nat → status_t × Parcel × Parcel)
    (impl : Impl σ F G) (init : QueueBufferInput F) (op : Op) (data : Parcel) (bn : Bn σ F G)
    (hop : op ∈ enumerators cpcam) :
    channel first cpcam env bbinder impl init (Op.code first cpcam op) data bn =
      (((BnSurfaceTexture.caseOf cpcam env impl init bn ⟨data.fields, 0⟩ Parcel.empty op).status,
        ⟨(BnSurfaceTexture.caseOf cpcam env impl init bn ⟨data.fields, 0⟩
          Parcel.empty op).reply.fields, 0⟩),
       (BnSurfaceTexture.caseOf cpcam env impl init bn ⟨data.fields, 0⟩ Parcel.empty op).self) := by
  unfold channel
  rw [onTransact_code first cpcam env bbinder impl init bn op _ _ _ hop]

theorem hasToken_cons (rest : List Field) :
    HasToken ⟨Field.token getInterfaceDescriptor :: rest, 0⟩ := rfl

theorem int32ToBool_boolToInt32 (b : Bool) : int32ToBool (boolToInt32 b) = b := by
  cases b <;> rfl

theorem channel_requestBuffer {σ F G : Type} (first : Nat) (cpcam : Bool) (env : Env F G)
    (bbinder : Nat → Parcel → Parcel → Nat → status_t × Parcel × Parcel)
    (impl : Impl σ F G) (init : QueueBufferInput F) (bn : Bn σ F G) (bufferIdx : Int) :
    channel first cpcam env bbinder impl init (Op.code first cpcam Op.REQUEST_BUFFER)
        ⟨[Field.token getInterfaceDescriptor, Field.int32 bufferIdx], 0⟩ bn =
      ((NO_ERROR,
        ⟨Field.int32 (boolToInt32 (impl.requestBuffer bufferIdx bn.state).1.2.isSome) ::
          ((match (impl.requestBuffer bufferIdx bn.state).1.2 with
            | some b => [Field.flatten env.graphicBuffer b]
            | none => []) ++ [Field.int32 (impl.requestBuffer bufferIdx bn.state).1.1]), 0⟩),
       ⟨(impl.requestBuffer bufferIdx bn.state).2,
        bn.calls ++ [Call.requestBuffer bufferIdx]⟩) := by
  rw [channel_code first cpcam env bbinder impl init _ _ bn (base_mem cpcam _ (by decide))]
  simp only [BnSurfaceTexture.caseOf, BnSurfaceTexture.caseRequestBuffer,
    CHECK_INTERFACE_of_hasToken _ _ _ _ (hasToken_cons _)]
  cases h : (impl.requestBuffer bufferIdx bn.state).1.2 <;>
    simp [Parcel.advance, Parcel.readInt32, Parcel.peek, Parcel.writeInt32, Parcel.write,
      Parcel.empty, Bn.invoked, h]

theorem channel_setBufferCount {σ F G : Type} (first : Nat) (cpcam : Bool) (env : Env F G)
    (bbinder : Nat → Parcel → Parcel → Nat → status_t × Parcel × Parcel)
    (impl : Impl σ F G) (init : QueueBufferInput F) (bn : Bn σ F G) (bufferCount : Int) :
    channel first cpcam env bbinder impl init (Op.code first cpcam Op.SET_BUFFER_COUNT)
        ⟨[Field.token getInterfaceDescriptor, Field.int32 bufferCount], 0⟩ bn =
      ((NO_ERROR, ⟨[Field.int32 (impl.setBufferCount bufferCount bn.state).1], 0⟩),
       ⟨(impl.setBufferCount bufferCount bn.state).2,
        bn.calls ++ [Call.setBufferCount bufferCount]⟩) := by
  rw [channel_code first cpcam env bbinder impl init _ _ bn (base_mem cpcam _ (by decide))]
  simp [BnSurfaceTexture.caseOf, BnSurfaceTexture.caseSetBufferCount,
    CHECK_INTERFACE_of_hasToken _ _ _ _ (hasToken_cons _),
    Parcel.advance, Parcel.readInt32, Parcel.peek, Parcel.writeInt32, Parcel.empty, Bn.invoked]

theorem channel_dequeueBuffer {σ F G : Type} (first : Nat) (cpcam : Bool) (env : Env F G)
    (bbinder : Nat → Parcel → Parcel → Nat → status_t × Parcel × Parcel)
    (impl : Impl σ F G) (init : QueueBufferInput F) (bn : Bn σ F G) (a b c d : Int) :
    channel first cpcam env bbinder impl init (Op.code first cpcam Op.DEQUEUE_BUFFER)
        ⟨[Field.token getInterfaceDescriptor, Field.int32 a, Field.int32 b, Field.int32 c,
          Field.int32 d], 0⟩ bn =
      ((NO_ERROR,
        ⟨Field.int32 (impl.dequeueBuffer (toUnsigned 32 a) (toUnsigned 32 b) (toUnsigned 32 c)
            (toUnsigned 32 d) bn.state).1.2.1 ::
          Field.int32 (boolToInt32 (isValid env
            (impl.dequeueBuffer (toUnsigned 32 a) (toUnsigned 32 b) (toUnsigned 32 c)
              (toUnsigned 32 d) bn.state).1.2.2)) ::
          ((match isValid env (impl.dequeueBuffer (toUnsigned 32 a) (toUnsigned 32 b)
                (toUnsigned 32 c) (toUnsigned 32 d) bn.state).1.2.2,
              (impl.dequeueBuffer (toUnsigned 32 a) (toUnsigned 32 b) (toUnsigned 32 c)
                (toUnsigned 32 d) bn.state).1.2.2 with
            | true, some f => [Field.flatten env.fence f]
            | _, _ => []) ++
          [Field.int32 (impl.dequeueBuffer (toUnsigned 32 a) (toUnsigned 32 b) (toUnsigned 32 c)
            (toUnsigned 32 d) bn.state).1.1]), 0⟩),
       ⟨(impl.dequeueBuffer (toUnsigned 32 a) (toUnsigned 32 b) (toUnsigned 32 c)
          (toUnsigned 32 d) bn.state).2,
        bn.calls ++ [Call.dequeueBuffer (toUnsigned 32 a) (toUnsigned 32 b) (toUnsigned 32 c)
          (toUnsigned 32 d)]⟩) := by
  rw [channel_code first cpcam env bbinder impl init _ _ bn (base_mem cpcam _ (by decide))]
  simp only [BnSurfaceTexture.caseOf, BnSurfaceTexture.caseDequeueBuffer,
    CHECK_INTERFACE_of_hasToken _ _ _ _ (hasToken_cons _)]
  rcases hr : impl.dequeueBuffer (toUnsigned 32 a) (toUnsigned 32 b) (toUnsigned 32 c)
    (toUnsigned 32 d) bn.state with ⟨⟨result, buf, fence⟩, st⟩
  cases fence with
  | none =>
    simp [Parcel.advance, Parcel.readInt32, Parcel.peek, Parcel.writeInt32, Parcel.write,
      Parcel.empty, Bn.invoked, isValid, hr]
  | some f =>
    cases hv : env.fenceIsValid f <;>
      simp [Parcel.advance, Parcel.readInt32, Parcel.peek, Parcel.writeInt32, Parcel.write,
        Parcel.empty, Bn.invoked, isValid, hv, hr]

theorem channel_query {σ F G : Type} (first : Nat) (cpcam : Bool) (env : Env F G)
    (bbinder : Nat → Parcel → Parcel → Nat → status_t × Parcel × Parcel)
    (impl : Impl σ F G) (init : QueueBufferInput F) (bn : Bn σ F G) (what : Int) :
    channel first cpcam env bbinder impl init (Op.code first cpcam Op.QUERY)
        ⟨[Field.token getInterfaceDescriptor, Field.int32 what], 0⟩ bn =
      ((NO_ERROR, ⟨[Field.int32 (impl.query what bn.state).1.2,
          Field.int32 (impl.query what bn.state).1.1], 0⟩),
       ⟨(impl.query what bn.state).2, bn.calls ++ [Call.query what]⟩) := by
  rw [channel_code first cpcam env bbinder impl init _ _ bn (base_mem cpcam _ (by decide))]
  simp [BnSurfaceTexture.caseOf, BnSurfaceTexture.caseQuery,
    CHECK_INTERFACE_of_hasToken _ _ _ _ (hasToken_cons _),
    Parcel.advance, Parcel.readInt32, Parcel.peek, Parcel.writeInt32, Parcel.empty, Bn.invoked]

theorem channel_setSynchronousMode {σ F G : Type} (first : Nat) (cpcam : Bool) (env : Env F G)
    (bbinder : Nat → Parcel → Parcel → Nat → status_t × Parcel × Parcel)
    (impl : Impl σ F G) (init : QueueBufferInput F) (bn : Bn σ F G) (v : Int) :
    channel first cpcam env bbinder impl init (Op.code first cpcam Op.SET_SYNCHRONOUS_MODE)
        ⟨[Field.token getInterfaceDescriptor, Field.int32 v], 0⟩ bn =
      ((NO_ERROR, ⟨[Field.int32 (impl.setSynchronousMode (int32ToBool v) bn.state).1], 0⟩),
       ⟨(impl.setSynchronousMode (int32ToBool v) bn.state).2,
        bn.calls ++ [Call.setSynchronousMode (int32ToBool v)]⟩) := by
  rw [channel_code first cpcam env bbinder impl init _ _ bn (base_mem cpcam _ (by decide))]
  simp [BnSurfaceTexture.caseOf, BnSurfaceTexture.caseSetSynchronousMode,
    CHECK_INTERFACE_of_hasToken _ _ _ _ (hasToken_cons _),
    Parcel.advance, Parcel.readInt32, Parcel.peek, Parcel.writeInt32, Parcel.empty, Bn.invoked]

theorem channel_connect {σ F G : Type} (first : Nat) (cpcam : Bool) (env : Env F G)
    (bbinder : Nat → Parcel → Parcel → Nat → status_t × Parcel × Parcel)
    (impl : Impl σ F G) (init : QueueBufferInput F) (bn : Bn σ F G) (api : Int) :
    channel first cpcam env bbinder impl init (Op.code first cpcam Op.CONNECT)
        ⟨[Field.token getInterfaceDescriptor, Field.int32 api], 0⟩ bn =
      ((NO_ERROR, ⟨[Field.inplace (impl.connect api bn.state).1.2,
          Field.int32 (impl.connect api bn.state).1.1], 0⟩),
       ⟨(impl.connect api bn.state).2, bn.calls ++ [Call.connect api]⟩) := by
  rw [channel_code first cpcam env bbinder impl init _ _ bn (base_mem cpcam _ (by decide))]
  simp [BnSurfaceTexture.caseOf, BnSurfaceTexture.caseConnect,
    CHECK_INTERFACE_of_hasToken _ _ _ _ (hasToken_cons _),
    Parcel.advance, Parcel.readInt32, Parcel.peek, Parcel.writeInt32, Parcel.writeInplace,
    Parcel.empty, Bn.invoked]

theorem channel_disconnect {σ F G : Type} (first : Nat) (cpcam : Bool) (env : Env F G)
    (bbinder : Nat → Parcel → Parcel → Nat → status_t × Parcel × Parcel)
    (impl : Impl σ F G) (init : QueueBufferInput F) (bn : Bn σ F G) (api : Int) :
    channel first cpcam env bbinder impl init (Op.code first cpcam Op.DISCONNECT)
        ⟨[Field.token getInterfaceDescriptor, Field.int32 api], 0⟩ bn =
      ((NO_ERROR, ⟨[Field.int32 (impl.disconnect api bn.state).1], 0⟩),
       ⟨(impl.disconnect api bn.state).2, bn.calls ++ [Call.disconnect api]⟩) := by
  rw [channel_code first cpcam env bbinder impl init _ _ bn (base_mem cpcam _ (by decide))]
  simp [BnSurfaceTexture.caseOf, BnSurfaceTexture.caseDisconnect,
    CHECK_INTERFACE_of_hasToken _ _ _ _ (hasToken_cons _),
    Parcel.advance, Parcel.readInt32, Parcel.peek, Parcel.writeInt32, Parcel.empty, Bn.invoked]

theorem channel_queueBuffer {σ F G : Type} (first : Nat) (cpcam : Bool) (env : Env F G)
    (bbinder : Nat → Parcel → Parcel → Nat → status_t × Parcel × Parcel)
    (impl : Impl σ F G) (init : QueueBufferInput F) (bn : Bn σ F G) (buf : Int) (x : Field)
    (metadata : Option Nat) :
    channel first cpcam env bbinder impl init (Op.code first cpcam Op.QUEUE_BUFFER)
        ⟨[Field.token getInterfaceDescriptor, Field.int32 buf, x] ++
          (if cpcam then [Field.binder metadata] else []), 0⟩ bn =
      ((NO_ERROR,
        ⟨[Field.inplace (impl.queueBuffer buf (QueueBufferInput.ofParcel env init ⟨[x], 0⟩).1
              (if cpcam then metadata else none) bn.state).1.2,
          Field.int32 (impl.queueBuffer buf (QueueBufferInput.ofParcel env init ⟨[x], 0⟩).1
              (if cpcam then metadata else none) bn.state).1.1], 0⟩),
       ⟨(impl.queueBuffer buf (QueueBufferInput.ofParcel env init ⟨[x], 0⟩).1
            (if cpcam then metadata else none) bn.state).2,
        bn.calls ++ [Call.queueBuffer buf (QueueBufferInput.ofParcel env init ⟨[x], 0⟩).1
          (if cpcam then metadata else none)]⟩) := by
  rw [channel_code first cpcam env bbinder impl init _ _ bn (base_mem cpcam _ (by decide))]
  cases cpcam <;>
    simp [BnSurfaceTexture.caseOf, BnSurfaceTexture.caseQueueBuffer,
      CHECK_INTERFACE_of_hasToken _ _ _ _ (hasToken_cons _), QueueBufferInput.ofParcel,
      Parcel.advance, Parcel.readInt32, Parcel.peek, Parcel.writeInt32, Parcel.writeInplace,
      Parcel.read, Parcel.readStrongBinder, Parcel.empty, Bn.invoked]

theorem channel_cancelBuffer {σ F G : Type} (first : Nat) (cpcam : Bool) (env : Env F G)
    (bbinder : Nat → Parcel → Parcel → Nat → status_t × Parcel × Parcel)
    (impl : Impl σ F G) (init : QueueBufferInput F) (bn : Bn σ F G) (buf : Int) (flag : Int)
    (rest : List Field) (fence : Option F)
    (hfence : (if int32ToBool flag = true then
        some (Parcel.read env.fence
          ⟨Field.token getInterfaceDescriptor :: Field.int32 buf :: Field.int32 flag :: rest, 3⟩
          env.fenceNew).1.2
      else none) = fence) :
    (channel first cpcam env bbinder impl init (Op.code first cpcam Op.CANCEL_BUFFER)
        ⟨Field.token getInterfaceDescriptor :: Field.int32 buf :: Field.int32 flag :: rest, 0⟩
        bn).1 = (NO_ERROR, ⟨[], 0⟩) ∧
    (channel first cpcam env bbinder impl init (Op.code first cpcam Op.CANCEL_BUFFER)
        ⟨Field.token getInterfaceDescriptor :: Field.int32 buf :: Field.int32 flag :: rest, 0⟩
        bn).2 = ⟨impl.cancelBuffer buf fence bn.state, bn.calls ++ [Call.cancelBuffer buf fence]⟩ := by
  rw [channel_code first cpcam env bbinder impl init _ _ bn (base_mem cpcam _ (by decide))]
  subst hfence
  cases hflag : int32ToBool flag <;>
    simp [BnSurfaceTexture.caseOf, BnSurfaceTexture.caseCancelBuffer,
      CHECK_INTERFACE_of_hasToken _ _ _ _ (hasToken_cons _),
      Parcel.advance, Parcel.readInt32, Parcel.peek, Parcel.empty, Bn.invoked, hflag]

theorem sizeSub_add_left (bits a b : Nat) (h : a + b < 2 ^ bits) :
    sizeSub bits (a + b) a = b := by
  unfold sizeSub
  have e : ((a + b : Nat) : Int) - (a : Int) = (b : Int) := by
    push_cast
    ring
  rw [e]
  have hb : (b : Int) < (2 : Int) ^ bits := by
    have : b < 2 ^ bits := by omega
    exact_mod_cast this
  rw [Int.emod_eq_of_lt (Int.ofNat_nonneg b) hb]
  simp

theorem toUnsigned_toSigned_32 (n : Nat) (h : n < 2 ^ 32) : toUnsigned 32 (toSigned 32 n) = n := by
  unfold toSigned toUnsigned
  norm_num at h ⊢
  split <;> omega

/-- A record written to a parcel is what the constructor from a parcel reads back. -/
theorem ofParcel_flatten {F G : Type} (env : Env F G) (init input : QueueBufferInput F)
    (hinput : input.WellTyped)
    (hfence : ∀ f, input.fence = some f → env.fenceIsValid f = true ∧
      FenceParcelRoundTrip env f ∧ 33 + env.fence.getFlattenedSize f < 2 ^ env.sizeBits) :
    (QueueBufferInput.ofParcel env init
      ⟨[Field.flatten (QueueBufferInput.flattenable env) input], 0⟩).1 = input := by
  obtain ⟨ts, crop, sm, tr, fence⟩ := input
  cases fence with
  | none =>
    have h := unflatten_header env ⟨ts, crop, sm, tr, none⟩
      ⟨init.timestamp, init.crop, init.scalingMode, init.transform, none⟩ false []
      (QueueBufferInput.getFlattenedSize env ⟨ts, crop, sm, tr, none⟩) [] 0 hinput
    simp only [List.append_nil] at h
    simp [QueueBufferInput.ofParcel, Parcel.read, Parcel.peek, Field.flatten,
      QueueBufferInput.flattenable, QueueBufferInput.flatten, QueueBufferInput.getFdCount,
      isValid, h]
  | some f =>
    obtain ⟨hv, ⟨herr, hlen, hinv⟩, hfit⟩ := hfence f rfl
    have hsize : QueueBufferInput.getFlattenedSize env ⟨ts, crop, sm, tr, some f⟩ =
        33 + env.fence.getFlattenedSize f := by
      simp only [QueueBufferInput.getFlattenedSize, sizeAdd, sizeof_timestamp, sizeof_crop,
        sizeof_scalingMode, sizeof_transform, sizeof_bool, fenceFlattenedSize, isValid, hv]
      exact Nat.mod_eq_of_lt hfit
    have hsub : sizeSub env.sizeBits (33 + env.fence.getFlattenedSize f) 33 =
        env.fence.getFlattenedSize f := sizeSub_add_left _ _ _ hfit
    have h := unflatten_header env ⟨ts, crop, sm, tr, some f⟩
      ⟨init.timestamp, init.crop, init.scalingMode, init.transform, none⟩ true
      (env.fence.flatten f (env.fence.getFlattenedSize f) (env.fence.getFdCount f)).bytes
      (33 + env.fence.getFlattenedSize f)
      ((env.fence.flatten f (env.fence.getFlattenedSize f) (env.fence.getFdCount f)).fds.take
        (env.fence.getFdCount f))
      (env.fence.getFdCount f) hinput
    rw [hsub, hinv] at h
    simp only [if_true] at h
    simp [QueueBufferInput.ofParcel, Parcel.read, Parcel.peek, Field.flatten,
      QueueBufferInput.flattenable, QueueBufferInput.flatten, QueueBufferInput.getFdCount,
      isValid, hv, hsize, header_length, hsub, herr, h, hlen]

/-- A record with a fence that is not valid, written to a parcel, is read back with no
fence. -/
theorem ofParcel_flatten_invalid {F G : Type} (env : Env F G) (init input : QueueBufferInput F)
    (f : F) (hinput : input.WellTyped) (hf : input.fence = some f)
    (hv : env.fenceIsValid f = false) :
    (QueueBufferInput.ofParcel env init
      ⟨[Field.flatten (QueueBufferInput.flattenable env) input], 0⟩).1 =
        ⟨input.timestamp, input.crop, input.scalingMode, input.transform, none⟩ := by
  obtain ⟨ts, crop, sm, tr, fence⟩ := input
  simp only at hf
  subst hf
  have h := unflatten_header env ⟨ts, crop, sm, tr, some f⟩
    ⟨init.timestamp, init.crop, init.scalingMode, init.transform, none⟩ false []
    (QueueBufferInput.getFlattenedSize env ⟨ts, crop, sm, tr, some f⟩) [] 0 hinput
  simp only [List.append_nil] at h
  simp [QueueBufferInput.ofParcel, Parcel.read, Parcel.peek, Field.flatten,
    QueueBufferInput.flattenable, QueueBufferInput.flatten, QueueBufferInput.getFdCount,
    isValid, hv, h]

/-- A fence written to a parcel is what the parcel reads back into a new fence. -/
theorem read_fence_flatten {F G : Type} (env : Env F G) (f : F) (before : List Field)
    (h : FenceParcelRoundTrip env f) :
    (Parcel.read env.fence ⟨before ++ [Field.flatten env.fence f], before.length⟩
      env.fenceNew).1 = (NO_ERROR, f) := by
  obtain ⟨herr, hlen, hinv⟩ := h
  simp [Parcel.read, Parcel.peek, Field.flatten, herr, hlen, hinv]

/-- C4, refuted as stated: the record `sampleInputInvalidFence` is well typed, and
`queueBuffer` of slot 3 with it reaches the implementation once, but with a record
whose fence is null, which is not the record given to the proxy. -/
theorem C4_invalid_fence_record_altered :
    sampleInputInvalidFence.WellTyped ∧
    (BpSurfaceTexture.queueBuffer 1 false env32
        (channel 1 false env32 sampleBBinder sampleImpl sampleInputNoFence) ⟨⟨0, []⟩, []⟩
        3 sampleInputInvalidFence ⟨0, 0, 0, 0⟩ none).self.remote.calls =
      [Call.queueBuffer 3 ⟨1000, ⟨0, 0, 256, 256⟩, 0, 0, none⟩ none] ∧
    (BpSurfaceTexture.queueBuffer 1 false env32
        (channel 1 false env32 sampleBBinder sampleImpl sampleInputNoFence) ⟨⟨0, []⟩, []⟩
        3 sampleInputInvalidFence ⟨0, 0, 0, 0⟩ none).self.remote.calls ≠
      [Call.queueBuffer 3 sampleInputInvalidFence none] :=
  ⟨by simp [QueueBufferInput.WellTyped, sampleInputInvalidFence], by decide, by decide⟩

/-- C4, amended: on one channel, each base method of the proxy makes the dispatcher
invoke the method of the implementation for the same operation exactly once, with the
arguments given to the proxy: integers as they are, the four `uint32_t` of
`dequeueBuffer` when they are 32-bit values, the input record of `queueBuffer` when it
is well typed and its fence is null or valid with a codec that inverts itself (the
binder only under `OMAP_ENHANCEMENT_CPCAM`), and for `cancelBuffer` no fence for a null
fence and the same fence for a valid one whose codec inverts itself. A well-typed
record of `queueBuffer` whose fence is present but not valid is delivered with its
other fields as given and a null fence. -/
theorem C4_proxy_arguments_reach_implementation {σ F G : Type} (first : Nat) (cpcam : Bool)
    (env : Env F G) (bbinder : Nat → Parcel → Parcel → Nat → status_t × Parcel × Parcel)
    (impl : Impl σ F G) (init : QueueBufferInput F) (bn : Bn σ F G)
    (sent : List (Nat × Parcel)) :
    (∀ (bufferIdx : Int) (buf : Option G),
      (BpSurfaceTexture.requestBuffer first cpcam env
        (channel first cpcam env bbinder impl init) ⟨bn, sent⟩ bufferIdx buf).self.remote.calls =
        bn.calls ++ [Call.requestBuffer bufferIdx]) ∧
    (∀ bufferCount : Int,
      (BpSurfaceTexture.setBufferCount first cpcam
        (channel first cpcam env bbinder impl init) ⟨bn, sent⟩ bufferCount).self.remote.calls =
        bn.calls ++ [Call.setBufferCount bufferCount]) ∧
    (∀ (buf : Int) (fence : Option F) (w h format usage : Nat),
      w < 2 ^ 32 → h < 2 ^ 32 → format < 2 ^ 32 → usage < 2 ^ 32 →
      (BpSurfaceTexture.dequeueBuffer first cpcam env
        (channel first cpcam env bbinder impl init) ⟨bn, sent⟩ buf fence w h format
          usage).self.remote.calls =
        bn.calls ++ [Call.dequeueBuffer w h format usage]) ∧
    (∀ (buf : Int) (input : QueueBufferInput F) (output : QueueBufferOutput)
        (metadata : Option Nat),
      input.WellTyped →
      (∀ f, input.fence = some f → env.fenceIsValid f = true ∧
        FenceParcelRoundTrip env f ∧ 33 + env.fence.getFlattenedSize f < 2 ^ env.sizeBits) →
      (BpSurfaceTexture.queueBuffer first cpcam env
        (channel first cpcam env bbinder impl init) ⟨bn, sent⟩ buf input output
          metadata).self.remote.calls =
        bn.calls ++ [Call.queueBuffer buf input (if cpcam then metadata else none)]) ∧
    (∀ buf : Int,
      (BpSurfaceTexture.cancelBuffer first cpcam env
        (channel first cpcam env bbinder impl init) ⟨bn, sent⟩ buf none).self.remote.calls =
        bn.calls ++ [Call.cancelBuffer buf none]) ∧
    (∀ (buf : Int) (f : F), env.fenceIsValid f = true → FenceParcelRoundTrip env f →
      (BpSurfaceTexture.cancelBuffer first cpcam env
        (channel first cpcam env bbinder impl init) ⟨bn, sent⟩ buf (some f)).self.remote.calls =
        bn.calls ++ [Call.cancelBuffer buf (some f)]) ∧
    (∀ (what value : Int),
      (BpSurfaceTexture.query first cpcam
        (channel first cpcam env bbinder impl init) ⟨bn, sent⟩ what value).self.remote.calls =
        bn.calls ++ [Call.query what]) ∧
    (∀ enabled : Bool,
      (BpSurfaceTexture.setSynchronousMode first cpcam
        (channel first cpcam env bbinder impl init) ⟨bn, sent⟩ enabled).self.remote.calls =
        bn.calls ++ [Call.setSynchronousMode enabled]) ∧
    (∀ (api : Int) (output : QueueBufferOutput),
      (BpSurfaceTexture.connect first cpcam
        (channel first cpcam env bbinder impl init) ⟨bn, sent⟩ api output).self.remote.calls =
        bn.calls ++ [Call.connect api]) ∧
    (∀ api : Int,
      (BpSurfaceTexture.disconnect first cpcam
        (channel first cpcam env bbinder impl init) ⟨bn, sent⟩ api).self.remote.calls =
        bn.calls ++ [Call.disconnect api]) ∧
    (∀ (buf : Int) (input : QueueBufferInput F) (output : QueueBufferOutput)
        (metadata : Option Nat) (f : F),
      input.WellTyped → input.fence = some f → env.fenceIsValid f = false →
      (BpSurfaceTexture.queueBuffer first cpcam env
        (channel first cpcam env bbinder impl init) ⟨bn, sent⟩ buf input output
          metadata).self.remote.calls =
        bn.calls ++ [Call.queueBuffer buf
          ⟨input.timestamp, input.crop, input.scalingMode, input.transform, none⟩
          (if cpcam then metadata else none)]) := by
  refine ⟨?_, ?_, ?_, ?_, ?_, ?_, ?_, ?_, ?_, ?_, ?_⟩
  · intro bufferIdx buf
    simp only [BpSurfaceTexture.requestBuffer, Bp.transact, Parcel.empty,
      Parcel.writeInterfaceToken, Parcel.writeInt32, List.nil_append, List.cons_append,
      channel_requestBuffer]
    simp
  · intro bufferCount
    simp only [BpSurfaceTexture.setBufferCount, Bp.transact, Parcel.empty,
      Parcel.writeInterfaceToken, Parcel.writeInt32, List.nil_append, List.cons_append,
      channel_setBufferCount]
    simp
  · intro buf fence w h format usage hw hh hformat husage
    simp only [BpSurfaceTexture.dequeueBuffer, Bp.transact, Parcel.empty,
      Parcel.writeInterfaceToken, Parcel.writeInt32, List.nil_append, List.cons_append,
      channel_dequeueBuffer, toUnsigned_toSigned_32 _ hw, toUnsigned_toSigned_32 _ hh,
      toUnsigned_toSigned_32 _ hformat, toUnsigned_toSigned_32 _ husage]
    simp
  · intro buf input output metadata hinput hfence
    have hin := ofParcel_flatten env init input hinput hfence
    have hch := channel_queueBuffer first cpcam env bbinder impl init bn buf
      (Field.flatten (QueueBufferInput.flattenable env) input) metadata
    rw [hin] at hch
    have hdata : (if cpcam then
        ((Parcel.write (QueueBufferInput.flattenable env)
          ((Parcel.empty.writeInterfaceToken getInterfaceDescriptor).writeInt32 buf)
          input).2).writeStrongBinder metadata
        else (Parcel.write (QueueBufferInput.flattenable env)
          ((Parcel.empty.writeInterfaceToken getInterfaceDescriptor).writeInt32 buf)
          input).2) =
        ⟨[Field.token getInterfaceDescriptor, Field.int32 buf,
          Field.flatten (QueueBufferInput.flattenable env) input] ++
            (if cpcam then [Field.binder metadata] else []), 0⟩ := by
      cases cpcam <;> rfl
    simp only [BpSurfaceTexture.queueBuffer, Bp.transact, hdata, hch]
    simp [Parcel.readInplace, Parcel.peek]
  · intro buf
    have hch := channel_cancelBuffer first cpcam env bbinder impl init bn buf
    simp only [BpSurfaceTexture.cancelBuffer, Bp.transact, Parcel.empty,
      Parcel.writeInterfaceToken, Parcel.writeInt32, List.nil_append, List.cons_append,
      isValid, boolToInt32, Bool.false_eq_true, if_false]
    rw [(hch 0 [] none (by simp [int32ToBool])).2]
  · intro buf f hv hrt
    have hch := channel_cancelBuffer first cpcam env bbinder impl init bn buf
    have hread := read_fence_flatten env f
      [Field.token getInterfaceDescriptor, Field.int32 buf, Field.int32 1] hrt
    simp only [BpSurfaceTexture.cancelBuffer, Bp.transact, Parcel.empty,
      Parcel.writeInterfaceToken, Parcel.writeInt32, Parcel.write, List.nil_append,
      List.cons_append, isValid, hv, boolToInt32, if_true]
    rw [(hch 1 [Field.flatten env.fence f] (some f) (by
      simp only [int32ToBool]
      simp only [List.cons_append, List.nil_append, List.length_cons, List.length_nil] at hread
      simp [hread])).2]
  · intro what value
    simp only [BpSurfaceTexture.query, Bp.transact, Parcel.empty,
      Parcel.writeInterfaceToken, Parcel.writeInt32, List.nil_append, List.cons_append,
      channel_query]
    simp
  · intro enabled
    simp only [BpSurfaceTexture.setSynchronousMode, Bp.transact, Parcel.empty,
      Parcel.writeInterfaceToken, Parcel.writeInt32, List.nil_append, List.cons_append,
      channel_setSynchronousMode, int32ToBool_boolToInt32]
    simp
  · intro api output
    simp only [BpSurfaceTexture.connect, Bp.transact, Parcel.empty,
      Parcel.writeInterfaceToken, Parcel.writeInt32, List.nil_append, List.cons_append,
      channel_connect]
    simp [Parcel.readInplace, Parcel.peek]
  · intro api
    simp only [BpSurfaceTexture.disconnect, Bp.transact, Parcel.empty,
      Parcel.writeInterfaceToken, Parcel.writeInt32, List.nil_append, List.cons_append,
      channel_disconnect]
    simp
  · intro buf input output metadata f hinput hf hv
    have hin := ofParcel_flatten_invalid env init input f hinput hf hv
    have hch := channel_queueBuffer first cpcam env bbinder impl init bn buf
      (Field.flatten (QueueBufferInput.flattenable env) input) metadata
    rw [hin] at hch
    have hdata : (if cpcam then
        ((Parcel.write (QueueBufferInput.flattenable env)
          ((Parcel.empty.writeInterfaceToken getInterfaceDescriptor).writeInt32 buf)
          input).2).writeStrongBinder metadata
        else (Parcel.write (QueueBufferInput.flattenable env)
          ((Parcel.empty.writeInterfaceToken getInterfaceDescriptor).writeInt32 buf)
          input).2) =
        ⟨[Field.token getInterfaceDescriptor, Field.int32 buf,
          Field.flatten (QueueBufferInput.flattenable env) input] ++
            (if cpcam then [Field.binder metadata] else []), 0⟩ := by
      cases cpcam <;> rfl
    simp only [BpSurfaceTexture.queueBuffer, Bp.transact, hdata, hch]
    simp [Parcel.readInplace, Parcel.peek]

/-- C4, amended, with the extended set on, at `dequeueBuffer(256, 256, 1, 2)`, at
`queueBuffer` of slot 2 with a record that carries fence 7 and binder 5, at
`cancelBuffer` of slot 2 with fence 7, and at `queueBuffer` of slot 6 with a record
whose fence is present but not valid. -/
theorem C4_proxy_arguments_reach_implementation_witness :
    (BpSurfaceTexture.dequeueBuffer 1 true env32
        (channel 1 true env32 sampleBBinder sampleImpl sampleInputNoFence) ⟨⟨0, []⟩, []⟩
        0 none 256 256 1 2).self.remote.calls = [] ++ [Call.dequeueBuffer 256 256 1 2] ∧
    (BpSurfaceTexture.queueBuffer 1 true env32
        (channel 1 true env32 sampleBBinder sampleImpl sampleInputNoFence) ⟨⟨0, []⟩, []⟩
        2 sampleInput ⟨0, 0, 0, 0⟩ (some 5)).self.remote.calls =
      [] ++ [Call.queueBuffer 2 sampleInput (if true = true then some 5 else none)] ∧
    (BpSurfaceTexture.cancelBuffer 1 true env32
        (channel 1 true env32 sampleBBinder sampleImpl sampleInputNoFence) ⟨⟨0, []⟩, []⟩
        2 (some 7)).self.remote.calls = [] ++ [Call.cancelBuffer 2 (some 7)] ∧
    (BpSurfaceTexture.queueBuffer 1 true env32
        (channel 1 true env32 sampleBBinder sampleImpl sampleInputNoFence) ⟨⟨0, []⟩, []⟩
        6 sampleInputInvalidFence ⟨0, 0, 0, 0⟩ (some 5)).self.remote.calls =
      [] ++ [Call.queueBuffer 6
        ⟨sampleInputInvalidFence.timestamp, sampleInputInvalidFence.crop,
          sampleInputInvalidFence.scalingMode, sampleInputInvalidFence.transform, none⟩
        (if true = true then some 5 else none)] :=
  ⟨(C4_proxy_arguments_reach_implementation 1 true env32 sampleBBinder sampleImpl
      sampleInputNoFence ⟨0, []⟩ []).2.2.1 0 none 256 256 1 2
      (by decide) (by decide) (by decide) (by decide),
    (C4_proxy_arguments_reach_implementation 1 true env32 sampleBBinder sampleImpl
      sampleInputNoFence ⟨0, []⟩ []).2.2.2.1 2 sampleInput ⟨0, 0, 0, 0⟩ (some 5)
      (by simp [QueueBufferInput.WellTyped, sampleInput])
      (by
        intro f hf
        have e : f = 7 := by simpa [sampleInput] using hf.symm
        subst e
        simp [env32, FenceParcelRoundTrip, fdFence, NO_ERROR]),
    (C4_proxy_arguments_reach_implementation 1 true env32 sampleBBinder sampleImpl
      sampleInputNoFence ⟨0, []⟩ []).2.2.2.2.2.1 2 7 rfl
      (by simp [env32, FenceParcelRoundTrip, fdFence, NO_ERROR]),
    (C4_proxy_arguments_reach_implementation 1 true env32 sampleBBinder sampleImpl
      sampleInputNoFence ⟨0, []⟩ []).2.2.2.2.2.2.2.2.2.2 6 sampleInputInvalidFence
      ⟨0, 0, 0, 0⟩ (some 5) (-1)
      (by simp [QueueBufferInput.WellTyped, sampleInputInvalidFence]) rfl (by decide)⟩

/-- C5: on one channel, where the transport call succeeds and brings back the reply
that the dispatcher wrote, every base method of the proxy that returns a status
returns exactly the status that the implementation returned, together with the
result values of the implementation: the value of `query`, the slot of
`dequeueBuffer`, the output record of `queueBuffer` and of `connect`. -/
theorem C5_proxy_returns_implementation_result {σ F G : Type} (first : Nat) (cpcam : Bool)
    (env : Env F G) (bbinder : Nat → Parcel → Parcel → Nat → status_t × Parcel × Parcel)
    (impl : Impl σ F G) (init : QueueBufferInput F) (bn : Bn σ F G)
    (sent : List (Nat × Parcel)) :
    (∀ (bufferIdx : Int) (buf : Option G),
      (BpSurfaceTexture.requestBuffer first cpcam env
        (channel first cpcam env bbinder impl init) ⟨bn, sent⟩ bufferIdx buf).value.1 =
        (impl.requestBuffer bufferIdx bn.state).1.1) ∧
    (∀ bufferCount : Int,
      (BpSurfaceTexture.setBufferCount first cpcam
        (channel first cpcam env bbinder impl init) ⟨bn, sent⟩ bufferCount).value =
        (impl.setBufferCount bufferCount bn.state).1) ∧
    (∀ (buf : Int) (fence : Option F) (w h format usage : Nat),
      ∃ w1 h1 format1 usage1 : Nat,
        (BpSurfaceTexture.dequeueBuffer first cpcam env
          (channel first cpcam env bbinder impl init) ⟨bn, sent⟩ buf fence w h format
            usage).self.remote.calls =
          bn.calls ++ [Call.dequeueBuffer w1 h1 format1 usage1] ∧
        (BpSurfaceTexture.dequeueBuffer first cpcam env
          (channel first cpcam env bbinder impl init) ⟨bn, sent⟩ buf fence w h format
            usage).value.1 = (impl.dequeueBuffer w1 h1 format1 usage1 bn.state).1.1 ∧
        (BpSurfaceTexture.dequeueBuffer first cpcam env
          (channel first cpcam env bbinder impl init) ⟨bn, sent⟩ buf fence w h format
            usage).value.2.1 = (impl.dequeueBuffer w1 h1 format1 usage1 bn.state).1.2.1) ∧
    (∀ (buf : Int) (input : QueueBufferInput F) (output : QueueBufferOutput)
        (metadata : Option Nat),
      ∃ (input1 : QueueBufferInput F) (metadata1 : Option Nat),
        (BpSurfaceTexture.queueBuffer first cpcam env
          (channel first cpcam env bbinder impl init) ⟨bn, sent⟩ buf input output
            metadata).self.remote.calls =
          bn.calls ++ [Call.queueBuffer buf input1 metadata1] ∧
        (BpSurfaceTexture.queueBuffer first cpcam env
          (channel first cpcam env bbinder impl init) ⟨bn, sent⟩ buf input output
            metadata).value = some (impl.queueBuffer buf input1 metadata1 bn.state).1) ∧
    (∀ (what value : Int),
      (BpSurfaceTexture.query first cpcam
        (channel first cpcam env bbinder impl init) ⟨bn, sent⟩ what value).value =
        (impl.query what bn.state).1) ∧
    (∀ enabled : Bool,
      (BpSurfaceTexture.setSynchronousMode first cpcam
        (channel first cpcam env bbinder impl init) ⟨bn, sent⟩ enabled).value =
        (impl.setSynchronousMode enabled bn.state).1) ∧
    (∀ (api : Int) (output : QueueBufferOutput),
      (BpSurfaceTexture.connect first cpcam
        (channel first cpcam env bbinder impl init) ⟨bn, sent⟩ api output).value =
        some (impl.connect api bn.state).1) ∧
    (∀ api : Int,
      (BpSurfaceTexture.disconnect first cpcam
        (channel first cpcam env bbinder impl init) ⟨bn, sent⟩ api).value =
        (impl.disconnect api bn.state).1) := by
  refine ⟨?_, ?_, ?_, ?_, ?_, ?_, ?_, ?_⟩
  · intro bufferIdx buf
    simp only [BpSurfaceTexture.requestBuffer, Bp.transact, Parcel.empty,
      Parcel.writeInterfaceToken, Parcel.writeInt32, List.nil_append, List.cons_append,
      channel_requestBuffer]
    rcases hr : impl.requestBuffer bufferIdx bn.state with ⟨⟨result, buffer⟩, st⟩
    cases buffer <;>
      simp [Parcel.readInt32, Parcel.read, Parcel.peek, Parcel.advance, int32ToBool,
        boolToInt32, Field.flatten]
  · intro bufferCount
    simp only [BpSurfaceTexture.setBufferCount, Bp.transact, Parcel.empty,
      Parcel.writeInterfaceToken, Parcel.writeInt32, List.nil_append, List.cons_append,
      channel_setBufferCount]
    simp [Parcel.readInt32, Parcel.peek]
  · intro buf fence w h format usage
    refine ⟨toUnsigned 32 (toSigned 32 w), toUnsigned 32 (toSigned 32 h),
      toUnsigned 32 (toSigned 32 format), toUnsigned 32 (toSigned 32 usage), ?_⟩
    simp only [BpSurfaceTexture.dequeueBuffer, Bp.transact, Parcel.empty,
      Parcel.writeInterfaceToken, Parcel.writeInt32, List.nil_append, List.cons_append,
      channel_dequeueBuffer]
    rcases hr : impl.dequeueBuffer (toUnsigned 32 (toSigned 32 w))
      (toUnsigned 32 (toSigned 32 h)) (toUnsigned 32 (toSigned 32 format))
      (toUnsigned 32 (toSigned 32 usage)) bn.state with ⟨⟨result, slot, fence1⟩, st⟩
    cases fence1 with
    | none =>
      simp [Parcel.readInt32, Parcel.read, Parcel.peek, Parcel.advance, int32ToBool,
        boolToInt32, isValid]
    | some f =>
      cases hv : env.fenceIsValid f <;>
        simp [Parcel.readInt32, Parcel.read, Parcel.peek, Parcel.advance, int32ToBool,
          boolToInt32, isValid, hv, Field.flatten]
  · intro buf input output metadata
    refine ⟨(QueueBufferInput.ofParcel env init
      ⟨[Field.flatten (QueueBufferInput.flattenable env) input], 0⟩).1,
      if cpcam then metadata else none, ?_⟩
    have hch := channel_queueBuffer first cpcam env bbinder impl init bn buf
      (Field.flatten (QueueBufferInput.flattenable env) input) metadata
    have hdata : (if cpcam then
        ((Parcel.write (QueueBufferInput.flattenable env)
          ((Parcel.empty.writeInterfaceToken getInterfaceDescriptor).writeInt32 buf)
          input).2).writeStrongBinder metadata
        else (Parcel.write (QueueBufferInput.flattenable env)
          ((Parcel.empty.writeInterfaceToken getInterfaceDescriptor).writeInt32 buf)
          input).2) =
        ⟨[Field.token getInterfaceDescriptor, Field.int32 buf,
          Field.flatten (QueueBufferInput.flattenable env) input] ++
            (if cpcam then [Field.binder metadata] else []), 0⟩ := by
      cases cpcam <;> rfl
    simp only [BpSurfaceTexture.queueBuffer, Bp.transact, hdata, hch]
    simp [Parcel.readInplace, Parcel.readInt32, Parcel.peek, Parcel.advance]
  · intro what value
    simp only [BpSurfaceTexture.query, Bp.transact, Parcel.empty,
      Parcel.writeInterfaceToken, Parcel.writeInt32, List.nil_append, List.cons_append,
      channel_query]
    simp [Parcel.readInt32, Parcel.peek, Parcel.advance]
  · intro enabled
    simp only [BpSurfaceTexture.setSynchronousMode, Bp.transact, Parcel.empty,
      Parcel.writeInterfaceToken, Parcel.writeInt32, List.nil_append, List.cons_append,
      channel_setSynchronousMode, int32ToBool_boolToInt32]
    simp [Parcel.readInt32, Parcel.peek]
  · intro api output
    simp only [BpSurfaceTexture.connect, Bp.transact, Parcel.empty,
      Parcel.writeInterfaceToken, Parcel.writeInt32, List.nil_append, List.cons_append,
      channel_connect]
    simp [Parcel.readInplace, Parcel.readInt32, Parcel.peek, Parcel.advance]
  · intro api
    simp only [BpSurfaceTexture.disconnect, Bp.transact, Parcel.empty,
      Parcel.writeInterfaceToken, Parcel.writeInt32, List.nil_append, List.cons_append,
      channel_disconnect]
    simp [Parcel.readInt32, Parcel.peek]

/-- C6: each of `requestBuffer`, `setBufferCount`, `dequeueBuffer`, `queueBuffer`,
`query`, `setSynchronousMode`, `connect` and `disconnect` issues exactly one transport
call, and when that call returns a status other than `NO_ERROR` the method returns
exactly that status, its output parameters hold what they held before, and the reply
is as the transport left it, read cursor included, so nothing was read from it. -/
theorem C6_transport_failure_returned {τ F G : Type} (first : Nat) (cpcam : Bool)
    (env : Env F G) (remote : Remote τ) (self : Bp τ) :
    (∀ (bufferIdx : Int) (buf : Option G),
      ∃ (code : Nat) (data : Parcel),
        (BpSurfaceTexture.requestBuffer first cpcam env remote self bufferIdx buf).self.sent =
          self.sent ++ [(code, data)] ∧
        ((remote code data self.remote).1.1 ≠ NO_ERROR →
          (BpSurfaceTexture.requestBuffer first cpcam env remote self bufferIdx buf).value =
            ((remote code data self.remote).1.1, buf) ∧
          (BpSurfaceTexture.requestBuffer first cpcam env remote self bufferIdx buf).reply =
            (remote code data self.remote).1.2)) ∧
    (∀ bufferCount : Int,
      ∃ (code : Nat) (data : Parcel),
        (BpSurfaceTexture.setBufferCount first cpcam remote self bufferCount).self.sent =
          self.sent ++ [(code, data)] ∧
        ((remote code data self.remote).1.1 ≠ NO_ERROR →
          (BpSurfaceTexture.setBufferCount first cpcam remote self bufferCount).value =
            (remote code data self.remote).1.1 ∧
          (BpSurfaceTexture.setBufferCount first cpcam remote self bufferCount).reply =
            (remote code data self.remote).1.2)) ∧
    (∀ (buf : Int) (fence : Option F) (w h format usage : Nat),
      ∃ (code : Nat) (data : Parcel),
        (BpSurfaceTexture.dequeueBuffer first cpcam env remote self buf fence w h format usage).self.sent =
          self.sent ++ [(code, data)] ∧
        ((remote code data self.remote).1.1 ≠ NO_ERROR →
          (BpSurfaceTexture.dequeueBuffer first cpcam env remote self buf fence w h format usage).value =
            ((remote code data self.remote).1.1, buf, fence) ∧
          (BpSurfaceTexture.dequeueBuffer first cpcam env remote self buf fence w h format usage).reply =
            (remote code data self.remote).1.2)) ∧
    (∀ (buf : Int) (input : QueueBufferInput F) (output : QueueBufferOutput)
        (metadata : Option Nat),
      ∃ (code : Nat) (data : Parcel),
        (BpSurfaceTexture.queueBuffer first cpcam env remote self buf input output metadata).self.sent =
          self.sent ++ [(code, data)] ∧
        ((remote code data self.remote).1.1 ≠ NO_ERROR →
          (BpSurfaceTexture.queueBuffer first cpcam env remote self buf input output metadata).value =
            some ((remote code data self.remote).1.1, output) ∧
          (BpSurfaceTexture.queueBuffer first cpcam env remote self buf input output metadata).reply =
            (remote code data self.remote).1.2)) ∧
    (∀ (what value : Int),
      ∃ (code : Nat) (data : Parcel),
        (BpSurfaceTexture.query first cpcam remote self what value).self.sent =
          self.sent ++ [(code, data)] ∧
        ((remote code data self.remote).1.1 ≠ NO_ERROR →
          (BpSurfaceTexture.query first cpcam remote self what value).value =
            ((remote code data self.remote).1.1, value) ∧
          (BpSurfaceTexture.query first cpcam remote self what value).reply =
            (remote code data self.remote).1.2)) ∧
    (∀ enabled : Bool,
      ∃ (code : Nat) (data : Parcel),
        (BpSurfaceTexture.setSynchronousMode first cpcam remote self enabled).self.sent =
          self.sent ++ [(code, data)] ∧
        ((remote code data self.remote).1.1 ≠ NO_ERROR →
          (BpSurfaceTexture.setSynchronousMode first cpcam remote self enabled).value =
            (remote code data self.remote).1.1 ∧
          (BpSurfaceTexture.setSynchronousMode first cpcam remote self enabled).reply =
            (remote code data self.remote).1.2)) ∧
    (∀ (api : Int) (output : QueueBufferOutput),
      ∃ (code : Nat) (data : Parcel),
        (BpSurfaceTexture.connect first cpcam remote self api output).self.sent =
          self.sent ++ [(code, data)] ∧
        ((remote code data self.remote).1.1 ≠ NO_ERROR →
          (BpSurfaceTexture.connect first cpcam remote self api output).value =
            some ((remote code data self.remote).1.1, output) ∧
          (BpSurfaceTexture.connect first cpcam remote self api output).reply =
            (remote code data self.remote).1.2)) ∧
    (∀ api : Int,
      ∃ (code : Nat) (data : Parcel),
        (BpSurfaceTexture.disconnect first cpcam remote self api).self.sent =
          self.sent ++ [(code, data)] ∧
        ((remote code data self.remote).1.1 ≠ NO_ERROR →
          (BpSurfaceTexture.disconnect first cpcam remote self api).value =
            (remote code data self.remote).1.1 ∧
          (BpSurfaceTexture.disconnect first cpcam remote self api).reply =
            (remote code data self.remote).1.2)) := by
  refine ⟨?_, ?_, ?_, ?_, ?_, ?_, ?_, ?_⟩
  · intro bufferIdx buf
    refine ⟨Op.code first cpcam Op.REQUEST_BUFFER, ⟨[Field.token getInterfaceDescriptor, Field.int32 bufferIdx], 0⟩, ?_, ?_⟩
    · unfold BpSurfaceTexture.requestBuffer
      simp only []
      split <;> rfl
    · intro hfail
      simp only [BpSurfaceTexture.requestBuffer, Bp.transact, Parcel.empty,
        Parcel.writeInterfaceToken, Parcel.writeInt32, List.nil_append, List.cons_append,
        if_pos hfail]
      exact ⟨trivial, trivial⟩
  · intro bufferCount
    refine ⟨Op.code first cpcam Op.SET_BUFFER_COUNT, ⟨[Field.token getInterfaceDescriptor, Field.int32 bufferCount], 0⟩, ?_, ?_⟩
    · unfold BpSurfaceTexture.setBufferCount
      simp only []
      split <;> rfl
    · intro hfail
      simp only [BpSurfaceTexture.setBufferCount, Bp.transact, Parcel.empty,
        Parcel.writeInterfaceToken, Parcel.writeInt32, List.nil_append, List.cons_append,
        if_pos hfail]
      exact ⟨trivial, trivial⟩
  · intro buf fence w h format usage
    refine ⟨Op.code first cpcam Op.DEQUEUE_BUFFER, ⟨[Field.token getInterfaceDescriptor, Field.int32 (toSigned 32 w),
        Field.int32 (toSigned 32 h), Field.int32 (toSigned 32 format),
        Field.int32 (toSigned 32 usage)], 0⟩, ?_, ?_⟩
    · unfold BpSurfaceTexture.dequeueBuffer
      simp only []
      split <;> rfl
    · intro hfail
      simp only [BpSurfaceTexture.dequeueBuffer, Bp.transact, Parcel.empty,
        Parcel.writeInterfaceToken, Parcel.writeInt32, List.nil_append, List.cons_append,
        if_pos hfail]
      exact ⟨trivial, trivial⟩
  · intro buf input output metadata
    refine ⟨Op.code first cpcam Op.QUEUE_BUFFER, ⟨[Field.token getInterfaceDescriptor, Field.int32 buf,
        Field.flatten (QueueBufferInput.flattenable env) input] ++
        (if cpcam then [Field.binder metadata] else []), 0⟩, ?_, ?_⟩
    · unfold BpSurfaceTexture.queueBuffer
      cases cpcam <;> simp only [Bool.false_eq_true, if_true, if_false] <;> split <;>
        first | rfl | (split <;> rfl)
    · intro hfail
      have hdata : (if cpcam then
          ((Parcel.write (QueueBufferInput.flattenable env)
            ((Parcel.empty.writeInterfaceToken getInterfaceDescriptor).writeInt32 buf)
            input).2).writeStrongBinder metadata
          else (Parcel.write (QueueBufferInput.flattenable env)
            ((Parcel.empty.writeInterfaceToken getInterfaceDescriptor).writeInt32 buf)
            input).2) =
          ⟨[Field.token getInterfaceDescriptor, Field.int32 buf,
            Field.flatten (QueueBufferInput.flattenable env) input] ++
              (if cpcam then [Field.binder metadata] else []), 0⟩ := by
        cases cpcam <;> rfl
      simp only [BpSurfaceTexture.queueBuffer, Bp.transact, hdata, if_pos hfail]
      exact ⟨trivial, trivial⟩
  · intro what value
    refine ⟨Op.code first cpcam Op.QUERY, ⟨[Field.token getInterfaceDescriptor, Field.int32 what], 0⟩, ?_, ?_⟩
    · unfold BpSurfaceTexture.query
      simp only []
      split <;> rfl
    · intro hfail
      simp only [BpSurfaceTexture.query, Bp.transact, Parcel.empty,
        Parcel.writeInterfaceToken, Parcel.writeInt32, List.nil_append, List.cons_append,
        if_pos hfail]
      exact ⟨trivial, trivial⟩
  · intro enabled
    refine ⟨Op.code first cpcam Op.SET_SYNCHRONOUS_MODE, ⟨[Field.token getInterfaceDescriptor, Field.int32 (boolToInt32 enabled)], 0⟩, ?_, ?_⟩
    · unfold BpSurfaceTexture.setSynchronousMode
      simp only []
      split <;> rfl
    · intro hfail
      simp only [BpSurfaceTexture.setSynchronousMode, Bp.transact, Parcel.empty,
        Parcel.writeInterfaceToken, Parcel.writeInt32, List.nil_append, List.cons_append,
        if_pos hfail]
      exact ⟨trivial, trivial⟩
  · intro api output
    refine ⟨Op.code first cpcam Op.CONNECT, ⟨[Field.token getInterfaceDescriptor, Field.int32 api], 0⟩, ?_, ?_⟩
    · unfold BpSurfaceTexture.connect
      simp only []
      split <;> first | rfl | (split <;> rfl)
    · intro hfail
      simp only [BpSurfaceTexture.connect, Bp.transact, Parcel.empty,
        Parcel.writeInterfaceToken, Parcel.writeInt32, List.nil_append, List.cons_append,
        if_pos hfail]
      exact ⟨trivial, trivial⟩
  · intro api
    refine ⟨Op.code first cpcam Op.DISCONNECT, ⟨[Field.token getInterfaceDescriptor, Field.int32 api], 0⟩, ?_, ?_⟩
    · unfold BpSurfaceTexture.disconnect
      simp only []
      split <;> rfl
    · intro hfail
      simp only [BpSurfaceTexture.disconnect, Bp.transact, Parcel.empty,
        Parcel.writeInterfaceToken, Parcel.writeInt32, List.nil_append, List.cons_append,
        if_pos hfail]
      exact ⟨trivial, trivial⟩

/-- C6 on a broken channel: `query` returns the error of the transport and leaves the
value 5 and the reply alone, and `dequeueBuffer` leaves the slot 4 and the fence 7
alone. -/
theorem C6_transport_failure_returned_witness :
    ((BpSurfaceTexture.query 1 false brokenRemote ⟨(), []⟩ 3 5).value = (-32, 5) ∧
      (BpSurfaceTexture.query 1 false brokenRemote ⟨(), []⟩ 3 5).reply =
        ⟨[Field.int32 99, Field.int32 98], 0⟩) ∧
    ((BpSurfaceTexture.dequeueBuffer 1 false env32 brokenRemote ⟨(), []⟩ 4 (some 7)
        256 256 1 2).value = (-32, 4, some 7) ∧
      (BpSurfaceTexture.dequeueBuffer 1 false env32 brokenRemote ⟨(), []⟩ 4 (some 7)
        256 256 1 2).reply = ⟨[Field.int32 99, Field.int32 98], 0⟩) := by
  constructor
  · obtain ⟨code, data, _, h⟩ :=
      (C6_transport_failure_returned 1 false env32 brokenRemote ⟨(), []⟩).2.2.2.2.1 3 5
    exact h (by simp [brokenRemote, NO_ERROR])
  · obtain ⟨code, data, _, h⟩ :=
      (C6_transport_failure_returned 1 false env32 brokenRemote ⟨(), []⟩).2.2.1 4 (some 7)
        256 256 1 2
    exact h (by simp [brokenRemote, NO_ERROR])

/-! ## The replies of the dispatcher -/

/-- C11: on a message with the token of the interface, the reply of every base opcode
is what it was followed by the positional results, the status of the implementation
last; `CANCEL_BUFFER` writes nothing. `QUERY` appends exactly the value and then the
status, `QUEUE_BUFFER` and `CONNECT` the output record and then the status. -/
theorem C11_reply_layout {σ F G : Type} (first : Nat) (cpcam : Bool) (env : Env F G)
    (bbinder : Nat → Parcel → Parcel → Nat → status_t × Parcel × Parcel)
    (impl : Impl σ F G) (init : QueueBufferInput F) (self : Bn σ F G)
    (data reply : Parcel) (flags : Nat) (htoken : HasToken data) :
    (BnSurfaceTexture.onTransact first cpcam env bbinder impl init self
        (Op.code first cpcam Op.REQUEST_BUFFER) data reply flags).reply.fields =
      reply.fields ++ (Field.int32
          (boolToInt32 (impl.requestBuffer data.advance.readInt32.1 self.state).1.2.isSome) ::
        ((match (impl.requestBuffer data.advance.readInt32.1 self.state).1.2 with
          | some b => [Field.flatten env.graphicBuffer b]
          | none => []) ++
        [Field.int32 (impl.requestBuffer data.advance.readInt32.1 self.state).1.1])) ∧
    (BnSurfaceTexture.onTransact first cpcam env bbinder impl init self
        (Op.code first cpcam Op.SET_BUFFER_COUNT) data reply flags).reply.fields =
      reply.fields ++ [Field.int32 (impl.setBufferCount data.advance.readInt32.1 self.state).1] ∧
    (∀ r, r = impl.dequeueBuffer (toUnsigned 32 data.advance.readInt32.1)
        (toUnsigned 32 data.advance.advance.readInt32.1)
        (toUnsigned 32 data.advance.advance.advance.readInt32.1)
        (toUnsigned 32 data.advance.advance.advance.advance.readInt32.1) self.state →
      (BnSurfaceTexture.onTransact first cpcam env bbinder impl init self
        (Op.code first cpcam Op.DEQUEUE_BUFFER) data reply flags).reply.fields =
        reply.fields ++ (Field.int32 r.1.2.1 :: Field.int32 (boolToInt32 (isValid env r.1.2.2)) ::
          ((match isValid env r.1.2.2, r.1.2.2 with
            | true, some f => [Field.flatten env.fence f]
            | _, _ => []) ++ [Field.int32 r.1.1]))) ∧
    (∀ r, r = impl.queueBuffer data.advance.readInt32.1
        (QueueBufferInput.ofParcel env init data.advance.advance).1
        (if cpcam then data.advance.advance.advance.readStrongBinder.1 else none) self.state →
      (BnSurfaceTexture.onTransact first cpcam env bbinder impl init self
        (Op.code first cpcam Op.QUEUE_BUFFER) data reply flags).reply.fields =
        reply.fields ++ [Field.inplace r.1.2, Field.int32 r.1.1]) ∧
    (BnSurfaceTexture.onTransact first cpcam env bbinder impl init self
        (Op.code first cpcam Op.CANCEL_BUFFER) data reply flags).reply = reply ∧
    (BnSurfaceTexture.onTransact first cpcam env bbinder impl init self
        (Op.code first cpcam Op.QUERY) data reply flags).reply.fields =
      reply.fields ++ [Field.int32 (impl.query data.advance.readInt32.1 self.state).1.2,
        Field.int32 (impl.query data.advance.readInt32.1 self.state).1.1] ∧
    (BnSurfaceTexture.onTransact first cpcam env bbinder impl init self
        (Op.code first cpcam Op.SET_SYNCHRONOUS_MODE) data reply flags).reply.fields =
      reply.fields ++
        [Field.int32 (impl.setSynchronousMode (int32ToBool data.advance.readInt32.1)
          self.state).1] ∧
    (BnSurfaceTexture.onTransact first cpcam env bbinder impl init self
        (Op.code first cpcam Op.CONNECT) data reply flags).reply.fields =
      reply.fields ++ [Field.inplace (impl.connect data.advance.readInt32.1 self.state).1.2,
        Field.int32 (impl.connect data.advance.readInt32.1 self.state).1.1] ∧
    (BnSurfaceTexture.onTransact first cpcam env bbinder impl init self
        (Op.code first cpcam Op.DISCONNECT) data reply flags).reply.fields =
      reply.fields ++ [Field.int32 (impl.disconnect data.advance.readInt32.1 self.state).1] := by
  refine ⟨?_, ?_, ?_, ?_, ?_, ?_, ?_, ?_, ?_⟩
  · rw [onTransact_code first cpcam env bbinder impl init self _ data reply flags
      (base_mem cpcam _ (by decide))]
    simp only [BnSurfaceTexture.caseOf, BnSurfaceTexture.caseRequestBuffer,
      CHECK_INTERFACE_of_hasToken _ _ _ _ htoken]
    rcases hr : impl.requestBuffer data.advance.readInt32.1 self.state with ⟨⟨result, buffer⟩, st⟩
    cases buffer <;> simp [Parcel.writeInt32, Parcel.write]
  · rw [onTransact_code first cpcam env bbinder impl init self _ data reply flags
      (base_mem cpcam _ (by decide))]
    simp [BnSurfaceTexture.caseOf, BnSurfaceTexture.caseSetBufferCount,
      CHECK_INTERFACE_of_hasToken _ _ _ _ htoken, Parcel.writeInt32]
  · intro r hr
    rw [onTransact_code first cpcam env bbinder impl init self _ data reply flags
      (base_mem cpcam _ (by decide))]
    simp only [BnSurfaceTexture.caseOf, BnSurfaceTexture.caseDequeueBuffer,
      CHECK_INTERFACE_of_hasToken _ _ _ _ htoken]
    have e : ∀ p : Parcel, p.readInt32.2 = p.advance := fun _ => rfl
    simp only [e, ← hr]
    obtain ⟨⟨result, buf, fence⟩, st⟩ := r
    cases fence with
    | none => simp [Parcel.writeInt32, isValid]
    | some f =>
      cases hv : env.fenceIsValid f <;> simp [Parcel.writeInt32, Parcel.write, isValid, hv]
  · intro r hr
    rw [onTransact_code first cpcam env bbinder impl init self _ data reply flags
      (base_mem cpcam _ (by decide))]
    subst hr
    cases cpcam <;>
      simp [BnSurfaceTexture.caseOf, BnSurfaceTexture.caseQueueBuffer,
        CHECK_INTERFACE_of_hasToken _ _ _ _ htoken, Parcel.writeInt32, Parcel.writeInplace,
        Parcel.readInt32, QueueBufferInput.ofParcel, Parcel.read, Parcel.advance]
  · rw [onTransact_code first cpcam env bbinder impl init self _ data reply flags
      (base_mem cpcam _ (by decide))]
    simp [BnSurfaceTexture.caseOf, BnSurfaceTexture.caseCancelBuffer,
      CHECK_INTERFACE_of_hasToken _ _ _ _ htoken]
  · rw [onTransact_code first cpcam env bbinder impl init self _ data reply flags
      (base_mem cpcam _ (by decide))]
    simp [BnSurfaceTexture.caseOf, BnSurfaceTexture.caseQuery,
      CHECK_INTERFACE_of_hasToken _ _ _ _ htoken, Parcel.writeInt32]
  · rw [onTransact_code first cpcam env bbinder impl init self _ data reply flags
      (base_mem cpcam _ (by decide))]
    simp [BnSurfaceTexture.caseOf, BnSurfaceTexture.caseSetSynchronousMode,
      CHECK_INTERFACE_of_hasToken _ _ _ _ htoken, Parcel.writeInt32]
  · rw [onTransact_code first cpcam env bbinder impl init self _ data reply flags
      (base_mem cpcam _ (by decide))]
    simp [BnSurfaceTexture.caseOf, BnSurfaceTexture.caseConnect,
      CHECK_INTERFACE_of_hasToken _ _ _ _ htoken, Parcel.writeInt32, Parcel.writeInplace]
  · rw [onTransact_code first cpcam env bbinder impl init self _ data reply flags
      (base_mem cpcam _ (by decide))]
    simp [BnSurfaceTexture.caseOf, BnSurfaceTexture.caseDisconnect,
      CHECK_INTERFACE_of_hasToken _ _ _ _ htoken, Parcel.writeInt32]

/-- C11 at a message with argument 3, on a queue whose next status is -2: the replies of
`QUERY`, `CANCEL_BUFFER` and `CONNECT`. -/
theorem C11_reply_layout_witness :
    (BnSurfaceTexture.onTransact 1 false env32 sampleBBinder sampleImpl sampleInputNoFence
        ⟨2, []⟩ (Op.code 1 false Op.QUERY)
        ⟨[Field.token getInterfaceDescriptor, Field.int32 3], 0⟩ Parcel.empty 0).reply.fields =
      [Field.int32 43, Field.int32 (-2)] ∧
    (BnSurfaceTexture.onTransact 1 false env32 sampleBBinder sampleImpl sampleInputNoFence
        ⟨2, []⟩ (Op.code 1 false Op.CANCEL_BUFFER)
        ⟨[Field.token getInterfaceDescriptor, Field.int32 3], 0⟩ Parcel.empty 0).reply =
      Parcel.empty ∧
    (BnSurfaceTexture.onTransact 1 false env32 sampleBBinder sampleImpl sampleInputNoFence
        ⟨2, []⟩ (Op.code 1 false Op.CONNECT)
        ⟨[Field.token getInterfaceDescriptor, Field.int32 3], 0⟩ Parcel.empty 0).reply.fields =
      [Field.inplace ⟨3, 1, 0, 2⟩, Field.int32 (-2)] :=
  ⟨(C11_reply_layout 1 false env32 sampleBBinder sampleImpl sampleInputNoFence ⟨2, []⟩
      ⟨[Field.token getInterfaceDescriptor, Field.int32 3], 0⟩ Parcel.empty 0 rfl).2.2.2.2.2.1,
    (C11_reply_layout 1 false env32 sampleBBinder sampleImpl sampleInputNoFence ⟨2, []⟩
      ⟨[Field.token getInterfaceDescriptor, Field.int32 3], 0⟩ Parcel.empty 0 rfl).2.2.2.2.1,
    (C11_reply_layout 1 false env32 sampleBBinder sampleImpl sampleInputNoFence ⟨2, []⟩
      ⟨[Field.token getInterfaceDescriptor, Field.int32 3], 0⟩ Parcel.empty 0
      rfl).2.2.2.2.2.2.2.1⟩

/-! ## What `unflatten` checks -/

/-- C12, refuted as stated: on a platform with a 32-bit `size_t`, `unflatten` of 33 zero
bytes, whose presence flag is 0, with the declared size 0, which is smaller than the
33-byte fixed header, returns `NO_ERROR`. -/
theorem C12_short_buffer_accepted :
    0 < sizeof_timestamp + sizeof_crop + sizeof_scalingMode + sizeof_transform + sizeof_bool ∧
    readNat (List.replicate 33 0) 32 sizeof_bool = 0 ∧
    (QueueBufferInput.unflatten env32 sampleInputNoFence (List.replicate 33 0) 0 [] 0).1 =
      NO_ERROR := by
  decide

/-- C12, amended: `unflatten` makes no check of `size` of its own. When the presence
flag it decodes is 0 it returns `NO_ERROR` for every `size`; when the flag is 1 and
`size` is at least 33 it returns exactly the status of the fence's own `unflatten`,
which is handed the rest of the buffer and the remaining `size - 33`. -/
theorem C12_unflatten_leaves_size_to_fence {F G : Type} (env : Env F G)
    (target : QueueBufferInput F) (buffer : List Nat) (size : Nat) (fds : List Int)
    (count : Nat) :
    (readNat buffer 32 sizeof_bool = 0 →
      (QueueBufferInput.unflatten env target buffer size fds count).1 = NO_ERROR) ∧
    (readNat buffer 32 sizeof_bool ≠ 0 → 33 ≤ size → size < 2 ^ env.sizeBits →
      (QueueBufferInput.unflatten env target buffer size fds count).1 =
        (env.fence.unflatten env.fenceNew (buffer.drop 33) (size - 33) fds count).1) := by
  constructor
  · intro hflag
    simp only [sizeof_bool] at hflag
    simp [QueueBufferInput.unflatten, sizeof_timestamp, sizeof_crop, sizeof_scalingMode,
      sizeof_transform, sizeof_bool, hflag]
  · intro hflag hsize hfit
    simp only [sizeof_bool] at hflag
    have hsub : sizeSub env.sizeBits size 33 = size - 33 := by
      have e := sizeSub_add_left env.sizeBits 33 (size - 33) (by omega)
      rwa [show 33 + (size - 33) = size by omega] at e
    simp [QueueBufferInput.unflatten, sizeof_timestamp, sizeof_crop, sizeof_scalingMode,
      sizeof_transform, sizeof_bool, hflag, hsub]

/-- C12, amended, at a declared size of 0 with the flag clear, and at a declared size
of 40 with the flag set, where the fence refuses the 7 bytes left. -/
theorem C12_unflatten_leaves_size_to_fence_witness :
    (QueueBufferInput.unflatten env32 sampleInputNoFence (List.replicate 33 0) 0 [] 0).1 =
      NO_ERROR ∧
    (QueueBufferInput.unflatten env32 sampleInputNoFence (List.replicate 32 0 ++ [1]) 40 [] 0).1 =
      (env32.fence.unflatten env32.fenceNew ((List.replicate 32 0 ++ [1]).drop 33) (40 - 33)
        [] 0).1 :=
  ⟨(C12_unflatten_leaves_size_to_fence env32 sampleInputNoFence (List.replicate 33 0) 0 [] 0).1
      (by decide),
    (C12_unflatten_leaves_size_to_fence env32 sampleInputNoFence (List.replicate 32 0 ++ [1])
      40 [] 0).2 (by decide) (by decide) (by decide)⟩

/-! ## A fence that is present but not valid -/

/-- C13, refuted as stated: with the fence `-1`, which is present but not valid,
`cancelBuffer` of slot 2 and `queueBuffer` of slot 2 both reach the implementation, as
a call on that slot with no fence. -/
theorem C13_invalid_fence_forwarded :
    env32.fenceIsValid (-1) = false ∧
    (BpSurfaceTexture.cancelBuffer 1 false env32
        (channel 1 false env32 sampleBBinder sampleImpl sampleInputNoFence) ⟨⟨0, []⟩, []⟩
        2 (some (-1))).self.remote.calls = [Call.cancelBuffer 2 none] ∧
    (BpSurfaceTexture.queueBuffer 1 false env32
        (channel 1 false env32 sampleBBinder sampleImpl sampleInputNoFence) ⟨⟨0, []⟩, []⟩
        2 sampleInputInvalidFence ⟨0, 0, 0, 0⟩ none).self.remote.calls =
      [Call.queueBuffer 2 ⟨1000, ⟨0, 0, 256, 256⟩, 0, 0, none⟩ none] := by
  decide

/-- C13, amended: a fence that is present but not valid does not make the call fail.
For every slot and every such fence, `cancelBuffer` reaches the implementation once,
as `cancelBuffer` of that slot with a null fence, and `queueBuffer` of a well-typed
record that carries it reaches the implementation once, as `queueBuffer` of that slot
with the same record but a null fence. -/
theorem C13_invalid_fence_sent_as_none {σ F G : Type} (first : Nat) (cpcam : Bool)
    (env : Env F G) (bbinder : Nat → Parcel → Parcel → Nat → status_t × Parcel × Parcel)
    (impl : Impl σ F G) (init : QueueBufferInput F) (bn : Bn σ F G)
    (sent : List (Nat × Parcel)) (buf : Int) (f : F) (hv : env.fenceIsValid f = false) :
    (BpSurfaceTexture.cancelBuffer first cpcam env
      (channel first cpcam env bbinder impl init) ⟨bn, sent⟩ buf (some f)).self.remote.calls =
      bn.calls ++ [Call.cancelBuffer buf none] ∧
    (∀ (input : QueueBufferInput F) (output : QueueBufferOutput) (metadata : Option Nat),
      input.WellTyped → input.fence = some f →
      (BpSurfaceTexture.queueBuffer first cpcam env
        (channel first cpcam env bbinder impl init) ⟨bn, sent⟩ buf input output
          metadata).self.remote.calls =
        bn.calls ++ [Call.queueBuffer buf
          ⟨input.timestamp, input.crop, input.scalingMode, input.transform, none⟩
          (if cpcam then metadata else none)]) := by
  constructor
  · have hch := channel_cancelBuffer first cpcam env bbinder impl init bn buf
    simp only [BpSurfaceTexture.cancelBuffer, Bp.transact, Parcel.empty,
      Parcel.writeInterfaceToken, Parcel.writeInt32, List.nil_append, List.cons_append,
      isValid, hv, boolToInt32, Bool.false_eq_true, if_false]
    rw [(hch 0 [] none (by simp [int32ToBool])).2]
  · intro input output metadata hinput hf
    have hin := ofParcel_flatten_invalid env init input f hinput hf hv
    have hch := channel_queueBuffer first cpcam env bbinder impl init bn buf
      (Field.flatten (QueueBufferInput.flattenable env) input) metadata
    rw [hin] at hch
    have hdata : (if cpcam then
        ((Parcel.write (QueueBufferInput.flattenable env)
          ((Parcel.empty.writeInterfaceToken getInterfaceDescriptor).writeInt32 buf)
          input).2).writeStrongBinder metadata
        else (Parcel.write (QueueBufferInput.flattenable env)
          ((Parcel.empty.writeInterfaceToken getInterfaceDescriptor).writeInt32 buf)
          input).2) =
        ⟨[Field.token getInterfaceDescriptor, Field.int32 buf,
          Field.flatten (QueueBufferInput.flattenable env) input] ++
            (if cpcam then [Field.binder metadata] else []), 0⟩ := by
      cases cpcam <;> rfl
    simp only [BpSurfaceTexture.queueBuffer, Bp.transact, hdata, hch]
    simp [Parcel.readInplace, Parcel.peek]

/-- C13, amended, with the extended set on: slot 5 cancelled and queued with the fence
`-1`. -/
theorem C13_invalid_fence_sent_as_none_witness :
    (BpSurfaceTexture.cancelBuffer 1 true env32
        (channel 1 true env32 sampleBBinder sampleImpl sampleInputNoFence) ⟨⟨0, []⟩, []⟩
        5 (some (-1))).self.remote.calls = [] ++ [Call.cancelBuffer 5 none] ∧
    (BpSurfaceTexture.queueBuffer 1 true env32
        (channel 1 true env32 sampleBBinder sampleImpl sampleInputNoFence) ⟨⟨0, []⟩, []⟩
        5 sampleInputInvalidFence ⟨0, 0, 0, 0⟩ (some 4)).self.remote.calls =
      [] ++ [Call.queueBuffer 5
        ⟨sampleInputInvalidFence.timestamp, sampleInputInvalidFence.crop,
          sampleInputInvalidFence.scalingMode, sampleInputInvalidFence.transform, none⟩
        (if true = true then some 4 else none)] :=
  ⟨(C13_invalid_fence_sent_as_none 1 true env32 sampleBBinder sampleImpl sampleInputNoFence
      ⟨0, []⟩ [] 5 (-1) (by decide)).1,
    (C13_invalid_fence_sent_as_none 1 true env32 sampleBBinder sampleImpl sampleInputNoFence
      ⟨0, []⟩ [] 5 (-1) (by decide)).2 sampleInputInvalidFence ⟨0, 0, 0, 0⟩ (some 4)
      (by simp [QueueBufferInput.WellTyped, sampleInputInvalidFence]) rfl⟩

/-! ## The buffer handle that `requestBuffer` returns -/

/-- When the implementation reports no buffer for the slot, the proxy returns the
status of the implementation and leaves `*buf` as the caller passed it. -/
theorem requestBuffer_null_keeps_buf {σ F G : Type} (first : Nat) (cpcam : Bool)
    (env : Env F G) (bbinder : Nat → Parcel → Parcel → Nat → status_t × Parcel × Parcel)
    (impl : Impl σ F G) (init : QueueBufferInput F) (bn : Bn σ F G)
    (sent : List (Nat × Parcel)) (bufferIdx : Int) (buf : Option G)
    (hnull : (impl.requestBuffer bufferIdx bn.state).1.2 = none) :
    (BpSurfaceTexture.requestBuffer first cpcam env
      (channel first cpcam env bbinder impl init) ⟨bn, sent⟩ bufferIdx buf).value =
      ((impl.requestBuffer bufferIdx bn.state).1.1, buf) := by
  simp only [BpSurfaceTexture.requestBuffer, Bp.transact, Parcel.empty,
    Parcel.writeInterfaceToken, Parcel.writeInt32, List.nil_append, List.cons_append,
    channel_requestBuffer, hnull]
  simp [Parcel.readInt32, Parcel.peek, Parcel.advance, int32ToBool, boolToInt32]

/-- C14, the code at the failing input: slot 1 has no bound buffer, the transport call
succeeds, and the proxy, called with a `*buf` that holds the buffer `[9]`, returns
status 0 with `*buf` still holding `[9]` instead of an absent handle. -/
theorem C14_requestBuffer_keeps_stale_buffer :
    (sampleImpl.requestBuffer 1 0).1.2 = none ∧
    (BpSurfaceTexture.requestBuffer 1 false env32
        (channel 1 false env32 sampleBBinder sampleImpl sampleInputNoFence) ⟨⟨0, []⟩, []⟩
        1 (some [9])).value = (0, some [9]) ∧
    (BpSurfaceTexture.requestBuffer 1 false env32
        (channel 1 false env32 sampleBBinder sampleImpl sampleInputNoFence) ⟨⟨0, []⟩, []⟩
        1 (some [9])).value.2 ≠ none := by
  decide

/-! ## The layout that `flatten` writes -/

theorem drop_add_of_drop (l xs ys : List Nat) (m n : Nat) (hl : l.drop m = xs ++ ys)
    (hx : xs.length = n) : l.drop (m + n) = ys := by
  have e : l.drop (m + n) = (l.drop m).drop n := by
    simp [List.drop_drop, Nat.add_comm]
  rw [e, hl, List.drop_left' hx]

theorem take_of_drop (l xs ys : List Nat) (m n : Nat) (hl : l.drop m = xs ++ ys)
    (hx : xs.length = n) : (l.drop m).take n = xs := by
  rw [hl, List.take_left' hx]

/-- What `flatten` writes: the header, then the bytes of the fence when the flag is set. -/
theorem flatten_bytes {F G : Type} (env : Env F G) (r : QueueBufferInput F) (size count : Nat) :
    (QueueBufferInput.flatten env r size count).bytes =
      QueueBufferInput.header r (isValid env r.fence) ++
        (match isValid env r.fence, r.fence with
          | true, some f => (env.fence.flatten f (sizeSub env.sizeBits size 33) count).bytes
          | _, _ => []) := by
  obtain ⟨ts, crop, sm, tr, fence⟩ := r
  cases fence with
  | none => simp [QueueBufferInput.flatten, isValid]
  | some f =>
    cases hv : env.fenceIsValid f <;> simp [QueueBufferInput.flatten, isValid, hv, header_length]

/-- C15: `flatten` writes, in this order and without padding, the timestamp in the 8
bytes at offset 0, the crop rectangle in the 16 bytes at offset 8, the scaling mode in
the 4 bytes at offset 24, the transform in the 4 bytes at offset 28, and at offset 32
one byte that is 1 exactly when the fence is non-null and valid. What follows from
offset 33 is what the fence's own `flatten` writes when that byte is 1, and nothing
otherwise; the 32 bytes before the flag do not depend on the fence. -/
theorem C15_flatten_layout {F G : Type} (env : Env F G) (r : QueueBufferInput F)
    (size count : Nat) :
    ((QueueBufferInput.flatten env r size count).bytes.take 8 = intBytes 8 r.timestamp ∧ (intBytes 8 r.timestamp).length = 8) ∧
    (((QueueBufferInput.flatten env r size count).bytes.drop 8).take 16 = Rect.bytes r.crop ∧ (Rect.bytes r.crop).length = 16) ∧
    (((QueueBufferInput.flatten env r size count).bytes.drop 24).take 4 = intBytes 4 r.scalingMode ∧
      (intBytes 4 r.scalingMode).length = 4) ∧
    (((QueueBufferInput.flatten env r size count).bytes.drop 28).take 4 = leBytes 4 r.transform ∧ (leBytes 4 r.transform).length = 4) ∧
    ((QueueBufferInput.flatten env r size count).bytes.drop 32).take 1 = [if isValid env r.fence = true then 1 else 0] ∧
    (QueueBufferInput.flatten env r size count).bytes.drop 33 =
      (match isValid env r.fence, r.fence with
        | true, some f => (env.fence.flatten f (sizeSub env.sizeBits size 33) count).bytes
        | _, _ => []) ∧
    (∀ (fence2 : Option F) (size2 count2 : Nat),
      (QueueBufferInput.flatten env
        ⟨r.timestamp, r.crop, r.scalingMode, r.transform, fence2⟩ size2 count2).bytes.take 32 =
        (QueueBufferInput.flatten env r size count).bytes.take 32) := by
  have h0 : ∀ (q : QueueBufferInput F) (s c : Nat),
      (QueueBufferInput.flatten env q s c).bytes.drop 0 =
        intBytes 8 q.timestamp ++ (Rect.bytes q.crop ++ (intBytes 4 q.scalingMode ++
          (leBytes 4 q.transform ++ ([if isValid env q.fence = true then 1 else 0] ++
            (match isValid env q.fence, q.fence with
              | true, some f => (env.fence.flatten f (sizeSub env.sizeBits s 33) c).bytes
              | _, _ => []))))) := by
    intro q s c
    rw [flatten_bytes]
    simp [QueueBufferInput.header, sizeof_timestamp, sizeof_scalingMode, sizeof_transform]
  have h8 := drop_add_of_drop _ _ _ 0 8 (h0 r size count) (intBytes_length _ _)
  have h24 := drop_add_of_drop _ _ _ 8 16 h8 (Rect_bytes_length _)
  have h28 := drop_add_of_drop _ _ _ 24 4 h24 (intBytes_length _ _)
  have h32 := drop_add_of_drop _ _ _ 28 4 h28 (leBytes_length _ _)
  have h33 := drop_add_of_drop _ _ _ 32 1 h32 rfl
  have t32 : ∀ (q : QueueBufferInput F) (s c : Nat),
      (QueueBufferInput.flatten env q s c).bytes.take 32 =
        intBytes 8 q.timestamp ++ (Rect.bytes q.crop ++ (intBytes 4 q.scalingMode ++
          leBytes 4 q.transform)) := by
    intro q s c
    have e := h0 q s c
    rw [List.drop_zero] at e
    rw [e]
    have a : ∀ u v : List Nat,
        intBytes 8 q.timestamp ++ (Rect.bytes q.crop ++ (intBytes 4 q.scalingMode ++
          (leBytes 4 q.transform ++ (u ++ v)))) =
        (intBytes 8 q.timestamp ++ (Rect.bytes q.crop ++ (intBytes 4 q.scalingMode ++
          leBytes 4 q.transform))) ++ (u ++ v) := by
      intro u v
      simp only [List.append_assoc]
    rw [a]
    apply List.take_left'
    simp [intBytes_length, leBytes_length, Rect_bytes_length]
  refine ⟨⟨?_, intBytes_length _ _⟩, ⟨take_of_drop _ _ _ 8 16 h8 (Rect_bytes_length _),
    Rect_bytes_length _⟩, ⟨take_of_drop _ _ _ 24 4 h24 (intBytes_length _ _),
    intBytes_length _ _⟩, ⟨take_of_drop _ _ _ 28 4 h28 (leBytes_length _ _),
    leBytes_length _ _⟩, take_of_drop _ _ _ 32 1 h32 rfl, h33, ?_⟩
  · have e := take_of_drop _ _ _ 0 8 (h0 r size count) (intBytes_length _ _)
    rwa [List.drop_zero] at e
  · intro fence2 size2 count2
    rw [t32, t32]

/-! ## The fence that `dequeueBuffer` returns -/

/-- C16: on one channel, the fence that `dequeueBuffer` of the proxy returns is present
exactly when the implementation produced a fence that is non-null and valid, whatever
the caller's fence variable held before; it is then that fence when the fence's codec
inverts itself, and it is absent otherwise. The reply carries the presence as a flag of
its own, after the slot and before the fence and the status. -/
theorem C16_dequeueBuffer_fence {σ F G : Type} (first : Nat) (cpcam : Bool)
    (env : Env F G) (bbinder : Nat → Parcel → Parcel → Nat → status_t × Parcel × Parcel)
    (impl : Impl σ F G) (init : QueueBufferInput F) (bn : Bn σ F G)
    (sent : List (Nat × Parcel)) (buf : Int) (fence : Option F) (w h format usage : Nat)
    (hw : w < 2 ^ 32) (hh : h < 2 ^ 32) (hformat : format < 2 ^ 32) (husage : usage < 2 ^ 32) :
    (BpSurfaceTexture.dequeueBuffer first cpcam env
        (channel first cpcam env bbinder impl init) ⟨bn, sent⟩ buf fence w h format
        usage).value.2.2.isSome =
      isValid env (impl.dequeueBuffer w h format usage bn.state).1.2.2 ∧
    (∀ f, (impl.dequeueBuffer w h format usage bn.state).1.2.2 = some f →
      env.fenceIsValid f = true → FenceParcelRoundTrip env f →
      (BpSurfaceTexture.dequeueBuffer first cpcam env
        (channel first cpcam env bbinder impl init) ⟨bn, sent⟩ buf fence w h format
        usage).value.2.2 = some f) ∧
    (isValid env (impl.dequeueBuffer w h format usage bn.state).1.2.2 = false →
      (BpSurfaceTexture.dequeueBuffer first cpcam env
        (channel first cpcam env bbinder impl init) ⟨bn, sent⟩ buf fence w h format
        usage).value.2.2 = none) ∧
    (channel first cpcam env bbinder impl init (Op.code first cpcam Op.DEQUEUE_BUFFER)
        ⟨[Field.token getInterfaceDescriptor, Field.int32 (toSigned 32 w),
          Field.int32 (toSigned 32 h), Field.int32 (toSigned 32 format),
          Field.int32 (toSigned 32 usage)], 0⟩ bn).1.2.fields =
      Field.int32 (impl.dequeueBuffer w h format usage bn.state).1.2.1 ::
        Field.int32
          (if isValid env (impl.dequeueBuffer w h format usage bn.state).1.2.2 = true then 1
           else 0) ::
        ((match isValid env (impl.dequeueBuffer w h format usage bn.state).1.2.2,
            (impl.dequeueBuffer w h format usage bn.state).1.2.2 with
          | true, some f => [Field.flatten env.fence f]
          | _, _ => []) ++
        [Field.int32 (impl.dequeueBuffer w h format usage bn.state).1.1]) := by
  have hch := channel_dequeueBuffer first cpcam env bbinder impl init bn (toSigned 32 w)
    (toSigned 32 h) (toSigned 32 format) (toSigned 32 usage)
  simp only [toUnsigned_toSigned_32 _ hw, toUnsigned_toSigned_32 _ hh,
    toUnsigned_toSigned_32 _ hformat, toUnsigned_toSigned_32 _ husage] at hch
  simp only [BpSurfaceTexture.dequeueBuffer, Bp.transact, Parcel.empty,
    Parcel.writeInterfaceToken, Parcel.writeInt32, List.nil_append, List.cons_append, hch]
  rcases hr : impl.dequeueBuffer w h format usage bn.state with ⟨⟨result, slot, fence1⟩, st⟩
  cases fence1 with
  | none =>
    simp [Parcel.readInt32, Parcel.read, Parcel.peek, Parcel.advance, int32ToBool,
      boolToInt32, isValid]
  | some f =>
    cases hv : env.fenceIsValid f with
    | false =>
      simp [Parcel.readInt32, Parcel.read, Parcel.peek, Parcel.advance, int32ToBool,
        boolToInt32, isValid, hv]
    | true =>
      refine ⟨?_, ?_, ?_, ?_⟩
      · simp [Parcel.readInt32, Parcel.read, Parcel.peek, Parcel.advance, int32ToBool,
          boolToInt32, isValid, hv]
      · intro g hg _ hrt
        obtain ⟨herr, hlen, hinv⟩ := hrt
        have hfg : f = g := by simpa using hg
        subst hfg
        simp [Parcel.readInt32, Parcel.read, Parcel.peek, Parcel.advance, int32ToBool,
          boolToInt32, isValid, hv, Field.flatten, herr, hlen, hinv]
      · simp [isValid, hv]
      · simp [boolToInt32, isValid, hv]

/-- C16 with a caller whose fence variable holds fence 7: the queue hands out fence 9
and the caller gets fence 9; the queue hands out a fence that is not valid and the
caller gets none. -/
theorem C16_dequeueBuffer_fence_witness :
    (BpSurfaceTexture.dequeueBuffer 1 false env32
        (channel 1 false env32 sampleBBinder sampleImpl sampleInputNoFence) ⟨⟨0, []⟩, []⟩
        0 (some 7) 256 256 1 2).value.2.2 = some 9 ∧
    (BpSurfaceTexture.dequeueBuffer 1 false env32
        (channel 1 false env32 sampleBBinder sampleImplInvalidFence sampleInputNoFence)
        ⟨⟨0, []⟩, []⟩ 0 (some 7) 256 256 1 2).value.2.2 = none :=
  ⟨(C16_dequeueBuffer_fence 1 false env32 sampleBBinder sampleImpl sampleInputNoFence
      ⟨0, []⟩ [] 0 (some 7) 256 256 1 2 (by decide) (by decide) (by decide) (by decide)).2.1
      9 rfl (by decide) (by simp [env32, FenceParcelRoundTrip, fdFence, NO_ERROR]),
    (C16_dequeueBuffer_fence 1 false env32 sampleBBinder sampleImplInvalidFence
      sampleInputNoFence ⟨0, []⟩ [] 0 (some 7) 256 256 1 2 (by decide) (by decide) (by decide)
      (by decide)).2.2.1 (by decide)⟩

/-! ## The status that the dispatcher itself returns -/

/-- C18: on bytes whose presence flag is 0, `unflatten` returns `NO_ERROR`, assigns the
timestamp, the crop, the scaling mode and the transform from the bytes, and leaves the
fence of the receiver as it was. So the fence it leaves is null only if the receiver
held none before, and two receivers that differ in their fence give different records
from the same bytes. -/
theorem C18_unflatten_keeps_fence {F G : Type} (env : Env F G) (target : QueueBufferInput F)
    (buffer : List Nat) (size : Nat) (fds : List Int) (count : Nat)
    (hflag : readNat buffer 32 sizeof_bool = 0) :
    QueueBufferInput.unflatten env target buffer size fds count =
      (NO_ERROR, ⟨readInt buffer 0 8, Rect.read buffer 8, readInt buffer 24 4,
        readNat buffer 28 4, target.fence⟩) ∧
    ((QueueBufferInput.unflatten env target buffer size fds count).2.fence = none ↔
      target.fence = none) ∧
    (∀ f : F,
      (QueueBufferInput.unflatten env
        ⟨target.timestamp, target.crop, target.scalingMode, target.transform, some f⟩
        buffer size fds count).2 ≠
      (QueueBufferInput.unflatten env
        ⟨target.timestamp, target.crop, target.scalingMode, target.transform, none⟩
        buffer size fds count).2) := by
  simp only [sizeof_bool] at hflag
  have e : ∀ t : QueueBufferInput F, QueueBufferInput.unflatten env t buffer size fds count =
      (NO_ERROR, ⟨readInt buffer 0 8, Rect.read buffer 8, readInt buffer 24 4,
        readNat buffer 28 4, t.fence⟩) := by
    intro t
    simp [QueueBufferInput.unflatten, sizeof_timestamp, sizeof_crop, sizeof_scalingMode,
      sizeof_transform, sizeof_bool, hflag]
  refine ⟨e target, ?_, ?_⟩
  · rw [e target]
  · intro f
    rw [e, e]
    simp

/-- C18 at 33 zero bytes and a receiver that holds fence 7: the record read has fence 7. -/
theorem C18_unflatten_keeps_fence_witness :
    QueueBufferInput.unflatten env32 sampleInput (List.replicate 33 0) 33 [] 0 =
      (NO_ERROR, ⟨readInt (List.replicate 33 0) 0 8, Rect.read (List.replicate 33 0) 8,
        readInt (List.replicate 33 0) 24 4, readNat (List.replicate 33 0) 28 4,
        sampleInput.fence⟩) ∧
    sampleInput.fence = some 7 :=
  ⟨(C18_unflatten_keeps_fence env32 sampleInput (List.replicate 33 0) 33 [] 0 (by decide)).1,
    rfl⟩

/-! ## The record that `QUEUE_BUFFER` decodes -/

/-- C19: for every `QUEUE_BUFFER` message with the token of the interface, whatever the
parcel or `unflatten` returned while the input record was read, `onTransact` returns
`NO_ERROR`, invokes `queueBuffer` of the implementation exactly once, with the slot,
the record as the constructor left it and the binder, and appends to the reply the
output record and the status that this invocation returned, and nothing else. -/
theorem C19_queueBuffer_ignores_decode_status {σ F G : Type} (first : Nat) (cpcam : Bool)
    (env : Env F G) (bbinder : Nat → Parcel → Parcel → Nat → status_t × Parcel × Parcel)
    (impl : Impl σ F G) (init : QueueBufferInput F) (self : Bn σ F G)
    (data reply : Parcel) (flags : Nat) (htoken : HasToken data) :
    (BnSurfaceTexture.onTransact first cpcam env bbinder impl init self
      (Op.code first cpcam Op.QUEUE_BUFFER) data reply flags).status = NO_ERROR ∧
    (BnSurfaceTexture.onTransact first cpcam env bbinder impl init self
      (Op.code first cpcam Op.QUEUE_BUFFER) data reply flags).self.calls = self.calls ++
      [(Call.queueBuffer data.advance.readInt32.1
        (QueueBufferInput.ofParcel env init data.advance.advance).1
        (if cpcam then data.advance.advance.advance.readStrongBinder.1 else none))] ∧
    (BnSurfaceTexture.onTransact first cpcam env bbinder impl init self
      (Op.code first cpcam Op.QUEUE_BUFFER) data reply flags).self.state =
      (impl.queueBuffer data.advance.readInt32.1
        (QueueBufferInput.ofParcel env init data.advance.advance).1
        (if cpcam then data.advance.advance.advance.readStrongBinder.1 else none) self.state).2 ∧
    (BnSurfaceTexture.onTransact first cpcam env bbinder impl init self
      (Op.code first cpcam Op.QUEUE_BUFFER) data reply flags).reply.fields = reply.fields ++
      [Field.inplace (impl.queueBuffer data.advance.readInt32.1
        (QueueBufferInput.ofParcel env init data.advance.advance).1
        (if cpcam then data.advance.advance.advance.readStrongBinder.1 else none) self.state).1.2,
        Field.int32 (impl.queueBuffer data.advance.readInt32.1
        (QueueBufferInput.ofParcel env init data.advance.advance).1
        (if cpcam then data.advance.advance.advance.readStrongBinder.1 else none) self.state).1.1] := by
  rw [onTransact_code first cpcam env bbinder impl init self _ data reply flags
    (base_mem cpcam _ (by decide))]
  cases cpcam <;>
    simp [BnSurfaceTexture.caseOf, BnSurfaceTexture.caseQueueBuffer,
      CHECK_INTERFACE_of_hasToken _ _ _ _ htoken, Parcel.writeInt32, Parcel.writeInplace,
      Parcel.readInt32, QueueBufferInput.ofParcel, Parcel.read, Parcel.advance, Bn.invoked]

/-- C19 on a queue whose next status is -2, at a message with no record after the slot,
where the parcel fails with `BAD_VALUE`, and at a message whose record has the flag set
and seven bytes left for the fence, where `unflatten` fails with `BAD_VALUE`: both reach
`queueBuffer` and are answered with `NO_ERROR` and the status -2. -/
theorem C19_queueBuffer_ignores_decode_status_witness :
    ((Parcel.read (QueueBufferInput.flattenable env32)
        (Parcel.advance (Parcel.advance ⟨[Field.token getInterfaceDescriptor, Field.int32 2], 0⟩))
        sampleInputNoFence).1.1 = BAD_VALUE ∧
      (BnSurfaceTexture.onTransact 1 false env32 sampleBBinder sampleImpl sampleInputNoFence
        ⟨2, []⟩ (Op.code 1 false Op.QUEUE_BUFFER)
        ⟨[Field.token getInterfaceDescriptor, Field.int32 2], 0⟩ Parcel.empty 0).status = NO_ERROR ∧
      (BnSurfaceTexture.onTransact 1 false env32 sampleBBinder sampleImpl sampleInputNoFence
        ⟨2, []⟩ (Op.code 1 false Op.QUEUE_BUFFER)
        ⟨[Field.token getInterfaceDescriptor, Field.int32 2], 0⟩ Parcel.empty 0).self.calls = [Call.queueBuffer 2 sampleInputNoFence none] ∧
      (BnSurfaceTexture.onTransact 1 false env32 sampleBBinder sampleImpl sampleInputNoFence
        ⟨2, []⟩ (Op.code 1 false Op.QUEUE_BUFFER)
        ⟨[Field.token getInterfaceDescriptor, Field.int32 2], 0⟩ Parcel.empty 0).reply.fields = [Field.inplace ⟨256, 256, 4, 2⟩, Field.int32 (-2)]) ∧
    ((Parcel.read (QueueBufferInput.flattenable env32)
        (Parcel.advance (Parcel.advance ⟨[Field.token getInterfaceDescriptor, Field.int32 2,
          Field.flat 40 0 (List.replicate 32 0 ++ [1]) []], 0⟩))
        sampleInputNoFence).1.1 = BAD_VALUE ∧
      (BnSurfaceTexture.onTransact 1 false env32 sampleBBinder sampleImpl sampleInputNoFence
        ⟨2, []⟩ (Op.code 1 false Op.QUEUE_BUFFER)
        ⟨[Field.token getInterfaceDescriptor, Field.int32 2,
          Field.flat 40 0 (List.replicate 32 0 ++ [1]) []], 0⟩ Parcel.empty 0).status = NO_ERROR ∧
      (BnSurfaceTexture.onTransact 1 false env32 sampleBBinder sampleImpl sampleInputNoFence
        ⟨2, []⟩ (Op.code 1 false Op.QUEUE_BUFFER)
        ⟨[Field.token getInterfaceDescriptor, Field.int32 2,
          Field.flat 40 0 (List.replicate 32 0 ++ [1]) []], 0⟩ Parcel.empty 0).self.calls = [Call.queueBuffer 2 ⟨0, ⟨0, 0, 0, 0⟩, 0, 0, some (-1)⟩ none] ∧
      (BnSurfaceTexture.onTransact 1 false env32 sampleBBinder sampleImpl sampleInputNoFence
        ⟨2, []⟩ (Op.code 1 false Op.QUEUE_BUFFER)
        ⟨[Field.token getInterfaceDescriptor, Field.int32 2,
          Field.flat 40 0 (List.replicate 32 0 ++ [1]) []], 0⟩ Parcel.empty 0).reply.fields = [Field.inplace ⟨256, 256, 0, 2⟩, Field.int32 (-2)]) :=
  ⟨⟨by decide, (C19_queueBuffer_ignores_decode_status 1 false env32 sampleBBinder sampleImpl
      sampleInputNoFence ⟨2, []⟩ ⟨[Field.token getInterfaceDescriptor, Field.int32 2], 0⟩
      Parcel.empty 0 rfl).1, (C19_queueBuffer_ignores_decode_status 1 false env32 sampleBBinder sampleImpl
      sampleInputNoFence ⟨2, []⟩ ⟨[Field.token getInterfaceDescriptor, Field.int32 2], 0⟩
      Parcel.empty 0 rfl).2.1, (C19_queueBuffer_ignores_decode_status 1 false env32 sampleBBinder sampleImpl
      sampleInputNoFence ⟨2, []⟩ ⟨[Field.token getInterfaceDescriptor, Field.int32 2], 0⟩
      Parcel.empty 0 rfl).2.2.2⟩,
    ⟨by decide, (C19_queueBuffer_ignores_decode_status 1 false env32 sampleBBinder sampleImpl
      sampleInputNoFence ⟨2, []⟩
      ⟨[Field.token getInterfaceDescriptor, Field.int32 2,
        Field.flat 40 0 (List.replicate 32 0 ++ [1]) []], 0⟩ Parcel.empty 0 rfl).1, (C19_queueBuffer_ignores_decode_status 1 false env32 sampleBBinder sampleImpl
      sampleInputNoFence ⟨2, []⟩
      ⟨[Field.token getInterfaceDescriptor, Field.int32 2,
        Field.flat 40 0 (List.replicate 32 0 ++ [1]) []], 0⟩ Parcel.empty 0 rfl).2.1, (C19_queueBuffer_ignores_decode_status 1 false env32 sampleBBinder sampleImpl
      sampleInputNoFence ⟨2, []⟩
      ⟨[Field.token getInterfaceDescriptor, Field.int32 2,
        Field.flat 40 0 (List.replicate 32 0 ++ [1]) []], 0⟩ Parcel.empty 0 rfl).2.2.2⟩⟩

/-! ## The length handed to the fence -/

theorem sizeSub_of_le (bits size : Nat) (h1 : 33 ≤ size) (h2 : size < 2 ^ bits) :
    sizeSub bits size 33 = size - 33 := by
  have e := sizeSub_add_left bits 33 (size - 33) (by omega)
  rwa [show 33 + (size - 33) = size by omega] at e

theorem sizeSub_of_lt (bits size : Nat) (h1 : size < 33) (h2 : 33 < 2 ^ bits) :
    sizeSub bits size 33 = 2 ^ bits + size - 33 := by
  unfold sizeSub
  have hM : (2 : Int) ^ bits = ((2 ^ bits : Nat) : Int) := by push_cast; rfl
  rw [hM]
  generalize 2 ^ bits = N at *
  have e : ((size : Int) - ((33 : Nat) : Int)) % (N : Int) =
      (size : Int) - 33 + (N : Int) := by
    rw [← Int.add_emod_self]
    apply Int.emod_eq_of_lt <;> push_cast <;> omega
  rw [e]
  omega

/-- C20: the length that `flatten` and `unflatten` hand to the fence is `size - 33` in
`size_t` arithmetic: it is `size - 33` for every `size` from 33 on, and for every
`size` below 33 it wraps around to `2 ^ w + size - 33`, which is larger than `size`,
and the call is not refused. When the presence flag is set, the status of `flatten`
and of `unflatten` is exactly the status of the fence's codec on that length, and it
is `NO_ERROR` whenever the flag is clear. -/
theorem C20_remaining_length {F G : Type} (env : Env F G) (hbits : 33 < 2 ^ env.sizeBits) :
    (∀ size, 33 ≤ size → size < 2 ^ env.sizeBits → sizeSub env.sizeBits size 33 = size - 33) ∧
    (∀ size, size < 33 →
      sizeSub env.sizeBits size 33 = 2 ^ env.sizeBits + size - 33 ∧
      ((sizeSub env.sizeBits size 33 : Nat) : Int) =
        ((size : Int) - 33) % (2 : Int) ^ env.sizeBits ∧
      size < sizeSub env.sizeBits size 33) ∧
    (∀ (r : QueueBufferInput F) (size count : Nat) (f : F),
      r.fence = some f → env.fenceIsValid f = true →
      (QueueBufferInput.flatten env r size count).err =
        (env.fence.flatten f (sizeSub env.sizeBits size 33) count).err) ∧
    (∀ (r : QueueBufferInput F) (size count : Nat), isValid env r.fence = false →
      (QueueBufferInput.flatten env r size count).err = NO_ERROR) ∧
    (∀ (target : QueueBufferInput F) (buffer : List Nat) (size : Nat) (fds : List Int)
        (count : Nat), readNat buffer 32 sizeof_bool ≠ 0 →
      (QueueBufferInput.unflatten env target buffer size fds count).1 =
        (env.fence.unflatten env.fenceNew (buffer.drop 33) (sizeSub env.sizeBits size 33)
          fds count).1) ∧
    (∀ (target : QueueBufferInput F) (buffer : List Nat) (size : Nat) (fds : List Int)
        (count : Nat), readNat buffer 32 sizeof_bool = 0 →
      (QueueBufferInput.unflatten env target buffer size fds count).1 = NO_ERROR) := by
  refine ⟨?_, ?_, ?_, ?_, ?_, ?_⟩
  · intro size h1 h2
    exact sizeSub_of_le _ _ h1 h2
  · intro size h1
    have e := sizeSub_of_lt env.sizeBits size h1 hbits
    refine ⟨e, ?_, by omega⟩
    unfold sizeSub
    apply Int.toNat_of_nonneg
    apply Int.emod_nonneg
    positivity
  · intro r size count f hf hv
    obtain ⟨ts, crop, sm, tr, fence⟩ := r
    simp only at hf
    subst hf
    simp [QueueBufferInput.flatten, isValid, hv, header_length]
  · intro r size count hv
    obtain ⟨ts, crop, sm, tr, fence⟩ := r
    cases fence with
    | none => simp [QueueBufferInput.flatten, isValid]
    | some f =>
      simp only [isValid] at hv
      simp [QueueBufferInput.flatten, isValid, hv]
  · intro target buffer size fds count hflag
    simp only [sizeof_bool] at hflag
    simp [QueueBufferInput.unflatten, sizeof_timestamp, sizeof_crop, sizeof_scalingMode,
      sizeof_transform, sizeof_bool, hflag]
  · intro target buffer size fds count hflag
    simp only [sizeof_bool] at hflag
    simp [QueueBufferInput.unflatten, sizeof_timestamp, sizeof_crop, sizeof_scalingMode,
      sizeof_transform, sizeof_bool, hflag]

/-- C20 with a 32-bit `size_t`: a size of 40 leaves 7, a size of 10 wraps around to
`2 ^ 32 - 23`, and `flatten` of a record with fence 7 into 10 bytes returns what the
fence returns on that length. -/
theorem C20_remaining_length_witness :
    sizeSub env32.sizeBits 40 33 = 40 - 33 ∧
    (sizeSub env32.sizeBits 10 33 = 2 ^ env32.sizeBits + 10 - 33 ∧
      10 < sizeSub env32.sizeBits 10 33) ∧
    (QueueBufferInput.flatten env32 sampleInput 10 1).err =
      (env32.fence.flatten 7 (sizeSub env32.sizeBits 10 33) 1).err :=
  ⟨(C20_remaining_length env32 (by decide)).1 40 (by decide) (by decide),
    ⟨((C20_remaining_length env32 (by decide)).2.1 10 (by decide)).1,
      ((C20_remaining_length env32 (by decide)).2.1 10 (by decide)).2.2⟩,
    (C20_remaining_length env32 (by decide)).2.2.1 sampleInput 10 1 7 rfl (by decide)⟩

end android
